import Mathlib

/-!
# Filter compiler of the querier (`server/querier/engine/clickhouse/filter.go`)

A shallow embedding of the WHERE/HAVING translation code.  Go strings are
embedded as Lean strings, read as sequences of characters; the two readings
agree on ASCII text, which is what operator tokens, tag names and the literals
of the encoders consist of.  The few functions of the Go standard library that
the code calls are embedded by their documented behaviour, each on the list of
characters of its argument, so that every definition is evaluated by the
kernel.  The start and stop of the Prometheus encoder
(`server/controller/prometheus/encoder/encoder.go`) are embedded as functions on the
state they touch, with the mutex as a flag.
-/

set_option autoImplicit false

namespace Deepflow

/-! ## Go standard library: `strings` -/

namespace strings

/-- Embedding of `strings.ToLower` on ASCII text: the letters `A` to `Z` are lowered, every
other character is kept.  `strings.ToLower` also lowers the letters outside ASCII,
which this embedding keeps as they are; the code applies it to operator
tokens, function names and resource names, which it compares with ASCII
constants. -/
def ToLower (s : String) : String := ⟨s.data.map Char.toLower⟩

/-- Worker of `ReplaceAll` for a non-empty `old`: the counter is the number of
characters of a match still to be skipped. -/
def replaceAux (old new : List Char) : List Char → Nat → List Char
  | [], _ => []
  | _ :: cs, k + 1 => replaceAux old new cs k
  | c :: cs, 0 =>
    if old.isPrefixOf (c :: cs) then new ++ replaceAux old new cs (old.length - 1)
    else c :: replaceAux old new cs 0

/-- Embedding of `strings.ReplaceAll(s, old, new)`: every non-overlapping occurrence of `old`,
from the left, replaced by `new`; an empty `old` matches before every character
and at the end. -/
def ReplaceAll (s old new : String) : String :=
  if old.data = [] then ⟨new.data ++ (s.data.map (fun c => c :: new.data)).flatten⟩
  else ⟨replaceAux old.data new.data s.data 0⟩

/-- Embedding of `strings.HasPrefix`. -/
def HasPrefix (s pre : String) : Bool := pre.data.isPrefixOf s.data

/-- Embedding of `strings.HasSuffix`. -/
def HasSuffix (s suf : String) : Bool := suf.data.reverse.isPrefixOf s.data.reverse

/-- Embedding of `strings.TrimPrefix`. -/
def TrimPrefix (s pre : String) : String :=
  if HasPrefix s pre then ⟨s.data.drop pre.data.length⟩ else s

/-- Embedding of `strings.TrimSuffix`. -/
def TrimSuffix (s suf : String) : String :=
  if HasSuffix s suf then ⟨s.data.take (s.data.length - suf.data.length)⟩ else s

/-- Embedding of `strings.TrimLeft(s, cutset)`: leading characters of `cutset` removed. -/
def TrimLeft (s cutset : String) : String :=
  ⟨s.data.dropWhile (fun c => cutset.data.contains c)⟩

/-- Embedding of `strings.TrimRight(s, cutset)`: trailing characters of `cutset` removed. -/
def TrimRight (s cutset : String) : String :=
  ⟨(s.data.reverse.dropWhile (fun c => cutset.data.contains c)).reverse⟩

/-- Embedding of `strings.Trim(s, cutset)`. -/
def Trim (s cutset : String) : String := TrimRight (TrimLeft s cutset) cutset

/-- White space as `unicode.IsSpace` defines it. -/
def isSpace (c : Char) : Bool :=
  let n := c.toNat
  (9 ≤ n && n ≤ 13) || n = 32 || n = 0x85 || n = 0xA0 || n = 0x1680 ||
  (0x2000 ≤ n && n ≤ 0x200a) || n = 0x2028 || n = 0x2029 || n = 0x202f ||
  n = 0x205f || n = 0x3000

/-- Embedding of `strings.TrimSpace`. -/
def TrimSpace (s : String) : String :=
  ⟨((s.data.dropWhile isSpace).reverse.dropWhile isSpace).reverse⟩

/-- Does `sub` occur in the list at some position. -/
def containsAux (sub : List Char) : List Char → Bool
  | [] => sub.isEmpty
  | c :: cs => sub.isPrefixOf (c :: cs) || containsAux sub cs

/-- Embedding of `strings.Contains`. -/
def Contains (s sub : String) : Bool := containsAux sub.data s.data

/-- Worker of `Split` for a non-empty separator; the counter is the number of
characters of a separator still to be skipped. -/
def splitAux (sep : List Char) : List Char → Nat → List (List Char)
  | [], _ => [[]]
  | _ :: cs, k + 1 => splitAux sep cs k
  | c :: cs, 0 =>
    if sep.isPrefixOf (c :: cs) then [] :: splitAux sep cs (sep.length - 1)
    else
      match splitAux sep cs 0 with
      | [] => [[c]]
      | h :: t => (c :: h) :: t

/-- Embedding of `strings.Split(s, sep)`: the pieces of `s` between the occurrences of `sep`
(one piece, `s` itself, when `sep` does not occur); an empty `sep` splits after
every character. -/
def Split (s sep : String) : List String :=
  if sep.data = [] then s.data.map (fun c => ⟨[c]⟩)
  else (splitAux sep.data s.data 0).map String.mk

/-- Embedding of `strings.Join`. -/
def Join : List String → String → String
  | [], _ => ""
  | [a], _ => a
  | a :: b :: rest, sep => a ++ sep ++ Join (b :: rest) sep

end strings

/-! ## Go standard library: `strconv` and `fmt` -/

namespace strconv

/-- Decimal text of an integer (`strconv.Itoa`, and the verbs `%d`/`%v` on integers). -/
def Itoa (n : Int) : String :=
  match n with
  | Int.ofNat m => Nat.repr m
  | Int.negSucc m => "-" ++ Nat.repr (m + 1)

/-- Value of a list of decimal digits, `none` if a character is not a digit. -/
def digitsValue : List Char → Nat → Option Nat
  | [], acc => some acc
  | c :: cs, acc =>
    if '0' ≤ c ∧ c ≤ '9' then digitsValue cs (acc * 10 + (c.toNat - '0'.toNat)) else none

/-- Embedding of `strconv.Atoi`: an optional sign followed by at least one decimal digit,
the value within the 64-bit signed range; `none` stands for the returned
error. -/
def Atoi (s : String) : Option Int :=
  let body (neg : Bool) (ds : List Char) : Option Int :=
    if ds = [] then none
    else
      match digitsValue ds 0 with
      | none => none
      | some n =>
        if neg then (if n ≤ 2 ^ 63 then some (-(n : Int)) else none)
        else (if n < 2 ^ 63 then some (n : Int) else none)
  match s.data with
  | [] => none
  | c :: cs =>
    if c = '-' then body true cs
    else if c = '+' then body false cs
    else body false (c :: cs)

/-- Embedding of `strconv.ParseInt(s, 10, 64)`: an optional sign followed by at least one
decimal digit, the value within the 64-bit signed range; `none` stands for the
returned error. -/
def ParseInt (s : String) : Option Int := Atoi s

end strconv

namespace fmt

/-- An operand of `Sprintf`: the code formats strings and integers only. -/
inductive Arg where
  | str (s : String)
  | int (n : Int)
  deriving DecidableEq, Repr

instance : Coe String Arg := ⟨Arg.str⟩

/-- Operand as the verb `%v` prints it. -/
def Arg.plain : Arg → List Char
  | .str s => s.data
  | .int n => (strconv.Itoa n).data

/-- Operand in the form `type=value` of the error reports of `Sprintf`. -/
def Arg.typed : Arg → List Char
  | .str s => "string=".data ++ s.data
  | .int n => "int=".data ++ (strconv.Itoa n).data

/-- Output of one verb applied to one operand. -/
def verb (v : Char) (a : Arg) : List Char :=
  if v = 'v' then a.plain
  else if v = 's' then
    match a with
    | .str s => s.data
    | .int _ => "%!s(".data ++ a.typed ++ ")".data
  else if v = 'd' then
    match a with
    | .int n => (strconv.Itoa n).data
    | .str _ => "%!d(".data ++ a.typed ++ ")".data
  else "%!".data ++ [v] ++ "(".data ++ a.typed ++ ")".data

/-- Report of the operands left over when the format is exhausted. -/
def extra : List Arg → List Char
  | [] => []
  | a :: rest =>
    "%!(EXTRA ".data ++ a.typed ++ (rest.map (fun b => ", ".data ++ b.typed)).flatten ++ ")".data

/-- Worker of `Sprintf` on the characters of the format. -/
def sprintfAux : List Char → List Arg → List Char
  | [], args => extra args
  | c :: rest, args =>
    if c = '%' then
      match rest with
      | [] => "%!(NOVERB)".data ++ extra args
      | v :: rest' =>
        if v = '%' then '%' :: sprintfAux rest' args
        else
          match args with
          | [] => "%!".data ++ [v] ++ "(MISSING)".data ++ sprintfAux rest' []
          | a :: more => verb v a ++ sprintfAux rest' more
    else c :: sprintfAux rest args

/-- Embedding of `fmt.Sprintf` for formats built from plain text and the verbs `%s`, `%v`, `%d` and
`%%` without flags, which is what the formats of the filter compiler and the
translation templates of the tag registry use: each verb consumes the next
operand, a verb without operand prints `%!v(MISSING)`, operands left over are
reported in a trailing `%!(EXTRA ...)`. -/
def Sprintf (format : String) (args : List Arg) : String := ⟨sprintfAux format.data args⟩

end fmt

/-! ## Go standard library: `net` -/

namespace net

/-- Bound `big` of the number scanners of package `net`. -/
def big : Nat := 0xFFFFFF

/-- Value of a hexadecimal digit. -/
def hexVal (c : Char) : Option Nat :=
  if '0' ≤ c ∧ c ≤ '9' then some (c.toNat - '0'.toNat)
  else if 'a' ≤ c ∧ c ≤ 'f' then some (c.toNat - 'a'.toNat + 10)
  else if 'A' ≤ c ∧ c ≤ 'F' then some (c.toNat - 'A'.toNat + 10)
  else none

/-- Scanner `xtoi` of hexadecimal numbers: the number, the characters consumed, success. -/
def xtoi : List Char → Nat → Nat → Nat × Nat × Bool
  | [], n, i => if i = 0 then (0, i, false) else (n, i, true)
  | c :: cs, n, i =>
    match hexVal c with
    | some d => if n * 16 + d ≥ big then (0, i, false) else xtoi cs (n * 16 + d) (i + 1)
    | none => if i = 0 then (0, i, false) else (n, i, true)

/-- Scanner `dtoi` of decimal numbers: the number, the characters consumed, success. -/
def dtoi : List Char → Nat → Nat → Nat × Nat × Bool
  | [], n, i => if i = 0 then (0, 0, false) else (n, i, true)
  | c :: cs, n, i =>
    if '0' ≤ c ∧ c ≤ '9' then
      (if n * 10 + (c.toNat - '0'.toNat) ≥ big then (big, i, false)
       else dtoi cs (n * 10 + (c.toNat - '0'.toNat)) (i + 1))
    else if i = 0 then (0, 0, false) else (n, i, true)

/-- Scanner `xtoi2`: the next two hexadecimal digits of `s` as a byte; when `s` has a
third character it must be `e`. -/
def xtoi2 (s : List Char) (e : Char) : Nat × Bool :=
  if s.length > 2 ∧ s.get? 2 ≠ some e then (0, false)
  else
    match xtoi (s.take 2) 0 0 with
    | (n, ei, ok) => (n % 256, ok && ei == 2)

/-- The `k` groups `xx<sep>` of the colon and dash forms of a MAC. -/
def macGroups3 (sep : Char) : List Char → Nat → Option (List Nat)
  | _, 0 => some []
  | s, k + 1 =>
    match xtoi2 s sep with
    | (b, true) => (macGroups3 sep (s.drop 3) k).map (fun l => b :: l)
    | (_, false) => none

/-- The `k` groups `xxxx.` of the dotted form of a MAC, two bytes each. -/
def macGroups5 : List Char → Nat → Option (List Nat)
  | _, 0 => some []
  | s, k + 1 =>
    match xtoi2 (s.take 2) (Char.ofNat 0) with
    | (b₁, true) =>
      (match xtoi2 (s.drop 2) '.' with
       | (b₂, true) => (macGroups5 (s.drop 5) k).map (fun l => b₁ :: b₂ :: l)
       | (_, false) => none)
    | (_, false) => none

/-- Embedding of `net.ParseMAC`: a 6-, 8- or 20-byte address in one of the forms
`xx:xx:…`, `xx-xx-…`, `xxxx.xxxx.…`; `none` stands for the error
`invalid MAC address`. -/
def ParseMAC (s : String) : Option (List Nat) :=
  let cs := s.data
  let len := cs.length
  if len < 14 then none
  else if cs.get? 2 = some ':' ∨ cs.get? 2 = some '-' then
    if (len + 1) % 3 ≠ 0 then none
    else
      let n := (len + 1) / 3
      if n ≠ 6 ∧ n ≠ 8 ∧ n ≠ 20 then none
      else macGroups3 (cs.getD 2 ':') cs n
  else if cs.get? 4 = some '.' then
    if (len + 1) % 5 ≠ 0 then none
    else
      let n := 2 * (len + 1) / 5
      if n ≠ 6 ∧ n ≠ 8 ∧ n ≠ 20 then none
      else macGroups5 cs (n / 2)
  else none

/-- Digit of the table `hexDigit`. -/
def hexDigit (n : Nat) : Char := "0123456789abcdef".data.getD n '0'

/-- Text of a hardware address, `HardwareAddr.String`: the bytes in lower-case hexadecimal,
separated by colons. -/
def HardwareAddr.String : List Nat → String
  | [] => ""
  | [b] => ⟨[hexDigit (b / 16), hexDigit (b % 16)]⟩
  | b :: c :: rest =>
    ⟨hexDigit (b / 16) :: hexDigit (b % 16) :: ':' :: (HardwareAddr.String (c :: rest)).data⟩

/-- The four decimal fields of `parseIPv4`; `i` is the index of the field. -/
def parseIPv4Fields : Nat → Nat → List Char → Option (List Nat)
  | 0, _, s => if s = [] then some [] else none
  | k + 1, i, s =>
    if s = [] then none
    else
      let s₁ := if i > 0 then (if s.head? = some '.' then some s.tail else none) else some s
      match s₁ with
      | none => none
      | some s₂ =>
        match dtoi s₂ 0 0 with
        | (n, c, ok) =>
          if !ok ∨ n > 0xFF then none
          else if c > 1 ∧ s₂.head? = some '0' then none
          else (parseIPv4Fields k (i + 1) (s₂.drop c)).map (fun l => n :: l)

/-- Embedding of `parseIPv4` of package `net`: dotted decimal, the four bytes. -/
def parseIPv4 (s : List Char) : Option (List Nat) := parseIPv4Fields 4 0 s

/-- State of the loop of `parseIPv6`: the rest of the text, the bytes stored, the
position of the ellipsis. -/
structure V6State where
  s : List Char
  ip : List Nat
  ellipsis : Option Nat

/-- Loop of `parseIPv6` over the 16-bit groups; the first argument bounds the
iterations as `i < IPv6len` does (`i` is the number of bytes stored). -/
def parseIPv6Loop : Nat → V6State → Option V6State
  | 0, st => some st
  | fuel + 1, st =>
    match xtoi st.s 0 0 with
    | (n, c, ok) =>
      if !ok ∨ n > 0xFFFF then none
      else if c < st.s.length ∧ st.s.get? c = some '.' then
        if st.ellipsis = none ∧ st.ip.length ≠ 12 then none
        else if st.ip.length + 4 > 16 then none
        else
          match parseIPv4 st.s with
          | none => none
          | some ip4 => some { s := [], ip := st.ip ++ ip4, ellipsis := st.ellipsis }
      else
        let ip := st.ip ++ [(n / 256) % 256, n % 256]
        let s := st.s.drop c
        if s = [] then some { s := s, ip := ip, ellipsis := st.ellipsis }
        else if s.head? ≠ some ':' ∨ s.length = 1 then none
        else
          let s := s.tail
          if s.head? = some ':' then
            if st.ellipsis ≠ none then none
            else if s.tail = [] then some { s := [], ip := ip, ellipsis := some ip.length }
            else parseIPv6Loop fuel { s := s.tail, ip := ip, ellipsis := some ip.length }
          else parseIPv6Loop fuel { s := s, ip := ip, ellipsis := st.ellipsis }

/-- Embedding of `parseIPv6` of package `net`: the sixteen bytes of the address. -/
def parseIPv6 (s : List Char) : Option (List Nat) :=
  let lead := s.take 2 = [':', ':']
  let s₀ := if lead then s.drop 2 else s
  if lead ∧ s₀ = [] then some (List.replicate 16 0)
  else
    match parseIPv6Loop 8 { s := s₀, ip := [], ellipsis := if lead then some 0 else none } with
    | none => none
    | some st =>
      if st.s ≠ [] then none
      else if st.ip.length < 16 then
        match st.ellipsis with
        | none => none
        | some e => some (st.ip.take e ++ List.replicate (16 - st.ip.length) 0 ++ st.ip.drop e)
      else if st.ellipsis ≠ none then none
      else some st.ip

/-- Embedding of `net.ParseIP`: the sixteen-byte form of an IPv4 or IPv6 literal; the first `.`
or `:` of the text selects the parser. -/
def ParseIP (s : String) : Option (List Nat) :=
  match s.data.find? (fun c => c = '.' ∨ c = ':') with
  | none => none
  | some c =>
    if c = '.' then
      (parseIPv4 s.data).map (fun b => [0, 0, 0, 0, 0, 0, 0, 0, 0, 0, 0xff, 0xff] ++ b)
    else parseIPv6 s.data

/-- Embedding of `IP.To4`: the four bytes of an IPv4 address, also of one in the IPv4-mapped
sixteen-byte form. -/
def To4 (ip : List Nat) : Option (List Nat) :=
  if ip.length = 4 then some ip
  else if ip.length = 16 ∧ ip.take 10 = List.replicate 10 0 ∧ ip.get? 10 = some 0xff ∧
      ip.get? 11 = some 0xff then some (ip.drop 12)
  else none

end net

/-! ## Helpers of the repository outside the excerpt -/

namespace utils

/-- Modelled from the spec: `utils.Mac2Uint64` is not part of the excerpt.  The MAC
is encoded as an unsigned 64-bit integer: the big-endian 16-bit value of its
first two bytes shifted left by 32, or-ed with the big-endian 32-bit value of
the four bytes that follow. -/
def Mac2Uint64 (mac : List Nat) : Nat :=
  ((mac.getD 0 0 * 256 + mac.getD 1 0) <<< 32) |||
    (((mac.getD 2 0 * 256 + mac.getD 3 0) * 256 + mac.getD 4 0) * 256 + mac.getD 5 0)

/-- Modelled from the spec: `utils.Uint64ToMac` is not part of the excerpt.  The
integer is decoded back to a MAC: the low six of its eight big-endian bytes. -/
def Uint64ToMac (v : Nat) : List Nat :=
  [(v >>> 40) % 256, (v >>> 32) % 256, (v >>> 24) % 256, (v >>> 16) % 256, (v >>> 8) % 256,
    v % 256]

/-- Modelled from the spec: `utils.IpToUint32` is not part of the excerpt.  The four
bytes of an IPv4 address as an unsigned 32-bit integer, big-endian. -/
def IpToUint32 (ip : List Nat) : Nat :=
  ((ip.getD 0 0 * 256 + ip.getD 1 0) * 256 + ip.getD 2 0) * 256 + ip.getD 3 0

end utils

/-! ## Data model of the filter compiler -/

/-- Errors the compiler returns, by kind. -/
inductive Err where
  /-- Error of `net.ParseMAC` (`invalid MAC address`) on the given text. -/
  | invalidMAC (addr : String)
  /-- Error `invalid ipv4 mac: <value>` of the `tap_port` encoder. -/
  | invalidIpv4Mac (value : String)
  /-- Error of `netaddr.ParseIPPrefix` on the given text. -/
  | parseIPPrefix (value : String)
  /-- Error of `strconv.Atoi` on the given text. -/
  | atoi (value : String)
  /-- Error `<name> not found` of the Prometheus registries. -/
  | notFound (name : String)
  /-- Error `opeartor: <op> not support`. -/
  | operatorNotSupport (op : String)
  /-- Error `no tag <tag> in <db>.<table>`. -/
  | noTag (tag db table : String)
  /-- Error returned by the backing store. -/
  | query (msg : String)
  /-- Run-time failure (failed type assertion, index out of range). -/
  | runtime (msg : String)
  /-- Error of the expression evaluator (`govaluate`) on the given text. -/
  | expression (text : String)
  deriving DecidableEq, Repr

/-- Translation templates of a tag (`tag.Tag`), format strings of `Sprintf`. -/
structure Tag where
  WhereTranslator : String
  WhereRegexpTranslator : String
  deriving DecidableEq, Repr

/-- The field of `tag.TagDescription` the compiler reads. -/
structure TagDescription where
  EnumFile : String
  deriving DecidableEq, Repr

/-- Entry of the app-label layout of a metric. -/
structure AppLabel where
  AppLabelName : String
  appLabelColumnIndex : Int
  deriving DecidableEq, Repr

/-- The registries of the global `Prometheus`. -/
structure PrometheusMap where
  MetricNameToID : String → Option Int
  LabelNameToID : String → Option Int
  MetricAppLabelLayout : String → Option (List AppLabel)

/-- One column of a row returned by the backing store. -/
inductive Cell where
  | int (n : Int)
  | uint64 (n : Nat)
  | str (s : String)
  deriving DecidableEq, Repr

/-- What the expression evaluator returns (an `interface{}`): a `float64`, given by
its conversion `int64(...)`, or a value of another type. -/
inductive EvalValue where
  | float64 (truncated : Int)
  | bool (b : Bool)
  | string (s : String)
  deriving DecidableEq, Repr

/-- Operator of a binary node (`view.Operator`), identified by its type. -/
structure Operator where
  opType : Nat
  deriving DecidableEq, Repr

/-- Type `view.OPERATOER_UNKNOWN` of an operator that is not known. -/
def OPERATOER_UNKNOWN : Nat := 0

/-- What the compiler reads and does not own: the tag registry, the enum
registries, the configuration, the operator table of package `view`, the
Prometheus registries, the IP helpers and the backing store. -/
structure Env where
  /-- Function `tag.GetTag(name, db, table, v)`. -/
  GetTag : String → String → String → String → Option Tag
  /-- Table `tag.TAG_DESCRIPTIONS`, keyed by database, table and tag name. -/
  TAG_DESCRIPTIONS : String → String → String → Option TagDescription
  /-- Is the enum file a key of `tag.TAG_STRING_ENUMS`. -/
  TAG_STRING_ENUMS : String → Bool
  /-- Setting `config.Cfg.Language`. -/
  Language : String
  /-- Function `view.GetOperator`. -/
  GetOperator : String → Operator × Nat
  /-- Constant `chCommon.DB_NAME_PROMETHEUS`. -/
  DB_NAME_PROMETHEUS : String
  Prometheus : PrometheusMap
  /-- Function `chCommon.IPFilterStringToHex`. -/
  IPFilterStringToHex : String → String
  /-- Function `netaddr.ParseIPPrefix` followed by `Masked().Range()`: the texts of the first
  and of the last address of the masked prefix, `none` for a parse error. -/
  ParseIPPrefix : String → Option (String × String)
  /-- Method `client.DoQuery`: the rows the store returns for a statement. -/
  DoQuery : String → Except Err (List (List Cell))
  /-- Setting `config.Cfg.PrometheusIdSubqueryLruTimeout`. -/
  PrometheusIdSubqueryLruTimeout : Int
  /-- Functions `govaluate.NewEvaluableExpression` and `Evaluate(nil)` in sequence: the value
  of an expression, or the error of either step. -/
  Evaluate : String → Except Err EvalValue
  /-- Table `tag.DEVICE_MAP`: the device type of a resource. -/
  DEVICE_MAP : String → Option Int
  /-- Table `tag.TAP_PORT_DEVICE_MAP`: the device type of a resource behind a tap port. -/
  TAP_PORT_DEVICE_MAP : String → Option Int

/-- The operator tokens the spec declares. -/
def declaredOperators : List String :=
  ["=", "!=", "<", "<=", ">", ">=", "in", "not in", "like", "not like", "regexp", "not regexp"]

/-- Modelled from the spec: `view.GetOperator` is not part of the excerpt.  The
declared operator tokens, matched case-insensitively, are known; every other
token has the type `OPERATOER_UNKNOWN`. -/
def view.GetOperator (op : String) : Operator × Nat :=
  let i := declaredOperators.indexOf (strings.ToLower op)
  if i < declaredOperators.length then (⟨i + 1⟩, i + 1)
  else (⟨OPERATOER_UNKNOWN⟩, OPERATOER_UNKNOWN)

/-- Function node handed to `WhereFunction` (`view.Node` of a function): its text
and its WITH subexpressions. -/
structure FuncNode where
  ToString : String
  GetWiths : List String
  deriving DecidableEq, Repr

/-- Predicate nodes the compiler returns (`view.Expr`, `view.BinaryExpr`). -/
inductive Node where
  | Expr (Value : String)
  | BinaryExpr (Left : FuncNode) (Right : Node) (Op : Operator)
  deriving DecidableEq, Repr

/-- Deferred target-label filter. -/
structure TargetLabelFilter where
  OriginFilter : String
  TransFilter : String
  deriving DecidableEq, Repr

/-- Entry of the subquery cache (`common.EntryValue`). -/
structure EntryValue where
  Time : Int
  Filter : String
  deriving DecidableEq, Repr

/-- The engine as the compiler uses it; `remote_read` is the value of the context
key of that name, if any. -/
structure CHEngine where
  AsTagMap : String → Option String
  DB : String
  Table : String
  remote_read : Option Bool
  TargetLabelFilters : List TargetLabelFilter

/-- Modelled from the spec: the process-wide subquery cache, the clock and the
backing store client are not part of the excerpt.  The cache is a map from
the original filter text to its entry (the newest binding of a key first);
`now` is the reading of the clock; `queries` lists the statements issued to
the backing store, oldest first. -/
structure Store where
  cache : List (String × EntryValue)
  now : Int
  queries : List String
  deriving DecidableEq, Repr

/-- Lookup of the subquery cache, `PrometheusSubqueryCache.Get`. -/
def Store.Get (st : Store) (key : String) : Option EntryValue :=
  (st.cache.find? (fun kv => kv.1 = key)).map (fun kv => kv.2)

/-- Insertion into the subquery cache, `PrometheusSubqueryCache.Add`. -/
def Store.Add (st : Store) (key : String) (v : EntryValue) : Store :=
  { st with cache := (key, v) :: st.cache }

/-- Receiver of `WhereTag.Trans`. -/
structure WhereTag where
  Tag : String
  Value : String
  deriving DecidableEq, Repr

/-- Receiver of `WhereFunction.Trans`. -/
structure WhereFunction where
  Function : FuncNode
  Value : String
  deriving DecidableEq, Repr

/-- The time window `view.Time`: the start and the end, each optional. -/
structure view.Time where
  TimeStart : Option Int := none
  TimeEnd : Option Int := none
  deriving DecidableEq, Repr

/-- Modelled from the spec: `view.Time.AddTimeStart` is not part of the excerpt.  A `>=`
comparison on `time` sets the start of the window; the last write wins. -/
def view.Time.AddTimeStart (t : view.Time) (timeStart : Int) : view.Time :=
  { t with TimeStart := some timeStart }

/-- Modelled from the spec: `view.Time.AddTimeEnd` is not part of the excerpt.  A `<=`
comparison on `time` sets the end of the window; the last write wins. -/
def view.Time.AddTimeEnd (t : view.Time) (timeEnd : Int) : view.Time :=
  { t with TimeEnd := some timeEnd }

/-- Modelled from the spec: `view.Filters` is not part of the excerpt.  The filter set:
the predicate accumulated so far, if a filter was added, and the WITH
subexpressions attached to it. -/
structure view.Filters where
  Expr : Option Node := none
  Withs : List String := []
  deriving DecidableEq, Repr

/-- Modelled from the spec: `view.Filters.IsNull` is not part of the excerpt.  The set is
null when no filter was added. -/
def view.Filters.IsNull (f : view.Filters) : Bool := f.Expr.isNone

/-- Modelled from the spec: `view.Model` is not part of the excerpt.  Of the statement
under assembly, the filter sets added as WHERE and those added as HAVING,
oldest first. -/
structure view.Model where
  Filters : List view.Filters := []
  Havings : List view.Filters := []
  deriving DecidableEq, Repr

/-- Modelled from the spec: `view.Model.AddFilter` adds a filter set as WHERE. -/
def view.Model.AddFilter (m : view.Model) (f : view.Filters) : view.Model :=
  { m with Filters := m.Filters ++ [f] }

/-- Modelled from the spec: `view.Model.AddHaving` adds a filter set as HAVING. -/
def view.Model.AddHaving (m : view.Model) (f : view.Filters) : view.Model :=
  { m with Havings := m.Havings ++ [f] }

/-- The compiler state `Where`: the filter set, the WITH subexpressions collected
so far and the time window. -/
structure Where where
  withs : List String
  time : view.Time := {}
  filter : view.Filters := {}
  deriving DecidableEq, Repr

/-- The compiler state `Having`, which embeds `Where`. -/
structure Having extends Where
  deriving DecidableEq, Repr

/-- Embedding of `Where.Format`: the receiver and the model after the call. -/
def Where.Format (w : Where) (m : view.Model) : Where × view.Model :=
  let w₁ : Where := { w with filter := { w.filter with Withs := w.withs } }
  if !w₁.filter.IsNull then (w₁, m.AddFilter w₁.filter) else (w₁, m)

/-- Embedding of `Having.Format`: the receiver and the model after the call. -/
def Having.Format (h : Having) (m : view.Model) : Having × view.Model :=
  let h₁ : Having := { h with filter := { h.filter with Withs := h.withs } }
  if !h₁.filter.IsNull then (h₁, m.AddHaving h₁.filter) else (h₁, m)

/-- Receiver of `TimeTag.Trans`. -/
structure TimeTag where
  Value : String
  deriving DecidableEq, Repr

/-! ## Prometheus filters (`GetPrometheusFilter`, `GetRemoteReadFilter`) -/

open strings fmt

/-- A loop that appends one result per element and returns at the first error. -/
def forEach {α β : Type} (f : α → Except Err β) : List α → Except Err (List β)
  | [] => .ok []
  | a :: rest =>
    match f a with
    | .error e => .error e
    | .ok b =>
      match forEach f rest with
      | .error e => .error e
      | .ok bs => .ok (b :: bs)

/-- Embedding of `GetPrometheusFilter`: the filter and the error (`none` for `nil`). -/
def GetPrometheusFilter (env : Env) (promTag table op value : String) : String × Option Err :=
  let nameNoPreffix := TrimPrefix promTag "tag."
  match env.Prometheus.MetricNameToID table with
  | none => ("", some (Err.notFound table))
  | some metricID =>
    match env.Prometheus.LabelNameToID nameNoPreffix with
    | none => ("", some (Err.notFound nameNoPreffix))
    | some labelNameID =>
      match ((env.Prometheus.MetricAppLabelLayout table).getD []).find?
          (fun appLabel => appLabel.AppLabelName = nameNoPreffix) with
      | some appLabel =>
        if Contains op "match" then
          (Sprintf "toUInt64(app_label_value_id_%d) IN (SELECT label_value_id FROM flow_tag.app_label_live_view WHERE label_name_id=%d and %s(label_value,%s))"
            [.int appLabel.appLabelColumnIndex, .int labelNameID, .str op, .str value], none)
        else
          (Sprintf "toUInt64(app_label_value_id_%d) IN (SELECT label_value_id FROM flow_tag.app_label_live_view WHERE label_name_id=%d and label_value %s %s)"
            [.int appLabel.appLabelColumnIndex, .int labelNameID, .str op, .str value], none)
      | none =>
        if Contains op "match" then
          (Sprintf "toUInt64(target_id) IN (SELECT target_id FROM flow_tag.target_label_live_view WHERE metric_id=%d and label_name_id=%d and %s(label_value,%s))"
            [.int metricID, .int labelNameID, .str op, .str value], none)
        else
          (Sprintf "toUInt64(target_id) IN (SELECT target_id FROM flow_tag.target_label_live_view WHERE metric_id=%d and label_name_id=%d and label_value %s %s)"
            [.int metricID, .int labelNameID, .str op, .str value], none)

/-- The id of a returned row as text: `v.([]interface{})[0]`, asserted to be an `int`
and printed with `%d`. -/
def valueIDString (row : List Cell) : Except Err String :=
  match row with
  | [] => .error (Err.runtime "index out of range [0] with length 0")
  | Cell.int n :: _ => .ok (Sprintf "%d" [.int n])
  | _ :: _ => .error (Err.runtime "interface conversion: interface is not int")

/-- The statement of the app-label lookup of `GetRemoteReadFilter` (lines 867-871). -/
def appLabelSql (labelNameID : Int) (op value : String) : String :=
  if Contains op "match" then
    Sprintf "SELECT label_value_id FROM flow_tag.app_label_live_view WHERE label_name_id=%d and %s(label_value,%s) GROUP BY label_value_id"
      [.int labelNameID, .str op, .str value]
  else
    Sprintf "SELECT label_value_id FROM flow_tag.app_label_live_view WHERE label_name_id=%d and label_value %s %s GROUP BY label_value_id"
      [.int labelNameID, .str op, .str value]

/-- The filter over the ids of the rows of the app-label lookup (lines 890-895). -/
def appLabelFilter (appLabelColumnIndex : Int) (valueIDs : List String) : String :=
  let valueIDFilter := Join valueIDs ","
  if valueIDFilter = "" then "1!=1"
  else Sprintf "app_label_value_id_%d IN (%s)" [.int appLabelColumnIndex, .str valueIDFilter]

/-- The deferred statement of a target label in `GetRemoteReadFilter` (lines 904-908). -/
def targetLabelSql (metricID labelNameID : Int) (op value : String) : String :=
  if Contains op "match" then
    Sprintf "SELECT target_id FROM flow_tag.target_label_live_view WHERE metric_id=%d and label_name_id=%d and %s(label_value,%s) GROUP BY target_id"
      [.int metricID, .int labelNameID, .str op, .str value]
  else
    Sprintf "SELECT target_id FROM flow_tag.target_label_live_view WHERE metric_id=%d and label_name_id=%d and label_value %s %s GROUP BY target_id"
      [.int metricID, .int labelNameID, .str op, .str value]

/-- Result of `GetRemoteReadFilter`: the filter, the error, the engine and the
process-wide state after the call. -/
structure RemoteReadResult where
  filter : String
  err : Option Err
  e : CHEngine
  store : Store

/-- Embedding of `GetRemoteReadFilter`. -/
def GetRemoteReadFilter (env : Env) (promTag table op value originFilter : String)
    (e : CHEngine) (store : Store) : RemoteReadResult :=
  let nameNoPreffix := TrimPrefix promTag "tag."
  match env.Prometheus.MetricNameToID table with
  | none => ⟨"", some (Err.notFound table), e, store⟩
  | some metricID =>
    match env.Prometheus.LabelNameToID nameNoPreffix with
    | none => ⟨"", some (Err.notFound nameNoPreffix), e, store⟩
    | some labelNameID =>
      match ((env.Prometheus.MetricAppLabelLayout table).getD []).find?
          (fun appLabel => appLabel.AppLabelName = nameNoPreffix) with
      | some appLabel =>
        let fresh : Option String :=
          match store.Get originFilter with
          | some cacheFilter =>
            if store.now - cacheFilter.Time < env.PrometheusIdSubqueryLruTimeout then
              some cacheFilter.Filter
            else none
          | none => none
        match fresh with
        | some filter => ⟨filter, none, e, store⟩
        | none =>
          let sql := appLabelSql labelNameID op value
          let store₁ : Store := { store with queries := store.queries ++ [sql] }
          match env.DoQuery sql with
          | .error err => ⟨"", some err, e, store₁⟩
          | .ok rows =>
            match forEach valueIDString rows with
            | .error err => ⟨"", some err, e, store₁⟩
            | .ok valueIDs =>
              let filter := appLabelFilter appLabel.appLabelColumnIndex valueIDs
              ⟨filter, none, e, store₁.Add originFilter { Time := store₁.now, Filter := filter }⟩
      | none =>
        let transFilter := targetLabelSql metricID labelNameID op value
        ⟨"", none,
          { e with TargetLabelFilters :=
              e.TargetLabelFilters ++ [{ OriginFilter := originFilter, TransFilter := transFilter }] },
          store⟩

/-! ## `WhereTag.Trans` -/

/-- Lines 156-169 of `WhereTag.Trans` (and, on `opName` and `f.Value`, lines 979-992 of
`WhereFunction.Trans`): the operator and the value after the `like` and `regexp`
families are rewritten. -/
def opValue (op value : String) : String × String :=
  if ToLower op = "like" ∨ ToLower op = "not like" then
    (if ToLower op = "like" then "ilike" else "not ilike", ReplaceAll value "*" "%")
  else if ToLower op = "regexp" ∨ ToLower op = "not regexp" then
    (if ToLower op = "regexp" then "match" else "not match", value)
  else (op, value)

/-- The pass-through predicate on the tag as written: `<op>(<tag>,<value>)` for a
regexp-style operator, `<tag> <op> <value>` otherwise. -/
def passThrough (tag op value : String) : String :=
  if Contains op "match" then Sprintf "%s(%s,%s)" [.str op, .str tag, .str value]
  else Sprintf "%s %s %s" [.str tag, .str op, .str value]

/-- The elements of a literal list: outer parentheses trimmed, split on commas. -/
def valueSlice (value : String) : List String :=
  Split (TrimRight (TrimLeft value "(") ")") ","

/-- One element of the value list of a MAC tag: the decimal text of the 64-bit
integer of the MAC, in single quotes. -/
def macElement (valueStr : String) : Except Err String :=
  let valueStr := Trim (TrimSpace valueStr) "'"
  match net.ParseMAC valueStr with
  | none => .error (Err.invalidMAC valueStr)
  | some mac => .ok (Sprintf "'%v'" [.int (utils.Mac2Uint64 mac)])

/-- Comma-separated list, in parentheses for `in` and `not in`, after the tag and
the operator; the empty filter for an empty list. -/
def listFilter (tag op : String) (macs : List String) : String :=
  if macs.length ≠ 0 then
    let macsStr := Join macs ","
    let macsStr := if ToLower op = "in" ∨ ToLower op = "not in" then "(" ++ macsStr ++ ")"
      else macsStr
    Sprintf "%s %s %s" [.str tag, .str op, .str macsStr]
  else ""

/-- Encoder of the MAC tags (`mac_0`, `mac_1`, `tunnel_tx_mac_*`, `tunnel_rx_mac_*`). -/
def macFilter (tag op value : String) : Except Err String :=
  match forEach macElement (valueSlice value) with
  | .error e => .error e
  | .ok macs => .ok (listFilter tag op macs)

/-- One element of the value list of `tap_port`. -/
def tapPortElement (valueStr : String) : Except Err String :=
  let valueStr := Trim (TrimSpace valueStr) "'"
  match net.ParseIP valueStr with
  | some ip =>
    (match net.To4 ip with
     | some ip4 => .ok (Sprintf "'%v'" [.int (utils.IpToUint32 ip4)])
     | none => .error (Err.invalidIpv4Mac valueStr))
  | none =>
    match net.ParseMAC ("00:00:" ++ valueStr) with
    | none => .ok (Sprintf "'%v'" [.str valueStr])
    | some mac => .ok (Sprintf "'%v'" [.int (utils.Mac2Uint64 mac)])

/-- Encoder of the tag `tap_port`. -/
def tapPortFilter (tag op value : String) : Except Err String :=
  match forEach tapPortElement (valueSlice value) with
  | .error e => .error e
  | .ok macs => .ok (listFilter tag op macs)

/-- Descriptor of a family with device-role variants: `<base>_0`, `<base>_1` or
`<base>` after the suffix of the name. -/
def roleTag (env : Env) (db table name base : String) : Option Tag :=
  if HasSuffix name "_0" then env.GetTag (base ++ "_0") db table "default"
  else if HasSuffix name "_1" then env.GetTag (base ++ "_1") db table "default"
  else env.GetTag base db table "default"

/-- The key of a family tag: the role suffixes, then the family name trimmed. -/
def roleKey (name family : String) : String :=
  TrimPrefix (TrimSuffix (TrimSuffix name "_0") "_1") family

/-- Result of a translation step that may touch the engine and the store. -/
structure StepResult where
  node : Except Err Node
  e : CHEngine
  store : Store

/-- The MAC tags. -/
def isMacTag (name : String) : Bool :=
  name = "mac_0" || name = "mac_1" || name = "tunnel_tx_mac_0" || name = "tunnel_tx_mac_1" ||
    name = "tunnel_rx_mac_0" || name = "tunnel_rx_mac_1"

/-- The `default:` branch of the two `switch` statements on an unresolved name
(lines 235-370 for an alias target, lines 432-579 for the tag itself): `name0`
is the name switched on, `direct` tells the second copy, the only one with
the `Enum(` branch.  `none` stands for falling through to the pass-through. -/
def familyFilter (env : Env) (t : WhereTag) (op originFilter : String) (e : CHEngine)
    (store : Store) (isRemoteRead : Bool) (name0 : String) (direct : Bool) :
    Option StepResult :=
  let db := e.DB
  let table := e.Table
  let name := Trim name0 "`"
  let twice (tagItem : Tag) (family : String) : StepResult :=
    let k := roleKey name family
    let args : List Arg := [.str op, .str t.Value, .str k, .str op, .str t.Value, .str k]
    ⟨.ok (Node.Expr (if Contains op "match" then Sprintf tagItem.WhereRegexpTranslator args
      else Sprintf tagItem.WhereTranslator args)), e, store⟩
  let once (tagItem : Tag) (family : String) : StepResult :=
    let k := roleKey name family
    let args : List Arg := [.str op, .str t.Value, .str k]
    ⟨.ok (Node.Expr (if Contains op "match" then Sprintf tagItem.WhereRegexpTranslator args
      else Sprintf tagItem.WhereTranslator args)), e, store⟩
  let free (tagItem : Tag) : StepResult :=
    let nameNoPreffix := TrimPrefix (TrimPrefix name "tag.") "attribute."
    ⟨.ok (Node.Expr (if Contains op "match" then
        Sprintf tagItem.WhereRegexpTranslator [.str op, .str nameNoPreffix, .str t.Value]
      else Sprintf tagItem.WhereTranslator [.str nameNoPreffix, .str op, .str t.Value])),
      e, store⟩
  if HasPrefix name "k8s.label." then
    (roleTag env db table name "k8s_label").map (fun tagItem => twice tagItem "k8s.label.")
  else if HasPrefix name "k8s.annotation." then
    (roleTag env db table name "k8s_annotation").map
      (fun tagItem => twice tagItem "k8s.annotation.")
  else if HasPrefix name "k8s.env." then
    (roleTag env db table name "k8s_env").map (fun tagItem => once tagItem "k8s.env.")
  else if HasPrefix name "cloud.tag." then
    (roleTag env db table name "cloud_tag").map (fun tagItem => twice tagItem "cloud.tag.")
  else if HasPrefix name "os.app." then
    (roleTag env db table name "os_app").map (fun tagItem => once tagItem "os.app.")
  else if HasPrefix name "tag." ∨ HasPrefix name "attribute." then
    if HasPrefix name "tag." then
      if isRemoteRead then
        let r := GetRemoteReadFilter env name table op t.Value originFilter e store
        match r.err with
        | some err => some ⟨.error err, r.e, r.store⟩
        | none => some ⟨.ok (Node.Expr r.filter), r.e, r.store⟩
      else if db = env.DB_NAME_PROMETHEUS then
        match GetPrometheusFilter env name table op t.Value with
        | (_, some err) => some ⟨.error err, e, store⟩
        | (filter, none) => some ⟨.ok (Node.Expr filter), e, store⟩
      else (env.GetTag "tag." db table "default").map free
    else (env.GetTag "attribute." db table "default").map free
  else if direct ∧ HasPrefix name "Enum(" then
    let name := TrimSuffix (TrimPrefix name "Enum(") ")"
    (env.GetTag name db table "enum").map (fun tagItem =>
      ⟨.ok (Node.Expr (if Contains op "match" then
          Sprintf tagItem.WhereRegexpTranslator [.str op, .str t.Value]
        else Sprintf tagItem.WhereTranslator [.str op, .str t.Value])), e, store⟩)
  else none

/-- The two `switch` statements on a name that has no descriptor (lines 177-371
for the target `name0` of an alias, lines 374-580 for the tag itself); `t.Value`
and `op` are already rewritten. -/
def unresolved (env : Env) (t : WhereTag) (op originFilter : String) (e : CHEngine)
    (store : Store) (isRemoteRead : Bool) (name0 : String) (direct : Bool) : StepResult :=
  if isMacTag name0 then
    match macFilter t.Tag op t.Value with
    | .error err => ⟨.error err, e, store⟩
    | .ok filter => ⟨.ok (Node.Expr filter), e, store⟩
  else if name0 = "tap_port" then
    match tapPortFilter t.Tag op t.Value with
    | .error err => ⟨.error err, e, store⟩
    | .ok filter => ⟨.ok (Node.Expr filter), e, store⟩
  else
    match familyFilter env t op originFilter e store isRemoteRead name0 direct with
    | some r => r
    | none => ⟨.ok (Node.Expr (passThrough t.Tag op t.Value)), e, store⟩

/-- Case `ip_version` (lines 586-604). -/
def ipVersionFilter (tagItem : Tag) (op value : String) : String :=
  let versions := (valueSlice value).map (fun valueStr => if valueStr = "4" then "1" else "0")
  if versions.length ≠ 0 then
    let versionsStr := Join versions ","
    let versionsStr :=
      if ToLower op = "in" ∨ ToLower op = "not in" then "(" ++ versionsStr ++ ")"
      else versionsStr
    Sprintf tagItem.WhereTranslator [.str op, .str versionsStr]
  else tagItem.WhereTranslator

/-- Case `is_internet`, `is_internet_0`, `is_internet_1` (lines 605-634). -/
def isInternetFilter (tagItem : Tag) (op value : String) : String :=
  let internetSlice := valueSlice value
  let hasTrue := internetSlice.any (fun valueStr => valueStr = "1" ∨ valueStr = "'1'")
  let hasFalse := internetSlice.any (fun valueStr => ¬ (valueStr = "1" ∨ valueStr = "'1'"))
  let newOP :=
    if hasTrue = true ∧ hasFalse = true then ""
    else if hasTrue = true then
      (if op = "=" ∨ ToLower op = "in" then "=" else "!=")
    else
      (if op = "=" ∨ ToLower op = "in" then "!=" else "=")
  -- the assignment `whereFilter = "1=1"` of the first branch is overwritten here
  Sprintf tagItem.WhereTranslator [.str newOP]

/-- Case `_id` (lines 635-659). -/
def idFilter (tagItem : Tag) (op value : String) : Except Err String :=
  let idSlice := valueSlice value
  let each (_ : String) : Except Err String :=
    let valueStr := Trim value "'"
    match strconv.Atoi valueStr with
    | none => .error (Err.atoi valueStr)
    | some valueInt =>
      .ok ("(" ++ Sprintf tagItem.WhereTranslator [.str op, .str value, .int valueInt] ++ ")")
  match forEach each idSlice with
  | .error err => .error err
  | .ok whereFilters =>
    if whereFilters.length ≠ 0 then
      let equalFilter := "(" ++ Join whereFilters " OR " ++ ")"
      if ToLower op = "not in" ∨ ToLower op = "!=" then .ok ("not(" ++ equalFilter ++ ")")
      else .ok equalFilter
    else .ok tagItem.WhereTranslator

/-- The filter of one CIDR from the encoded ends of its range (lines 687-694). -/
def cidrRangeFilter (tagItem : Tag) (ipOp minIP maxIP : String) : String :=
  if ipOp = ">=" ∨ ipOp = ">" then Sprintf tagItem.WhereTranslator [.str ipOp, .str maxIP]
  else if ipOp = "<=" ∨ ipOp = "<" then Sprintf tagItem.WhereTranslator [.str ipOp, .str minIP]
  else
    "(" ++ Sprintf tagItem.WhereTranslator [.str ">=", .str minIP] ++ " AND " ++
      Sprintf tagItem.WhereTranslator [.str "<=", .str maxIP] ++ ")"

/-- The filter of one CIDR of the value list of an IP tag (lines 679-696). -/
def cidrFilter (env : Env) (tagItem : Tag) (ipOp cidrIP : String) : Except Err String :=
  let cidrIP := Trim cidrIP "'"
  match env.ParseIPPrefix cidrIP with
  | none => .error (Err.parseIPPrefix cidrIP)
  | some (first, last) =>
    .ok (cidrRangeFilter tagItem ipOp (env.IPFilterStringToHex ("'" ++ first ++ "'"))
      (env.IPFilterStringToHex ("'" ++ last ++ "'")))

/-- The filter of the plain addresses of the value list of an IP tag (lines
701-719); `ips` are the encoded addresses. -/
def ipsFilter (tagItem : Tag) (ipOp : String) (ips : List String) : String :=
  if ips.length ≠ 0 then
    if ipOp = ">=" ∨ ipOp = "<=" ∨ ipOp = ">" ∨ ipOp = "<" then
      "(" ++ Join (ips.map (fun ip => Sprintf tagItem.WhereTranslator [.str ipOp, .str ip]))
        " OR " ++ ")"
    else
      let ipsStr := Join ips ","
      if ipOp = "in" ∨ ipOp = "not in" then
        "(" ++ Sprintf tagItem.WhereTranslator [.str "in", .str ("(" ++ ipsStr ++ ")")] ++ ")"
      else
        "(" ++ Sprintf tagItem.WhereTranslator [.str "=", .str ipsStr] ++ ")"
  else ""

/-- The elements of the value list of an IP tag, blanks trimmed. -/
def ipElements (value : String) : List String :=
  (valueSlice value).map (fun ipValue => Trim ipValue " ")

/-- Case of the IP tags (lines 661-735). -/
def ipFilter (env : Env) (tagItem : Tag) (op value : String) : Except Err String :=
  let ipOp := ToLower op
  let cidrIPs := (ipElements value).filter (fun ipValue => Contains ipValue "/")
  let ips := ((ipElements value).filter (fun ipValue => !Contains ipValue "/")).map
    env.IPFilterStringToHex
  match forEach (cidrFilter env tagItem ipOp) cidrIPs with
  | .error err => .error err
  | .ok cidrFilters =>
    let cidrFilterStr :=
      if cidrFilters.length ≠ 0 then "(" ++ Join cidrFilters " OR " ++ ")" else ""
    let ipsFilter := ipsFilter tagItem ipOp ips
    let finalFilters := (if cidrFilterStr ≠ "" then [cidrFilterStr] else []) ++
      (if ipsFilter ≠ "" then [ipsFilter] else [])
    let equalFilter := "(" ++ Join finalFilters " OR " ++ ")"
    if ipOp = "not in" ∨ ipOp = "!=" then .ok ("not(" ++ equalFilter ++ ")")
    else .ok equalFilter

/-- Cases of lines 736-767: `n` copies of the pair (operator, value) fill the
template; a negative operator wraps the positive form in `not(...)`. -/
def notFilter (tagItem : Tag) (op value : String) (n : Nat) : String :=
  let args (o : String) : List Arg := (List.replicate n [Arg.str o, Arg.str value]).flatten
  if ToLower op = "not match" then
    "not(" ++ Sprintf tagItem.WhereRegexpTranslator (args "match") ++ ")"
  else if ToLower op = "not ilike" then
    "not(" ++ Sprintf tagItem.WhereTranslator (args "ilike") ++ ")"
  else if ToLower op = "not in" then
    "not(" ++ Sprintf tagItem.WhereTranslator (args "in") ++ ")"
  else if ToLower op = "!=" then
    "not(" ++ Sprintf tagItem.WhereTranslator (args "=") ++ ")"
  else if ToLower op = "match" then Sprintf tagItem.WhereRegexpTranslator (args op)
  else Sprintf tagItem.WhereTranslator (args op)

/-- The IP tags. -/
def ipTags : List String :=
  ["ip", "ip_0", "ip_1", "tunnel_tx_ip_0", "tunnel_tx_ip_1", "tunnel_rx_ip_0", "tunnel_rx_ip_1",
    "nat_real_ip", "nat_real_ip_0", "nat_real_ip_1"]

/-- The tags of the case of line 736. -/
def serviceIdTags : List String :=
  ["pod_service_id", "pod_service_id_0", "pod_service_id_1", "natgw_id", "natgw_id_0",
    "natgw_id_1", "natgw", "natgw_0", "natgw_1", "lb_id", "lb_id_0", "lb_id_1", "lb", "lb_0",
    "lb_1", "lb_listener_id", "lb_listener_id_0", "lb_listener_id_1", "lb_listener",
    "lb_listener_0", "lb_listener_1"]

/-- The tags of the case of line 752. -/
def ingressTags : List String :=
  ["pod_ingress_id", "pod_ingress_id_0", "pod_ingress_id_1", "pod_ingress", "pod_ingress_0",
    "pod_ingress_1", "pod_service", "pod_service_0", "pod_service_1"]

/-- The tags of the case of line 768. -/
def autoTags : List String :=
  ["resource_gl0", "resource_gl0_0", "resource_gl0_1", "resource_gl1", "resource_gl1_0",
    "resource_gl1_1", "resource_gl2", "resource_gl2_0", "resource_gl2_1", "resource_gl0_id",
    "resource_gl0_id_0", "resource_gl0_id_1", "resource_gl1_id", "resource_gl1_id_0",
    "resource_gl1_id_1", "resource_gl2_id", "resource_gl2_id_0", "resource_gl2_id_1",
    "auto_instance", "auto_instance_0", "auto_instance_1", "auto_instance_id",
    "auto_instance_id_0", "auto_instance_id_1", "auto_service", "auto_service_0",
    "auto_service_1", "auto_service_id", "auto_service_id_0", "auto_service_id_1"]

/-- The `switch whereTag` of lines 585-786: the filter for a descriptor with a
non-empty `WhereTranslator`. -/
def whereFilter (env : Env) (tagItem : Tag) (whereTag op value : String) : Except Err String :=
  if whereTag = "ip_version" then .ok (ipVersionFilter tagItem op value)
  else if whereTag = "is_internet" ∨ whereTag = "is_internet_0" ∨ whereTag = "is_internet_1" then
    .ok (isInternetFilter tagItem op value)
  else if whereTag = "_id" then idFilter tagItem op value
  else if whereTag ∈ ipTags then ipFilter env tagItem op value
  else if whereTag ∈ serviceIdTags then .ok (notFilter tagItem op value 1)
  else if whereTag ∈ ingressTags then .ok (notFilter tagItem op value 2)
  else if whereTag ∈ autoTags then
    if Contains op "match" then
      .ok (Sprintf tagItem.WhereRegexpTranslator [.str op, .str value, .str op, .str value])
    else .ok (Sprintf tagItem.WhereTranslator [.str op, .str value, .str op, .str value])
  else if whereTag = "acl_gids" then .ok (Sprintf tagItem.WhereTranslator [.str value])
  else if Contains op "match" then
    .ok (Sprintf tagItem.WhereRegexpTranslator [.str op, .str value])
  else .ok (Sprintf tagItem.WhereTranslator [.str op, .str value])

/-- Lines 583-795: the predicate for a tag with a descriptor. -/
def resolved (env : Env) (tagItem : Tag) (t : WhereTag) (whereTag op : String) :
    Except Err Node :=
  if tagItem.WhereTranslator ≠ "" then
    match whereFilter env tagItem whereTag op t.Value with
    | .error err => .error err
    | .ok filter => .ok (Node.Expr ("(" ++ filter ++ ")"))
  else .ok (Node.Expr (passThrough t.Tag op t.Value))

/-- Result of `WhereTag.Trans`: the node or the error returned, the receiver (its
`Value` is rewritten for the `like` family), the engine and the process-wide
state after the call. -/
structure TransResult where
  node : Except Err Node
  t : WhereTag
  e : CHEngine
  store : Store

/-- Embedding of `WhereTag.Trans`; `op` is the operator of the comparison and `originFilter`
its text (`sqlparser.String(expr)`). -/
def WhereTag.Trans (env : Env) (t : WhereTag) (op originFilter : String) (e : CHEngine)
    (store : Store) : TransResult :=
  let isRemoteRead := e.remote_read.getD false
  let t₁ : WhereTag := { t with Value := (opValue op t.Value).2 }
  let op := (opValue op t.Value).1
  match env.GetTag (Trim t.Tag "`") e.DB e.Table "default" with
  | some tagItem => ⟨resolved env tagItem t₁ t.Tag op, t₁, e, store⟩
  | none =>
    match e.AsTagMap t.Tag with
    | some preAsTag =>
      (match env.GetTag (Trim preAsTag "`") e.DB e.Table "default" with
       | some tagItem => ⟨resolved env tagItem t₁ preAsTag op, t₁, e, store⟩
       | none =>
         let r := unresolved env t₁ op originFilter e store isRemoteRead preAsTag false
         ⟨r.node, t₁, r.e, r.store⟩)
    | none =>
      let r := unresolved env t₁ op originFilter e store isRemoteRead t.Tag true
      ⟨r.node, t₁, r.e, r.store⟩

/-! ## `WhereFunction.Trans` -/

/-- Result of `WhereFunction.Trans`: the node or the error returned, the receiver and
the compiler state after the call. -/
structure FunctionResult where
  node : Except Err Node
  f : WhereFunction
  w : Where

/-- The filter of an `Enum(<tag>)` comparison for a registered enum descriptor
(lines 978-1027); `op0` is the operator of the comparison, `opName` and `value`
are the rewritten operator and value. -/
def enumFilter (tagItem : Tag) (isIntEnum : Bool) (tagName enumFileName op0 opName
    value : String) : String :=
  if ToLower op0 = "=" then
    if isIntEnum then
      match strconv.Atoi (Trim value "'") with
      | some intValue =>
        Sprintf tagItem.WhereTranslator [.str "=", .str value, .str enumFileName] ++ " OR " ++
          tagName ++ " = " ++ "toUInt64(" ++ strconv.Itoa intValue ++ ")"
      | none => Sprintf tagItem.WhereTranslator [.str "=", .str value, .str enumFileName]
    else
      Sprintf tagItem.WhereTranslator [.str "=", .str value, .str enumFileName] ++ " OR " ++
        tagName ++ " = " ++ value
  else if ToLower op0 = "!=" then
    if isIntEnum then
      match strconv.Atoi (Trim value "'") with
      | some intValue =>
        Sprintf tagItem.WhereTranslator [.str opName, .str value, .str enumFileName] ++
          " AND " ++ tagName ++ " != " ++ "toUInt64(" ++ strconv.Itoa intValue ++ ")"
      | none => Sprintf tagItem.WhereTranslator [.str opName, .str value, .str enumFileName]
    else
      Sprintf tagItem.WhereTranslator [.str "=", .str value, .str enumFileName] ++ " AND " ++
        tagName ++ " != " ++ value
  else if Contains opName "match" then
    Sprintf tagItem.WhereRegexpTranslator [.str opName, .str value, .str enumFileName]
  else Sprintf tagItem.WhereTranslator [.str opName, .str value, .str enumFileName]

/-- Embedding of `WhereFunction.Trans`; `op0` is the operator of the comparison.  The alias map
the Go method receives is not read by it and is left out. -/
def WhereFunction.Trans (env : Env) (f : WhereFunction) (op0 : String) (w : Where)
    (db table : String) : FunctionResult :=
  let binary : FunctionResult :=
    ⟨.ok (Node.BinaryExpr f.Function (Node.Expr f.Value) (env.GetOperator op0).1), f,
      { w with withs := w.withs ++ f.Function.GetWiths }⟩
  if (env.GetOperator op0).2 = OPERATOER_UNKNOWN then
    ⟨.error (Err.operatorNotSupport op0), f, w⟩
  else
    let function := Trim f.Function.ToString "`"
    if HasPrefix function "Enum(" then
      let tagName := Trim (TrimSuffix (TrimPrefix function "Enum(") ")") "`"
      let tagEnum := TrimSuffix (TrimSuffix tagName "_0") "_1"
      match env.TAG_DESCRIPTIONS db table tagEnum with
      | none => ⟨.error (Err.noTag tagName db table), f, w⟩
      | some tagDescription =>
        let isIntEnum := !env.TAG_STRING_ENUMS tagDescription.EnumFile
        match env.GetTag tagName db table "enum" with
        | none => binary
        | some tagItem =>
          let opName := (opValue op0 f.Value).1
          let value := (opValue op0 f.Value).2
          let enumFileName := TrimSuffix tagDescription.EnumFile ("." ++ env.Language)
          ⟨.ok (Node.Expr ("(" ++
              enumFilter tagItem isIntEnum tagName enumFileName op0 opName value ++ ")")),
            { f with Value := value }, w⟩
    else binary

/-! ## `TransWhereTagFunction` -/

/-- Embedding of `TransWhereTagFunction`; the message logged for a wrong number of
arguments is left out. -/
def TransWhereTagFunction (env : Env) (name : String) (args : List String) : String :=
  let funcName := ToLower name
  if funcName = "exist" then
    match args with
    | [arg] =>
      let resource := ToLower (Trim arg "`")
      let suffix :=
        if HasSuffix resource "_0" then "_0" else if HasSuffix resource "_1" then "_1" else ""
      let resourceNoSuffix := TrimSuffix (TrimSuffix resource "_0") "_1"
      let resourceNoID := TrimSuffix resourceNoSuffix "_id"
      match env.DEVICE_MAP resourceNoID with
      | some deviceTypeValue =>
        if resourceNoSuffix ∈ ["pod_service"] then "1=1"
        else Sprintf "%s=%d" [.str ("l3_device_type" ++ suffix), .int deviceTypeValue]
      | none =>
        if HasPrefix resourceNoSuffix "k8s.label." then
          Sprintf "((toUInt64(%s) IN (SELECT id FROM flow_tag.pod_service_k8s_label_map WHERE key='%s')) OR (toUInt64(%s) IN (SELECT id FROM flow_tag.pod_k8s_label_map WHERE key='%s')))"
            [.str ("service_id" ++ suffix), .str (TrimPrefix resourceNoSuffix "k8s.label."),
              .str ("pod_id" ++ suffix), .str (TrimPrefix resourceNoSuffix "k8s.label.")]
        else if HasPrefix resourceNoSuffix "k8s.annotation." then
          Sprintf "((toUInt64(%s) IN (SELECT id FROM flow_tag.pod_service_k8s_annotation_map WHERE key='%s')) OR (toUInt64(%s) IN (SELECT id FROM flow_tag.pod_k8s_annotation_map WHERE key='%s')))"
            [.str ("service_id" ++ suffix),
              .str (TrimPrefix resourceNoSuffix "k8s.annotation."),
              .str ("pod_id" ++ suffix), .str (TrimPrefix resourceNoSuffix "k8s.annotation.")]
        else if HasPrefix resourceNoSuffix "k8s.env." then
          Sprintf "toUInt64(%s) IN (SELECT id FROM flow_tag.pod_k8s_env_map WHERE key='%s')"
            [.str ("pod_id" ++ suffix), .str (TrimPrefix resourceNoSuffix "k8s.env.")]
        else if HasPrefix resourceNoSuffix "cloud.tag." then
          Sprintf "((toUInt64(%s) IN (SELECT id FROM flow_tag.chost_cloud_tag_map WHERE key='%s') AND %s=1) OR (toUInt64(%s) IN (SELECT id FROM flow_tag.pod_ns_cloud_tag_map WHERE key='%s')))"
            [.str ("l3_device_id" ++ suffix), .str (TrimPrefix resourceNoSuffix "cloud.tag."),
              .str ("l3_device_type" ++ suffix), .str ("pod_ns_id" ++ suffix),
              .str (TrimPrefix resourceNoSuffix "cloud.tag.")]
        else if HasPrefix resourceNoSuffix "os.app." then
          Sprintf "toUInt64(%s) IN (SELECT pid FROM flow_tag.os_app_tag_map WHERE key='%s')"
            [.str ("gprocess_id" ++ suffix), .str (TrimPrefix resourceNoSuffix "os.app.")]
        else
          match env.TAP_PORT_DEVICE_MAP resourceNoSuffix with
          | some deviceTypeValue =>
            Sprintf "(toUInt64(vtap_id),toUInt64(tap_port)) IN (SELECT vtap_id,tap_port FROM flow_tag.vtap_port_map WHERE tap_port!=0 AND device_type=%d)"
              [.int deviceTypeValue]
          | none => "1=1"
    | _ => "1=1"
  else ""

/-! ## `TimeTag.Trans` -/

/-- Result of `TimeTag.Trans`: the node or the error returned and the compiler state
after the call. -/
structure TimeResult where
  node : Except Err Node
  w : Where

/-- Embedding of `TimeTag.Trans`; `op` is the operator of the comparison and `text` the
text of the comparison (`sqlparser.String(compareExpr)`). -/
def TimeTag.Trans (env : Env) (t : TimeTag) (op text : String) (w : Where) : TimeResult :=
  let time : Except Err Int :=
    match strconv.ParseInt t.Value with
    | some time => .ok time
    | none =>
      match env.Evaluate t.Value with
      | .error err => .error err
      | .ok (EvalValue.float64 truncated) => .ok truncated
      | .ok _ => .error (Err.runtime "interface conversion: interface is not float64")
  match time with
  | .error err => ⟨.error err, w⟩
  | .ok time =>
    if op = ">=" then ⟨.ok (Node.Expr text), { w with time := w.time.AddTimeStart time }⟩
    else if op = "<=" then ⟨.ok (Node.Expr text), { w with time := w.time.AddTimeEnd time }⟩
    else ⟨.ok (Node.Expr text), w⟩

/-! ## `Encoder.Start` and `Encoder.Stop` (`encoder.go`) -/

/-- The state of an `Encoder` that `Start` and `Stop` read and write.  The mutex `mux` is
the flag `mux` (`true` when held), `cancel` tells whether `e.cancel` is set (`Init` sets
it), `done` whether the context was cancelled; `refreshed` counts the calls of
`e.refresh()` that `Start` makes itself and `loops` the refresh loops started with
`go func()`. -/
structure Encoder where
  mux : Bool
  working : Bool
  cancel : Bool
  done : Bool
  refreshed : Nat
  loops : Nat
  deriving DecidableEq, Repr

/-- The call `e.mux.Lock()` by the one caller of the model: `none` when the mutex is
held, since the call then waits for a release that no one is left to make. -/
def Encoder.Lock (e : Encoder) : Option Encoder :=
  if e.mux then none else some { e with mux := true }

/-- The call `e.mux.Unlock()`, made with the mutex held. -/
def Encoder.Unlock (e : Encoder) : Encoder := { e with mux := false }

/-- Embedding of `Encoder.Start` (lines 81-103): the state when the call returns (it
returns `nil` on both paths), `none` when it does not return. -/
def Encoder.Start (e : Encoder) : Option Encoder :=
  match e.Lock with
  | none => none
  | some e₁ =>
    if e₁.working then some e₁
    else
      let e₂ := ({ e₁ with working := true } : Encoder).Unlock
      let e₃ : Encoder := { e₂ with refreshed := e₂.refreshed + 1 }
      some { e₃ with loops := e₃.loops + 1 }

/-- Embedding of `Encoder.Stop` (lines 105-113): the state when the call returns, `none`
when it does not return. -/
def Encoder.Stop (e : Encoder) : Option Encoder :=
  let e₁ : Encoder := if e.cancel then { e with done := true } else e
  match e₁.Lock with
  | none => none
  | some e₂ => some ({ e₂ with working := false } : Encoder).Unlock

/-- An encoder after `Init`: the mutex free, not working. -/
def sampleEncoder : Encoder := ⟨false, false, true, false, 0, 0⟩

/-! ## A sample environment

A small registry on which the theorems below are instantiated: the boolean
tag `is_internet`, the IP tag `ip` and the integer enum `protocol`. -/

/-- Sample tag registry. -/
def sampleGetTag (name _db _table v : String) : Option Tag :=
  if v = "default" ∧ name = "is_internet" then some ⟨"l3_epc_id %s -2", ""⟩
  else if v = "default" ∧ name = "ip" then some ⟨"ip4 %s %s", ""⟩
  else if v = "enum" ∧ name = "protocol" then
    some ⟨"toUInt64(protocol) IN (SELECT value FROM flow_tag.int_enum_map WHERE name %s %s and tag_name='%s')",
      "toUInt64(protocol) IN (SELECT value FROM flow_tag.int_enum_map WHERE %s(name,%s) and tag_name='%s')"⟩
  else if v = "default" ∧ name = "_id" then
    some ⟨"_id %s %s AND time=toDateTime(bitShiftRight(%v, 32))", ""⟩
  else if v = "default" ∧ name = "k8s_label_0" then
    some ⟨"(toUInt64(service_id_0) IN (SELECT id FROM flow_tag.pod_service_k8s_label_map WHERE value %s %s and key='%s')) OR (toUInt64(pod_id_0) IN (SELECT id FROM flow_tag.pod_k8s_label_map WHERE value %s %s and key='%s'))",
      "(toUInt64(service_id_0) IN (SELECT id FROM flow_tag.pod_service_k8s_label_map WHERE %s(value,%s) and key='%s')) OR (toUInt64(pod_id_0) IN (SELECT id FROM flow_tag.pod_k8s_label_map WHERE %s(value,%s) and key='%s'))"⟩
  else if v = "default" ∧ name = "tag." then
    some ⟨"tag_values[indexOf(tag_names,'%s')] %s %s",
      "%s(tag_values[indexOf(tag_names,'%s')],%s)"⟩
  else if v = "default" ∧ name = "attribute." then
    some ⟨"attribute_values[indexOf(attribute_names,'%s')] %s %s",
      "%s(attribute_values[indexOf(attribute_names,'%s')],%s)"⟩
  else if v = "default" ∧ name = "ip_version" then some ⟨"is_ipv4 %s %s", ""⟩
  else none

/-- Sample environment. -/
def sampleEnv : Env where
  GetTag := sampleGetTag
  TAG_DESCRIPTIONS := fun _ _ name => if name = "protocol" then some ⟨"protocol.en"⟩ else none
  TAG_STRING_ENUMS := fun _ => false
  Language := "en"
  GetOperator := view.GetOperator
  DB_NAME_PROMETHEUS := "prometheus"
  Prometheus := ⟨fun _ => none, fun _ => none, fun _ => none⟩
  IPFilterStringToHex := fun ip =>
    if Contains ip ":" then Sprintf "toIPv6(%s)" [.str ip] else Sprintf "toIPv4(%s)" [.str ip]
  ParseIPPrefix := fun s =>
    if s = "10.0.0.0/8" then some ("10.0.0.0", "10.255.255.255") else none
  DoQuery := fun _ => .ok []
  PrometheusIdSubqueryLruTimeout := 60
  Evaluate := fun text =>
    if text = "1700000000+60" then .ok (.float64 1700000060)
    else if text = "1==1" then .ok (.bool true)
    else .error (Err.expression text)
  DEVICE_MAP := fun resource =>
    if resource = "chost" then some 1 else if resource = "pod_service" then some 12 else none
  TAP_PORT_DEVICE_MAP := fun resource => if resource = "host" then some 6 else none

/-- Sample engine: no alias, not a remote read. -/
def sampleEngine : CHEngine := ⟨fun _ => none, "flow_log", "l4_flow_log", none, []⟩

/-- Sample store: empty cache, clock at zero, no statement issued. -/
def sampleStore : Store := ⟨[], 0, []⟩

/-- Sample environment with the enum file of `protocol` among the string enums. -/
def sampleStringEnv : Env := { sampleEnv with TAG_STRING_ENUMS := fun file => file = "protocol.en" }

/-- Sample registries of Prometheus: the metric `up` with the app label `job` in
column 2; `instance` is a label outside the layout, a target label. -/
def samplePrometheus : PrometheusMap where
  MetricNameToID := fun table => if table = "up" then some 7 else none
  LabelNameToID := fun label =>
    if label = "job" then some 3 else if label = "instance" then some 4 else none
  MetricAppLabelLayout := fun table => if table = "up" then some [⟨"job", 2⟩] else none

/-- Sample environment with the registries of Prometheus and a backing store that
returns the ids 11 and 12 for every statement. -/
def samplePromEnv : Env :=
  { sampleEnv with
    Prometheus := samplePrometheus
    DoQuery := fun _ => .ok [[Cell.int 11], [Cell.int 12]] }

/-- Sample environment whose backing store fails. -/
def sampleFailEnv : Env :=
  { samplePromEnv with DoQuery := fun _ => .error (Err.query "connection refused") }

/-- Sample environment whose backing store returns the second id as an unsigned
integer. -/
def sampleUnsignedEnv : Env :=
  { samplePromEnv with DoQuery := fun _ => .ok [[Cell.int 11], [Cell.uint64 12]] }

/-- Sample engine of a remote read on the metric `up`. -/
def sampleRemoteEngine : CHEngine := ⟨fun _ => none, "prometheus", "up", some true, []⟩

/-- The rewriting of the `like` family on one character. -/
def starToPercent (c : Char) : Char := if c = '*' then '%' else c

/-- The prefixes of the virtual tag families. -/
def familyPrefixes : List String :=
  ["k8s.label.", "k8s.annotation.", "k8s.env.", "cloud.tag.", "os.app.", "tag.", "attribute.",
    "Enum("]

/-! ## Lemmas on the embedded library -/

open strings fmt

theorem replaceAux_star (l : List Char) :
    replaceAux ['*'] ['%'] l 0 = l.map starToPercent := by
  induction l with
  | nil => rfl
  | cons c cs ih =>
    by_cases hc : c = '*'
    · subst hc
      simp [replaceAux, starToPercent, ih, List.isPrefixOf]
    · have hc' : ¬ '*' = c := fun h => hc h.symm
      simp [replaceAux, starToPercent, ih, List.isPrefixOf, hc, hc']

theorem ReplaceAll_star (v : String) :
    (ReplaceAll v "*" "%").data = v.data.map starToPercent := by
  simp [ReplaceAll, replaceAux_star]

theorem Sprintf_tag_op_value (a b c : String) :
    Sprintf "%s %s %s" [.str a, .str b, .str c] = a ++ " " ++ b ++ " " ++ c := by
  apply String.ext
  simp [Sprintf, sprintfAux, verb, extra]

theorem Sprintf_op_tag_value (a b c : String) :
    Sprintf "%s(%s,%s)" [.str a, .str b, .str c] = a ++ "(" ++ b ++ "," ++ c ++ ")" := by
  apply String.ext
  simp [Sprintf, sprintfAux, verb, extra]

theorem opValue_like (op v : String) (h : ToLower op = "like") :
    opValue op v = ("ilike", ReplaceAll v "*" "%") := by
  unfold opValue
  rw [if_pos (Or.inl h), if_pos h]

theorem opValue_not_like (op v : String) (h : ToLower op = "not like") :
    opValue op v = ("not ilike", ReplaceAll v "*" "%") := by
  unfold opValue
  rw [if_pos (Or.inr h), if_neg (by rw [h]; decide)]

theorem opValue_regexp (op v : String) (h : ToLower op = "regexp") :
    opValue op v = ("match", v) := by
  unfold opValue
  rw [if_neg (by rw [h]; decide), if_pos (Or.inl h), if_pos h]

theorem opValue_not_regexp (op v : String) (h : ToLower op = "not regexp") :
    opValue op v = ("not match", v) := by
  unfold opValue
  rw [if_neg (by rw [h]; decide), if_pos (Or.inr h), if_neg (by rw [h]; decide)]

theorem opValue_other (op v : String) (h1 : ToLower op ≠ "like") (h2 : ToLower op ≠ "not like")
    (h3 : ToLower op ≠ "regexp") (h4 : ToLower op ≠ "not regexp") :
    opValue op v = (op, v) := by
  unfold opValue
  rw [if_neg (by tauto), if_neg (by tauto)]

theorem opValue_idem (op v : String) :
    opValue (opValue op v).1 (opValue op v).2 = opValue op v := by
  by_cases h1 : ToLower op = "like"
  · rw [opValue_like op v h1]
    exact opValue_other "ilike" _ (by decide) (by decide) (by decide) (by decide)
  by_cases h2 : ToLower op = "not like"
  · rw [opValue_not_like op v h2]
    exact opValue_other "not ilike" _ (by decide) (by decide) (by decide) (by decide)
  by_cases h3 : ToLower op = "regexp"
  · rw [opValue_regexp op v h3]
    exact opValue_other "match" _ (by decide) (by decide) (by decide) (by decide)
  by_cases h4 : ToLower op = "not regexp"
  · rw [opValue_not_regexp op v h4]
    exact opValue_other "not match" _ (by decide) (by decide) (by decide) (by decide)
  rw [opValue_other op v h1 h2 h3 h4]
  exact opValue_other _ _ h1 h2 h3 h4

/-- The result of `WhereTag.Trans` is the result on the rewritten operator and value. -/
theorem Trans_opValue (env : Env) (t : WhereTag) (op originFilter : String) (e : CHEngine)
    (store : Store) :
    WhereTag.Trans env t op originFilter e store =
      WhereTag.Trans env ⟨t.Tag, (opValue op t.Value).2⟩ (opValue op t.Value).1 originFilter e
        store := by
  unfold WhereTag.Trans
  simp only [opValue_idem]

/-- The receiver after `WhereTag.Trans` carries the rewritten value. -/
theorem Trans_t (env : Env) (t : WhereTag) (op originFilter : String) (e : CHEngine)
    (store : Store) :
    (WhereTag.Trans env t op originFilter e store).t = ⟨t.Tag, (opValue op t.Value).2⟩ := by
  unfold WhereTag.Trans
  split
  · rfl
  · split
    · split <;> rfl
    · rfl

/-! ## Operator normalisation and wildcard rewriting -/

/-- C1: for an operator that is `like` or `not like` up to case, the value `WhereTag.Trans`
works with (the `Value` of the receiver after the call) has the characters of
the given value with every `*` replaced by `%` and every other character
unchanged at its position, hence the same length, and the whole result is
the result on that value and the token `ilike` or `not ilike`; for every
other operator the value is unchanged. -/
theorem C1_like_rewrites_wildcard (env : Env) (t : WhereTag) (op originFilter : String)
    (e : CHEngine) (store : Store) :
    ((ToLower op = "like" ∨ ToLower op = "not like") →
      (WhereTag.Trans env t op originFilter e store).t.Value.data =
          t.Value.data.map (fun c => if c = '*' then '%' else c) ∧
        (WhereTag.Trans env t op originFilter e store).t.Value.length = t.Value.length ∧
        (∀ (i : Nat) (c : Char), t.Value.data[i]? = some c →
          (WhereTag.Trans env t op originFilter e store).t.Value.data[i]? =
            some (if c = '*' then '%' else c)) ∧
        WhereTag.Trans env t op originFilter e store =
          WhereTag.Trans env ⟨t.Tag, ⟨t.Value.data.map (fun c => if c = '*' then '%' else c)⟩⟩
            (if ToLower op = "like" then "ilike" else "not ilike") originFilter e store) ∧
    (¬ (ToLower op = "like" ∨ ToLower op = "not like") →
      (WhereTag.Trans env t op originFilter e store).t.Value = t.Value) := by
  have hmap : (fun c => if c = '*' then '%' else c) = starToPercent := rfl
  constructor
  · intro h
    have hv : (opValue op t.Value) =
        (if ToLower op = "like" then "ilike" else "not ilike", ReplaceAll t.Value "*" "%") := by
      rcases h with h | h
      · rw [opValue_like op _ h, if_pos h]
      · rw [opValue_not_like op _ h, if_neg (by rw [h]; decide)]
    have hd : (WhereTag.Trans env t op originFilter e store).t.Value.data =
        t.Value.data.map (fun c => if c = '*' then '%' else c) := by
      rw [Trans_t, hv, hmap]
      exact ReplaceAll_star t.Value
    refine ⟨hd, ?_, ?_, ?_⟩
    · show (WhereTag.Trans env t op originFilter e store).t.Value.data.length = _
      rw [hd, List.length_map]
      rfl
    · intro i c hi
      rw [hd, List.getElem?_map, hi]
      rfl
    · rw [Trans_opValue env t op, hv, hmap]
      have : ReplaceAll t.Value "*" "%" = ⟨t.Value.data.map starToPercent⟩ :=
        String.ext (ReplaceAll_star t.Value)
      simp only [this]
  · intro h
    rw [Trans_t]
    unfold opValue
    rw [if_neg h]
    split <;> rfl

/-- Witness of C1 on the operator `LIKE` and the literal `'a*b'`. -/
theorem C1_like_rewrites_wildcard_witness :
    (WhereTag.Trans sampleEnv ⟨"foo", "'a*b'"⟩ "LIKE" "" sampleEngine sampleStore).t.Value.data =
      "'a*b'".data.map (fun c => if c = '*' then '%' else c) :=
  ((C1_like_rewrites_wildcard sampleEnv ⟨"foo", "'a*b'"⟩ "LIKE" "" sampleEngine
    sampleStore).1 (Or.inl (by decide))).1

/-- C2: the rewriting of the operator in `WhereTag.Trans` sends `like`, `not like`, `regexp`
and `not regexp`, matched up to case, to `ilike`, `not ilike`, `match` and
`not match`, and leaves `=`, `!=`, `<`, `<=`, `>`, `>=`, `in` and `not in` unchanged; among the
declared tokens the rewritten token contains `match` exactly for `regexp` and
`not regexp`; and the result of `WhereTag.Trans` is its result on the rewritten
token. -/
theorem C2_operator_normalisation (v : String) :
    (∀ op, ToLower op = "like" → (opValue op v).1 = "ilike") ∧
    (∀ op, ToLower op = "not like" → (opValue op v).1 = "not ilike") ∧
    (∀ op, ToLower op = "regexp" → (opValue op v).1 = "match") ∧
    (∀ op, ToLower op = "not regexp" → (opValue op v).1 = "not match") ∧
    (∀ op, ToLower op ∈ ["=", "!=", "<", "<=", ">", ">=", "in", "not in"] →
      (opValue op v).1 = op) ∧
    (∀ tok, tok ∈ declaredOperators →
      (Contains (opValue tok v).1 "match" = true ↔ (tok = "regexp" ∨ tok = "not regexp"))) ∧
    (∀ (env : Env) (t : WhereTag) (op originFilter : String) (e : CHEngine) (store : Store),
      t.Value = v →
      WhereTag.Trans env t op originFilter e store =
        WhereTag.Trans env ⟨t.Tag, (opValue op v).2⟩ (opValue op v).1 originFilter e store) := by
  refine ⟨?_, ?_, ?_, ?_, ?_, ?_, ?_⟩
  · intro op h; rw [opValue_like op v h]
  · intro op h; rw [opValue_not_like op v h]
  · intro op h; rw [opValue_regexp op v h]
  · intro op h; rw [opValue_not_regexp op v h]
  · intro op h
    have key : ToLower op ≠ "like" ∧ ToLower op ≠ "not like" ∧ ToLower op ≠ "regexp" ∧
        ToLower op ≠ "not regexp" := by
      simp only [List.mem_cons, List.mem_singleton, List.not_mem_nil, or_false] at h
      rcases h with h | h | h | h | h | h | h | h <;> rw [h] <;> decide
    rw [opValue_other op v key.1 key.2.1 key.2.2.1 key.2.2.2]
  · intro tok h
    simp only [declaredOperators, List.mem_cons, List.mem_singleton, List.not_mem_nil,
      or_false] at h
    rcases h with h | h | h | h | h | h | h | h | h | h | h | h <;> subst h
    · rw [opValue_other "=" v (by decide) (by decide) (by decide) (by decide)]; dsimp only; decide
    · rw [opValue_other "!=" v (by decide) (by decide) (by decide) (by decide)]; dsimp only; decide
    · rw [opValue_other "<" v (by decide) (by decide) (by decide) (by decide)]; dsimp only; decide
    · rw [opValue_other "<=" v (by decide) (by decide) (by decide) (by decide)]; dsimp only; decide
    · rw [opValue_other ">" v (by decide) (by decide) (by decide) (by decide)]; dsimp only; decide
    · rw [opValue_other ">=" v (by decide) (by decide) (by decide) (by decide)]; dsimp only; decide
    · rw [opValue_other "in" v (by decide) (by decide) (by decide) (by decide)]; dsimp only; decide
    · rw [opValue_other "not in" v (by decide) (by decide) (by decide) (by decide)]; dsimp only; decide
    · rw [opValue_like "like" v (by decide)]; dsimp only; decide
    · rw [opValue_not_like "not like" v (by decide)]; dsimp only; decide
    · rw [opValue_regexp "regexp" v (by decide)]; dsimp only; decide
    · rw [opValue_not_regexp "not regexp" v (by decide)]; dsimp only; decide
  · intro env t op originFilter e store hv
    subst hv
    exact Trans_opValue env t op originFilter e store

/-- Witness of C2 on the token `Not Regexp`. -/
theorem C2_operator_normalisation_witness : (opValue "Not Regexp" "'a.*'").1 = "not match" :=
  (C2_operator_normalisation "'a.*'").2.2.2.1 "Not Regexp" (by decide)

/-! ## Pass-through of unresolved tags -/

/-- No family branch is taken for a name that starts with none of the family
prefixes. -/
theorem familyFilter_none (env : Env) (t : WhereTag) (op originFilter : String) (e : CHEngine)
    (store : Store) (isRemoteRead : Bool) (name0 : String) (direct : Bool)
    (h : ∀ p, p ∈ familyPrefixes → HasPrefix (Trim name0 "`") p = false) :
    familyFilter env t op originFilter e store isRemoteRead name0 direct = none := by
  have h1 := h "k8s.label." (by decide)
  have h2 := h "k8s.annotation." (by decide)
  have h3 := h "k8s.env." (by decide)
  have h4 := h "cloud.tag." (by decide)
  have h5 := h "os.app." (by decide)
  have h6 := h "tag." (by decide)
  have h7 := h "attribute." (by decide)
  have h8 := h "Enum(" (by decide)
  unfold familyFilter
  simp [h1, h2, h3, h4, h5, h6, h7, h8]

/-- The pass-through predicate, written out. -/
theorem passThrough_eq (tag op value : String) :
    passThrough tag op value =
      if Contains op "match" = true then op ++ "(" ++ tag ++ "," ++ value ++ ")"
      else tag ++ " " ++ op ++ " " ++ value := by
  unfold passThrough
  rw [Sprintf_tag_op_value, Sprintf_op_tag_value]

/-- Result of `WhereTag.Trans` on a tag without descriptor, alias or family. -/
theorem Trans_plain (env : Env) (t : WhereTag) (op originFilter : String) (e : CHEngine)
    (store : Store)
    (hreg : env.GetTag (Trim t.Tag "`") e.DB e.Table "default" = none)
    (halias : e.AsTagMap t.Tag = none)
    (hmac : isMacTag t.Tag = false) (htap : t.Tag ≠ "tap_port")
    (hfam : ∀ p, p ∈ familyPrefixes → HasPrefix (Trim t.Tag "`") p = false) :
    WhereTag.Trans env t op originFilter e store =
      ⟨.ok (Node.Expr (passThrough t.Tag (opValue op t.Value).1 (opValue op t.Value).2)),
        ⟨t.Tag, (opValue op t.Value).2⟩, e, store⟩ := by
  unfold WhereTag.Trans
  simp only [hreg, halias]
  unfold unresolved
  simp only [hmac, htap, if_false, Bool.false_eq_true]
  rw [familyFilter_none env _ _ _ e store _ t.Tag true hfam]

/-- A tag outside the list of the MAC tags and `tap_port` takes the `default:` branch. -/
theorem not_mac_nor_tap_port (tag : String)
    (hmac : tag ∉ ["mac_0", "mac_1", "tunnel_tx_mac_0", "tunnel_tx_mac_1", "tunnel_rx_mac_0",
      "tunnel_rx_mac_1", "tap_port"]) :
    isMacTag tag = false ∧ tag ≠ "tap_port" := by
  constructor
  · simp only [List.mem_cons, List.mem_singleton, List.not_mem_nil, or_false, not_or] at hmac
    simp [isMacTag, hmac]
  · intro h
    exact hmac (by rw [h]; decide)

/-- C4: a tag that has no descriptor in the registry, is no key of the alias map,
is none of the six MAC tags nor `tap_port` and, back-quotes trimmed, starts with
none of the family prefixes, compiles without error to the leaf
`<tag> <op> <value>`, or `<op>(<tag>,<value>)` when the rewritten operator contains
`match`, with the tag as written, the rewritten operator and the rewritten
value; the engine and the store are left as they are. -/
theorem C4_unknown_tag_pass_through (env : Env) (t : WhereTag) (op originFilter : String)
    (e : CHEngine) (store : Store)
    (hreg : env.GetTag (Trim t.Tag "`") e.DB e.Table "default" = none)
    (halias : e.AsTagMap t.Tag = none)
    (hmac : t.Tag ∉ ["mac_0", "mac_1", "tunnel_tx_mac_0", "tunnel_tx_mac_1", "tunnel_rx_mac_0",
      "tunnel_rx_mac_1", "tap_port"])
    (hfam : ∀ p, p ∈ familyPrefixes → HasPrefix (Trim t.Tag "`") p = false) :
    (WhereTag.Trans env t op originFilter e store).node =
      .ok (Node.Expr
        (if Contains (opValue op t.Value).1 "match" = true then
          (opValue op t.Value).1 ++ "(" ++ t.Tag ++ "," ++ (opValue op t.Value).2 ++ ")"
        else t.Tag ++ " " ++ (opValue op t.Value).1 ++ " " ++ (opValue op t.Value).2)) ∧
    (WhereTag.Trans env t op originFilter e store).e.TargetLabelFilters = e.TargetLabelFilters ∧
    (WhereTag.Trans env t op originFilter e store).store = store := by
  have hm := not_mac_nor_tap_port t.Tag hmac
  rw [Trans_plain env t op originFilter e store hreg halias hm.1 hm.2 hfam, passThrough_eq]
  exact ⟨rfl, rfl, rfl⟩

/-- Witness of C4 on the tag `foo` with the operator `like`. -/
theorem C4_unknown_tag_pass_through_witness :
    (WhereTag.Trans sampleEnv ⟨"foo", "'a*'"⟩ "like" "foo like 'a*'" sampleEngine
      sampleStore).node = .ok (Node.Expr "foo ilike 'a%'") :=
  (C4_unknown_tag_pass_through sampleEnv ⟨"foo", "'a*'"⟩ "like" "foo like 'a*'" sampleEngine
    sampleStore (by decide) (by decide) (by decide) (by decide)).1

/-! ## Operators outside the declared set -/

/-- C3 as stated fails: the operator `<=>` is none of the declared tokens, and
`WhereTag.Trans` compiles `foo <=> 1` to a predicate, not to an error. -/
theorem C3_unknown_operator_counterexample :
    ToLower "<=>" ∉ declaredOperators ∧
    (WhereTag.Trans sampleEnv ⟨"foo", "1"⟩ "<=>" "foo <=> 1" sampleEngine sampleStore).node =
      .ok (Node.Expr "foo <=> 1") :=
  ⟨by decide, rfl⟩

/-- C3, amended: `WhereTag.Trans` does not check the operator: for an operator that is
none of the declared tokens up to case, a tag without descriptor, alias or
family compiles without error to `<tag> <op> <value>` (`<op>(<tag>,<value>)` when the
token contains `match`) with operator and value unchanged.  The error for an
operator that is not supported is returned by `WhereFunction.Trans`, for every
operator that `view.GetOperator` reports as unknown, with no node and no change
of the receiver and of the compiler state; with the operator table of the
spec these are the operators outside the declared set. -/
theorem C3_unknown_operator_amended (env : Env) (op : String)
    (hop : ToLower op ∉ declaredOperators) :
    (∀ (t : WhereTag) (originFilter : String) (e : CHEngine) (store : Store),
      env.GetTag (Trim t.Tag "`") e.DB e.Table "default" = none →
      e.AsTagMap t.Tag = none →
      t.Tag ∉ ["mac_0", "mac_1", "tunnel_tx_mac_0", "tunnel_tx_mac_1", "tunnel_rx_mac_0",
        "tunnel_rx_mac_1", "tap_port"] →
      (∀ p, p ∈ familyPrefixes → HasPrefix (Trim t.Tag "`") p = false) →
      (WhereTag.Trans env t op originFilter e store).node =
        .ok (Node.Expr
          (if Contains op "match" = true then op ++ "(" ++ t.Tag ++ "," ++ t.Value ++ ")"
          else t.Tag ++ " " ++ op ++ " " ++ t.Value))) ∧
    (∀ (f : WhereFunction) (w : Where) (db table : String),
      (env.GetOperator op).2 = OPERATOER_UNKNOWN →
      WhereFunction.Trans env f op w db table = ⟨.error (Err.operatorNotSupport op), f, w⟩) ∧
    (view.GetOperator op).2 = OPERATOER_UNKNOWN := by
  have hne : ToLower op ≠ "like" ∧ ToLower op ≠ "not like" ∧ ToLower op ≠ "regexp" ∧
      ToLower op ≠ "not regexp" := by
    refine ⟨?_, ?_, ?_, ?_⟩ <;> intro h <;> exact hop (by rw [h]; decide)
  refine ⟨?_, ?_, ?_⟩
  · intro t originFilter e store hreg halias hmac hfam
    have hm := not_mac_nor_tap_port t.Tag hmac
    rw [Trans_plain env t op originFilter e store hreg halias hm.1 hm.2 hfam, passThrough_eq,
      opValue_other op t.Value hne.1 hne.2.1 hne.2.2.1 hne.2.2.2]
  · intro f w db table h
    unfold WhereFunction.Trans
    simp only [h, if_true]
  · unfold view.GetOperator
    have : ¬ List.indexOf (ToLower op) declaredOperators < declaredOperators.length := by
      rw [List.indexOf_lt_length]
      exact hop
    simp only [this, if_false]

/-- Witness of C3 (amended) on the operator `<=>`. -/
theorem C3_unknown_operator_amended_witness :
    WhereFunction.Trans sampleEnv ⟨⟨"Enum(protocol)", []⟩, "1"⟩ "<=>" { withs := [] } "flow_log"
        "l4_flow_log" =
      ⟨.error (Err.operatorNotSupport "<=>"), ⟨⟨"Enum(protocol)", []⟩, "1"⟩, { withs := [] }⟩ :=
  (C3_unknown_operator_amended sampleEnv "<=>" (by decide)).2.1 _ _ _ _
    (C3_unknown_operator_amended sampleEnv "<=>" (by decide)).2.2

/-! ## MAC encoding -/

/-- The byte `xtoi2` returns is below 256. -/
theorem xtoi2_lt (s : List Char) (e : Char) : (net.xtoi2 s e).1 < 256 := by
  unfold net.xtoi2
  split
  · decide
  · exact Nat.mod_lt _ (by decide)

/-- The bytes of the colon and dash forms are below 256. -/
theorem macGroups3_lt (sep : Char) (k : Nat) :
    ∀ (s : List Char) (mac : List Nat), net.macGroups3 sep s k = some mac →
      ∀ b, b ∈ mac → b < 256 := by
  induction k with
  | zero =>
    intro s mac h b hb
    simp [net.macGroups3] at h
    subst h
    simp at hb
  | succ k ih =>
    intro s mac h b hb
    unfold net.macGroups3 at h
    have hx := xtoi2_lt s sep
    revert h hx
    generalize net.xtoi2 s sep = r
    obtain ⟨b₀, ok⟩ := r
    cases ok with
    | false => intro h; simp at h
    | true =>
      intro h hx
      cases hrec : net.macGroups3 sep (s.drop 3) k with
      | none => simp [hrec] at h
      | some l =>
        simp [hrec] at h
        subst h
        rcases List.mem_cons.mp hb with hb | hb
        · rw [hb]; exact hx
        · exact ih _ _ hrec b hb

/-- The bytes of the dotted form are below 256. -/
theorem macGroups5_lt (k : Nat) :
    ∀ (s : List Char) (mac : List Nat), net.macGroups5 s k = some mac →
      ∀ b, b ∈ mac → b < 256 := by
  induction k with
  | zero =>
    intro s mac h b hb
    simp [net.macGroups5] at h
    subst h
    simp at hb
  | succ k ih =>
    intro s mac h b hb
    unfold net.macGroups5 at h
    have hx₁ := xtoi2_lt (s.take 2) (Char.ofNat 0)
    have hx₂ := xtoi2_lt (s.drop 2) '.'
    revert h hx₁ hx₂
    generalize net.xtoi2 (s.take 2) (Char.ofNat 0) = r₁
    generalize net.xtoi2 (s.drop 2) '.' = r₂
    obtain ⟨b₁, ok₁⟩ := r₁
    obtain ⟨b₂, ok₂⟩ := r₂
    cases ok₁ with
    | false => intro h; simp at h
    | true =>
      cases ok₂ with
      | false => intro h; simp at h
      | true =>
        intro h hx₁ hx₂
        cases hrec : net.macGroups5 (s.drop 5) k with
        | none => simp [hrec] at h
        | some l =>
          simp [hrec] at h
          subst h
          rcases List.mem_cons.mp hb with hb | hb
          · rw [hb]; exact hx₁
          · rcases List.mem_cons.mp hb with hb | hb
            · rw [hb]; exact hx₂
            · exact ih _ _ hrec b hb

/-- Every byte of a parsed MAC is below 256. -/
theorem ParseMAC_lt (s : String) (mac : List Nat) (h : net.ParseMAC s = some mac) :
    ∀ b, b ∈ mac → b < 256 := by
  unfold net.ParseMAC at h
  simp only at h
  split at h
  · simp at h
  · split at h
    · split at h
      · simp at h
      · split at h
        · simp at h
        · exact macGroups3_lt _ _ _ _ h
    · split at h
      · split at h
        · simp at h
        · split at h
          · simp at h
          · exact macGroups5_lt _ _ _ h
      · simp at h

/-- Decoding the integer of six bytes gives the six bytes back. -/
theorem Uint64ToMac_Mac2Uint64 (b₀ b₁ b₂ b₃ b₄ b₅ : Nat) (h₀ : b₀ < 256) (h₁ : b₁ < 256)
    (h₂ : b₂ < 256) (h₃ : b₃ < 256) (h₄ : b₄ < 256) (h₅ : b₅ < 256) :
    utils.Uint64ToMac (utils.Mac2Uint64 [b₀, b₁, b₂, b₃, b₄, b₅]) = [b₀, b₁, b₂, b₃, b₄, b₅] := by
  have hlow : ((b₂ * 256 + b₃) * 256 + b₄) * 256 + b₅ < 2 ^ 32 := by omega
  have hor : utils.Mac2Uint64 [b₀, b₁, b₂, b₃, b₄, b₅] =
      2 ^ 32 * (b₀ * 256 + b₁) + (((b₂ * 256 + b₃) * 256 + b₄) * 256 + b₅) := by
    rw [Nat.mul_add_lt_is_or hlow]
    simp [utils.Mac2Uint64, Nat.shiftLeft_eq, Nat.mul_comm]
  rw [hor]
  simp only [utils.Uint64ToMac, Nat.shiftRight_eq_div_pow]
  norm_num
  refine ⟨?_, ?_, ?_, ?_, ?_, ?_⟩ <;> omega

/-- A list of six elements, spelled out. -/
theorem length_six {α : Type} (l : List α) (h : l.length = 6) :
    ∃ a b c d e f, l = [a, b, c, d, e, f] := by
  match l, h with
  | [a, b, c, d, e, f], _ => exact ⟨a, b, c, d, e, f, rfl⟩

/-- Decoding the integer of a parsed six-byte MAC gives the MAC back. -/
theorem Uint64ToMac_ParseMAC (s : String) (mac : List Nat) (h : net.ParseMAC s = some mac)
    (h6 : mac.length = 6) : utils.Uint64ToMac (utils.Mac2Uint64 mac) = mac := by
  have hlt := ParseMAC_lt s mac h
  obtain ⟨b₀, b₁, b₂, b₃, b₄, b₅, rfl⟩ := length_six mac h6
  exact Uint64ToMac_Mac2Uint64 b₀ b₁ b₂ b₃ b₄ b₅ (hlt _ (by simp)) (hlt _ (by simp))
    (hlt _ (by simp)) (hlt _ (by simp)) (hlt _ (by simp)) (hlt _ (by simp))

/-- C5 as stated fails: `02:00:5e:10:00:00:00:01` and `02:00:5e:10:00:00:00:02` are valid MAC
literals with different canonical strings; the encoder of the MAC tags emits
the same integer for both, and decoding it gives neither canonical string. -/
theorem C5_mac_round_trip_counterexample :
    net.ParseMAC "02:00:5e:10:00:00:00:01" = some [2, 0, 94, 16, 0, 0, 0, 1] ∧
    net.ParseMAC "02:00:5e:10:00:00:00:02" = some [2, 0, 94, 16, 0, 0, 0, 2] ∧
    net.HardwareAddr.String [2, 0, 94, 16, 0, 0, 0, 1] = "02:00:5e:10:00:00:00:01" ∧
    net.HardwareAddr.String [2, 0, 94, 16, 0, 0, 0, 2] = "02:00:5e:10:00:00:00:02" ∧
    (WhereTag.Trans sampleEnv ⟨"mac_0", "'02:00:5e:10:00:00:00:01'"⟩ "=" "" sampleEngine
      sampleStore).node = .ok (Node.Expr "mac_0 = '2200601362432'") ∧
    (WhereTag.Trans sampleEnv ⟨"mac_0", "'02:00:5e:10:00:00:00:02'"⟩ "=" "" sampleEngine
      sampleStore).node = .ok (Node.Expr "mac_0 = '2200601362432'") ∧
    net.HardwareAddr.String (utils.Uint64ToMac 2200601362432) = "02:00:5e:10:00:00" :=
  ⟨by decide, by decide, by decide, by decide, rfl, rfl, by decide⟩

/-- C5, amended: for every element of the value list of a MAC tag that is a valid
six-byte MAC literal, the encoder emits, in single quotes, the decimal text
of an integer below `2 ^ 48`; decoding that integer back to a MAC reproduces the
canonical string of the literal, and two such literals with different
canonical strings never have the same integer. -/
theorem C5_mac_round_trip_amended (x : String) (mac : List Nat)
    (h : net.ParseMAC (Trim (TrimSpace x) "'") = some mac) (h6 : mac.length = 6) :
    macElement x = .ok ("'" ++ strconv.Itoa (utils.Mac2Uint64 mac) ++ "'") ∧
    utils.Mac2Uint64 mac < 2 ^ 48 ∧
    net.HardwareAddr.String (utils.Uint64ToMac (utils.Mac2Uint64 mac)) =
      net.HardwareAddr.String mac ∧
    (∀ (x' : String) (mac' : List Nat),
      net.ParseMAC (Trim (TrimSpace x') "'") = some mac' → mac'.length = 6 →
      net.HardwareAddr.String mac' ≠ net.HardwareAddr.String mac →
      utils.Mac2Uint64 mac' ≠ utils.Mac2Uint64 mac) := by
  have hrt := Uint64ToMac_ParseMAC _ mac h h6
  refine ⟨?_, ?_, ?_, ?_⟩
  · unfold macElement
    simp only [h]
    rfl
  · rw [← hrt] at h6
    have hlt := ParseMAC_lt _ mac h
    obtain ⟨b₀, b₁, b₂, b₃, b₄, b₅, rfl⟩ := length_six mac (by rw [← hrt]; exact h6)
    have h₀ := hlt b₀ (by simp)
    have h₁ := hlt b₁ (by simp)
    have h₂ := hlt b₂ (by simp)
    have h₃ := hlt b₃ (by simp)
    have h₄ := hlt b₄ (by simp)
    have h₅ := hlt b₅ (by simp)
    have hlow : ((b₂ * 256 + b₃) * 256 + b₄) * 256 + b₅ < 2 ^ 32 := by omega
    have hor : utils.Mac2Uint64 [b₀, b₁, b₂, b₃, b₄, b₅] =
        2 ^ 32 * (b₀ * 256 + b₁) + (((b₂ * 256 + b₃) * 256 + b₄) * 256 + b₅) := by
      rw [Nat.mul_add_lt_is_or hlow]
      simp [utils.Mac2Uint64, Nat.shiftLeft_eq, Nat.mul_comm]
    rw [hor]
    omega
  · rw [hrt]
  · intro x' mac' h' h6' hne heq
    apply hne
    rw [← Uint64ToMac_ParseMAC _ mac' h' h6', ← hrt, heq]

/-- Witness of C5 (amended) on the literal `00:00:5E:00:53:01`. -/
theorem C5_mac_round_trip_amended_witness :
    net.HardwareAddr.String (utils.Uint64ToMac (utils.Mac2Uint64 [0, 0, 94, 0, 83, 1])) =
      net.HardwareAddr.String [0, 0, 94, 0, 83, 1] :=
  (C5_mac_round_trip_amended " '00:00:5E:00:53:01'" [0, 0, 94, 0, 83, 1] (by decide)
    (by decide)).2.2.1

/-! ## IP tags -/

/-- A loop whose body succeeds on every element returns the list of the results. -/
theorem forEach_ok {α β : Type} (f : α → Except Err β) (g : α → β) :
    ∀ (l : List α), (∀ a, a ∈ l → f a = .ok (g a)) → forEach f l = .ok (l.map g)
  | [], _ => rfl
  | a :: rest, h => by
    have ha := h a (List.mem_cons_self a rest)
    have hr := forEach_ok f g rest (fun b hb => h b (List.mem_cons_of_mem a hb))
    simp only [forEach, ha, hr, List.map_cons]

/-- An IP tag takes the IP case of the `switch`. -/
theorem whereFilter_ip (env : Env) (tagItem : Tag) (whereTag op value : String)
    (h : whereTag ∈ ipTags) :
    whereFilter env tagItem whereTag op value = ipFilter env tagItem op value := by
  have h1 : whereTag ≠ "ip_version" := by intro h'; rw [h'] at h; revert h; decide
  have h2 : whereTag ≠ "is_internet" := by intro h'; rw [h'] at h; revert h; decide
  have h3 : whereTag ≠ "is_internet_0" := by intro h'; rw [h'] at h; revert h; decide
  have h4 : whereTag ≠ "is_internet_1" := by intro h'; rw [h'] at h; revert h; decide
  have h5 : whereTag ≠ "_id" := by intro h'; rw [h'] at h; revert h; decide
  unfold whereFilter
  simp only [h1, h2, h3, h4, h5, h, if_true, if_false, or_self]

/-- Result of `WhereTag.Trans` on an IP tag with a descriptor. -/
theorem Trans_ip (env : Env) (tagItem : Tag) (t : WhereTag) (op originFilter : String)
    (e : CHEngine) (store : Store) (hip : t.Tag ∈ ipTags)
    (hreg : env.GetTag (Trim t.Tag "`") e.DB e.Table "default" = some tagItem)
    (hT : tagItem.WhereTranslator ≠ "") :
    (WhereTag.Trans env t op originFilter e store).node =
      match ipFilter env tagItem (opValue op t.Value).1 (opValue op t.Value).2 with
      | .error err => .error err
      | .ok filter => .ok (Node.Expr ("(" ++ filter ++ ")")) := by
  unfold WhereTag.Trans
  simp only [hreg]
  unfold resolved
  simp only [hT, ne_eq, not_false_eq_true, if_true, whereFilter_ip env tagItem t.Tag _ _ hip]

/-- C6: for an IP tag with template `T`, a CIDR element of the value list whose
masked prefix has the first address `first` and the last address `last`
compiles to the single bound `T(op, max)` for `>` and `>=`, to the single bound
`T(op, min)` for `<` and `<=`, and to the closed range `(T(">=", min) AND T("<=", max))` for
every other operator, `=` among them; every CIDR of a list of valid CIDRs
compiles so, in the order of the list; and with exactly one CIDR and the
operator `=` the predicate is that conjunction in parentheses only. -/
theorem C6_cidr_compilation (env : Env) (tagItem : Tag) (c first last : String)
    (hc : env.ParseIPPrefix (Trim c "'") = some (first, last)) :
    (∀ ipOp, ipOp = ">" ∨ ipOp = ">=" →
      cidrFilter env tagItem ipOp c =
        .ok (Sprintf tagItem.WhereTranslator
          [.str ipOp, .str (env.IPFilterStringToHex ("'" ++ last ++ "'"))])) ∧
    (∀ ipOp, ipOp = "<" ∨ ipOp = "<=" →
      cidrFilter env tagItem ipOp c =
        .ok (Sprintf tagItem.WhereTranslator
          [.str ipOp, .str (env.IPFilterStringToHex ("'" ++ first ++ "'"))])) ∧
    (∀ ipOp, ipOp ∉ [">", ">=", "<", "<="] →
      cidrFilter env tagItem ipOp c =
        .ok ("(" ++
          Sprintf tagItem.WhereTranslator
            [.str ">=", .str (env.IPFilterStringToHex ("'" ++ first ++ "'"))] ++ " AND " ++
          Sprintf tagItem.WhereTranslator
            [.str "<=", .str (env.IPFilterStringToHex ("'" ++ last ++ "'"))] ++ ")")) ∧
    (∀ (ipOp : String) (cidrs : List String),
      (∀ d, d ∈ cidrs → (env.ParseIPPrefix (Trim d "'")).isSome = true) →
      ∃ filters, forEach (cidrFilter env tagItem ipOp) cidrs = .ok filters ∧
        filters.length = cidrs.length ∧
        ∀ (i : Nat) (d : String), cidrs[i]? = some d →
          (cidrFilter env tagItem ipOp d).toOption = filters[i]?) ∧
    (∀ (t : WhereTag) (originFilter : String) (e : CHEngine) (store : Store),
      t.Tag ∈ ipTags →
      env.GetTag (Trim t.Tag "`") e.DB e.Table "default" = some tagItem →
      tagItem.WhereTranslator ≠ "" →
      ipElements t.Value = [c] → Contains c "/" = true →
      (WhereTag.Trans env t "=" originFilter e store).node =
        .ok (Node.Expr ("((((" ++
          Sprintf tagItem.WhereTranslator
            [.str ">=", .str (env.IPFilterStringToHex ("'" ++ first ++ "'"))] ++ " AND " ++
          Sprintf tagItem.WhereTranslator
            [.str "<=", .str (env.IPFilterStringToHex ("'" ++ last ++ "'"))] ++ "))))"))) := by
  refine ⟨?_, ?_, ?_, ?_, ?_⟩
  · intro ipOp h
    unfold cidrFilter cidrRangeFilter
    simp only [hc]
    rw [if_pos (by tauto)]
  · intro ipOp h
    have h' : ¬ (ipOp = ">=" ∨ ipOp = ">") := by
      rcases h with h | h <;> rw [h] <;> decide
    unfold cidrFilter cidrRangeFilter
    simp only [hc]
    rw [if_neg h', if_pos (by tauto)]
  · intro ipOp h
    simp only [List.mem_cons, List.mem_singleton, List.not_mem_nil, or_false, not_or] at h
    unfold cidrFilter cidrRangeFilter
    simp only [hc]
    rw [if_neg (by tauto), if_neg (by tauto)]
  · intro ipOp cidrs hall
    let g : String → String := fun d =>
      cidrRangeFilter tagItem ipOp
        (env.IPFilterStringToHex ("'" ++ ((env.ParseIPPrefix (Trim d "'")).getD ("", "")).1 ++ "'"))
        (env.IPFilterStringToHex ("'" ++ ((env.ParseIPPrefix (Trim d "'")).getD ("", "")).2 ++ "'"))
    have hg : ∀ d, d ∈ cidrs → cidrFilter env tagItem ipOp d = .ok (g d) := by
      intro d hd
      have := hall d hd
      unfold cidrFilter
      cases hp : env.ParseIPPrefix (Trim d "'") with
      | none => rw [hp] at this; simp at this
      | some fl =>
        obtain ⟨a, b⟩ := fl
        simp only [g, hp, Option.getD_some]
    refine ⟨cidrs.map g, forEach_ok _ g cidrs hg, List.length_map _ _, ?_⟩
    intro i d hi
    rw [List.getElem?_map, hi, hg d (List.getElem?_mem hi)]
    rfl
  · intro t originFilter e store hip hreg hT hel hslash
    rw [Trans_ip env tagItem t "=" originFilter e store hip hreg hT]
    rw [opValue_other "=" t.Value (by decide) (by decide) (by decide) (by decide)]
    have hlow : ToLower "=" = "=" := by decide
    have hcf : cidrFilter env tagItem "=" c = .ok ("(" ++
          Sprintf tagItem.WhereTranslator
            [.str ">=", .str (env.IPFilterStringToHex ("'" ++ first ++ "'"))] ++ " AND " ++
          Sprintf tagItem.WhereTranslator
            [.str "<=", .str (env.IPFilterStringToHex ("'" ++ last ++ "'"))] ++ ")") := by
      unfold cidrFilter cidrRangeFilter
      simp only [hc]
      rw [if_neg (by decide), if_neg (by decide)]
    unfold ipFilter
    simp only [hel, hlow, List.filter, hslash, forEach, hcf, List.map, ipsFilter, Bool.not_true]
    simp [Join, String.ext_iff]

/-- Witness of C6 on the CIDR `10.0.0.0/8`. -/
theorem C6_cidr_compilation_witness :
    (WhereTag.Trans sampleEnv ⟨"ip", "'10.0.0.0/8'"⟩ "=" "" sampleEngine sampleStore).node =
      .ok (Node.Expr ("((((" ++
        Sprintf "ip4 %s %s"
          [.str ">=", .str (sampleEnv.IPFilterStringToHex ("'" ++ "10.0.0.0" ++ "'"))] ++
        " AND " ++
        Sprintf "ip4 %s %s"
          [.str "<=", .str (sampleEnv.IPFilterStringToHex ("'" ++ "10.255.255.255" ++ "'"))] ++
        "))))")) :=
  (C6_cidr_compilation sampleEnv ⟨"ip4 %s %s", ""⟩ "'10.0.0.0/8'"
    "10.0.0.0" "10.255.255.255" (by decide)).2.2.2.2 ⟨"ip", "'10.0.0.0/8'"⟩ "" sampleEngine
    sampleStore (by decide) (by decide) (by decide) (by decide) (by decide)

/-- The IP filter for a negative operator `neg` is the filter for the positive
operator `pos` inside `not(...)`, when the two lowered tokens are no ordering
comparison, agree on being `in` or `not in`, and `pos` is not negative. -/
theorem ipFilter_negation (env : Env) (tagItem : Tag) (neg pos value : String)
    (hneg : ToLower neg = "not in" ∨ ToLower neg = "!=")
    (hpos : ¬ (ToLower pos = "not in" ∨ ToLower pos = "!="))
    (hord₁ : ToLower neg ∉ [">=", "<=", ">", "<"]) (hord₂ : ToLower pos ∉ [">=", "<=", ">", "<"])
    (hin : (ToLower neg = "in" ∨ ToLower neg = "not in") ↔
      (ToLower pos = "in" ∨ ToLower pos = "not in")) :
    ipFilter env tagItem neg value =
      match ipFilter env tagItem pos value with
      | .error err => .error err
      | .ok filter => .ok ("not(" ++ filter ++ ")") := by
  simp only [List.mem_cons, List.mem_singleton, List.not_mem_nil, or_false, not_or] at hord₁ hord₂
  have hr : ∀ a b, cidrRangeFilter tagItem (ToLower neg) a b =
      cidrRangeFilter tagItem (ToLower pos) a b := by
    intro a b
    unfold cidrRangeFilter
    simp only [hord₁.1, hord₁.2.1, hord₁.2.2.1, hord₁.2.2.2, hord₂.1, hord₂.2.1, hord₂.2.2.1,
      hord₂.2.2.2, or_self, if_false]
  have hcidr : cidrFilter env tagItem (ToLower neg) = cidrFilter env tagItem (ToLower pos) := by
    funext c
    unfold cidrFilter
    simp only [hr]
  have hips : ∀ ips, ipsFilter tagItem (ToLower neg) ips = ipsFilter tagItem (ToLower pos) ips := by
    intro ips
    unfold ipsFilter
    simp only [hord₁.1, hord₁.2.1, hord₁.2.2.1, hord₁.2.2.2, hord₂.1, hord₂.2.1, hord₂.2.2.1,
      hord₂.2.2.2, or_self, if_false]
    by_cases h : ToLower pos = "in" ∨ ToLower pos = "not in"
    · simp only [if_pos h, if_pos (hin.mpr h)]
    · simp only [if_neg h, if_neg (fun h' => h (hin.mp h'))]
  unfold ipFilter
  simp only [hcidr, hips]
  cases forEach (cidrFilter env tagItem (ToLower pos))
      (List.filter (fun ipValue => Contains ipValue "/") (ipElements value)) with
  | error err => rfl
  | ok cidrFilters =>
    simp only []
    rw [if_pos hneg, if_neg hpos]

/-- C7: for an IP tag with a descriptor and every value list, if the list compiles
for `=` to a predicate, that predicate is `(E)` for some `E` and the list compiles
for `!=` to exactly `(not(E))`; likewise for `in` and `not in`; and a list that fails
for the positive operator fails with the same error for the negative one. -/
theorem C7_ip_negation_wraps (env : Env) (tagItem : Tag) (tag value o₁ o₂ : String)
    (e : CHEngine) (store : Store) (hip : tag ∈ ipTags)
    (hreg : env.GetTag (Trim tag "`") e.DB e.Table "default" = some tagItem)
    (hT : tagItem.WhereTranslator ≠ "") :
    (∀ s, (WhereTag.Trans env ⟨tag, value⟩ "=" o₁ e store).node = .ok (Node.Expr s) →
      ∃ E, s = "(" ++ E ++ ")" ∧
        (WhereTag.Trans env ⟨tag, value⟩ "!=" o₂ e store).node =
          .ok (Node.Expr ("(not(" ++ E ++ "))"))) ∧
    (∀ s, (WhereTag.Trans env ⟨tag, value⟩ "in" o₁ e store).node = .ok (Node.Expr s) →
      ∃ E, s = "(" ++ E ++ ")" ∧
        (WhereTag.Trans env ⟨tag, value⟩ "not in" o₂ e store).node =
          .ok (Node.Expr ("(not(" ++ E ++ "))"))) ∧
    (∀ err, (WhereTag.Trans env ⟨tag, value⟩ "=" o₁ e store).node = .error err →
      (WhereTag.Trans env ⟨tag, value⟩ "!=" o₂ e store).node = .error err) ∧
    (∀ err, (WhereTag.Trans env ⟨tag, value⟩ "in" o₁ e store).node = .error err →
      (WhereTag.Trans env ⟨tag, value⟩ "not in" o₂ e store).node = .error err) := by
  have hassoc : ∀ E : String, "(" ++ ("not(" ++ E ++ ")") ++ ")" = "(not(" ++ E ++ "))" := by
    intro E
    apply String.ext
    simp
  have h₁ := ipFilter_negation env tagItem "!=" "=" value (by decide) (by decide) (by decide)
    (by decide) (by decide)
  have h₂ := ipFilter_negation env tagItem "not in" "in" value (by decide) (by decide)
    (by decide) (by decide) (by decide)
  have e₁ := opValue_other "=" value (by decide) (by decide) (by decide) (by decide)
  have e₂ := opValue_other "!=" value (by decide) (by decide) (by decide) (by decide)
  have e₃ := opValue_other "in" value (by decide) (by decide) (by decide) (by decide)
  have e₄ := opValue_other "not in" value (by decide) (by decide) (by decide) (by decide)
  have t₁ := Trans_ip env tagItem ⟨tag, value⟩ "=" o₁ e store hip hreg hT
  have t₂ := Trans_ip env tagItem ⟨tag, value⟩ "!=" o₂ e store hip hreg hT
  have t₃ := Trans_ip env tagItem ⟨tag, value⟩ "in" o₁ e store hip hreg hT
  have t₄ := Trans_ip env tagItem ⟨tag, value⟩ "not in" o₂ e store hip hreg hT
  simp only [e₁, e₂, e₃, e₄] at t₁ t₂ t₃ t₄
  rw [h₁] at t₂
  rw [h₂] at t₄
  rw [t₁, t₂, t₃, t₄]
  refine ⟨?_, ?_, ?_, ?_⟩
  · intro s hs
    cases hf : ipFilter env tagItem "=" value with
    | error err => rw [hf] at hs; simp at hs
    | ok E =>
      rw [hf] at hs
      simp only [Except.ok.injEq, Node.Expr.injEq] at hs
      exact ⟨E, hs.symm, by simp only [hassoc]⟩
  · intro s hs
    cases hf : ipFilter env tagItem "in" value with
    | error err => rw [hf] at hs; simp at hs
    | ok E =>
      rw [hf] at hs
      simp only [Except.ok.injEq, Node.Expr.injEq] at hs
      exact ⟨E, hs.symm, by simp only [hassoc]⟩
  · intro err hs
    cases hf : ipFilter env tagItem "=" value with
    | error err' => rw [hf] at hs; simpa using hs
    | ok E => rw [hf] at hs; simp at hs
  · intro err hs
    cases hf : ipFilter env tagItem "in" value with
    | error err' => rw [hf] at hs; simpa using hs
    | ok E => rw [hf] at hs; simp at hs

/-- Witness of C7 on a list of a CIDR and two plain addresses. -/
theorem C7_ip_negation_wraps_witness :
    ∃ E, "((((ip4 >= toIPv4('10.0.0.0') AND ip4 <= toIPv4('10.255.255.255'))) OR (ip4 in (toIPv4('1.2.3.4'),toIPv6('::1')))))" =
        "(" ++ E ++ ")" ∧
      (WhereTag.Trans sampleEnv ⟨"ip", "('10.0.0.0/8', '1.2.3.4','::1')"⟩ "not in" ""
        sampleEngine sampleStore).node = .ok (Node.Expr ("(not(" ++ E ++ "))")) :=
  (C7_ip_negation_wraps sampleEnv ⟨"ip4 %s %s", ""⟩ "ip" "('10.0.0.0/8', '1.2.3.4','::1')" "" ""
    sampleEngine sampleStore (by decide) (by decide) (by decide)).2.1
    "((((ip4 >= toIPv4('10.0.0.0') AND ip4 <= toIPv4('10.255.255.255'))) OR (ip4 in (toIPv4('1.2.3.4'),toIPv6('::1')))))"
    rfl

/-! ## The boolean tags `is_internet*` -/

/-- The worker of `Split` returns at least one piece. -/
theorem splitAux_ne_nil (sep : List Char) : ∀ (l : List Char) (k : Nat), splitAux sep l k ≠ []
  | [], _ => by simp [splitAux]
  | _ :: cs, k + 1 => by
    rw [splitAux]
    exact splitAux_ne_nil sep cs k
  | c :: cs, 0 => by
    rw [splitAux]
    split
    · simp
    · split <;> simp

/-- A literal list has at least one element. -/
theorem valueSlice_ne_nil (value : String) : valueSlice value ≠ [] := by
  unfold valueSlice Split
  rw [if_neg (by decide)]
  intro h
  exact splitAux_ne_nil _ _ _ (List.map_eq_nil_iff.mp h)

/-- The test `op == "=" || ToLower(op) == "in"` gives the same on the operator as written and
on the rewritten operator. -/
theorem opValue_eq_or_in (op v : String) :
    ((opValue op v).1 = "=" ∨ ToLower (opValue op v).1 = "in") ↔ (op = "=" ∨ ToLower op = "in") := by
  have aux : ∀ (tok fam w : String), opValue op v = (tok, w) → ToLower op = fam →
      ¬ (tok = "=" ∨ ToLower tok = "in") → ToLower "=" ≠ fam → "in" ≠ fam →
      (((opValue op v).1 = "=" ∨ ToLower (opValue op v).1 = "in") ↔
        (op = "=" ∨ ToLower op = "in")) := by
    intro tok fam w heq hfam hnot hA hB
    rw [heq]
    constructor
    · intro h
      exact absurd h hnot
    · rintro (h | h)
      · rw [h] at hfam
        exact absurd hfam hA
      · exact absurd (h.symm.trans hfam) hB
  by_cases h1 : ToLower op = "like"
  · exact aux "ilike" "like" _ (opValue_like op v h1) h1 (by decide) (by decide) (by decide)
  by_cases h2 : ToLower op = "not like"
  · exact aux "not ilike" "not like" _ (opValue_not_like op v h2) h2 (by decide) (by decide)
      (by decide)
  by_cases h3 : ToLower op = "regexp"
  · exact aux "match" "regexp" _ (opValue_regexp op v h3) h3 (by decide) (by decide) (by decide)
  by_cases h4 : ToLower op = "not regexp"
  · exact aux "not match" "not regexp" _ (opValue_not_regexp op v h4) h4 (by decide) (by decide)
      (by decide)
  rw [opValue_other op v h1 h2 h3 h4]

/-- Result of `WhereTag.Trans` on a tag `is_internet*` with a descriptor. -/
theorem Trans_is_internet (env : Env) (tagItem : Tag) (t : WhereTag) (op originFilter : String)
    (e : CHEngine) (store : Store)
    (htag : t.Tag = "is_internet" ∨ t.Tag = "is_internet_0" ∨ t.Tag = "is_internet_1")
    (hreg : env.GetTag (Trim t.Tag "`") e.DB e.Table "default" = some tagItem)
    (hT : tagItem.WhereTranslator ≠ "") :
    (WhereTag.Trans env t op originFilter e store).node =
      .ok (Node.Expr ("(" ++
        isInternetFilter tagItem (opValue op t.Value).1 (opValue op t.Value).2 ++ ")")) := by
  have h1 : t.Tag ≠ "ip_version" := by
    rcases htag with h | h | h <;> rw [h] <;> decide
  unfold WhereTag.Trans
  simp only [hreg]
  unfold resolved whereFilter
  simp only [hT, ne_eq, not_false_eq_true, if_true, h1, if_false, htag]

/-- The filter of a list with true values only. -/
theorem isInternetFilter_true (tagItem : Tag) (op value : String)
    (h : ∀ x, x ∈ valueSlice value → (x = "1" ∨ x = "'1'")) :
    isInternetFilter tagItem op value =
      Sprintf tagItem.WhereTranslator
        [.str (if op = "=" ∨ ToLower op = "in" then "=" else "!=")] := by
  have hT : (valueSlice value).any (fun valueStr => valueStr = "1" ∨ valueStr = "'1'") = true := by
    obtain ⟨x, hx⟩ := List.exists_mem_of_ne_nil _ (valueSlice_ne_nil value)
    rw [List.any_eq_true]
    exact ⟨x, hx, by simpa using h x hx⟩
  have hF : (valueSlice value).any (fun valueStr => ¬ (valueStr = "1" ∨ valueStr = "'1'")) =
      false := by
    rw [List.any_eq_false]
    intro x hx
    simp only [decide_eq_true_eq]
    exact not_not.mpr (h x hx)
  unfold isInternetFilter
  simp only [hT, hF, Bool.false_eq_true, and_false, if_false, if_true]

/-- The filter of a list without a true value. -/
theorem isInternetFilter_false (tagItem : Tag) (op value : String)
    (h : ∀ x, x ∈ valueSlice value → ¬ (x = "1" ∨ x = "'1'")) :
    isInternetFilter tagItem op value =
      Sprintf tagItem.WhereTranslator
        [.str (if op = "=" ∨ ToLower op = "in" then "!=" else "=")] := by
  have hT : (valueSlice value).any (fun valueStr => valueStr = "1" ∨ valueStr = "'1'") =
      false := by
    rw [List.any_eq_false]
    intro x hx
    simpa using h x hx
  unfold isInternetFilter
  simp only [hT, Bool.false_eq_true, false_and, if_false]

/-- C8, the code at the failing input: for `is_internet in (1,0)`, a list with both truth
values, `WhereTag.Trans` returns the template filled with an empty operator and
not the tautology `(1=1)`. -/
theorem C8_is_internet_both_values :
    (WhereTag.Trans sampleEnv ⟨"is_internet", "(1,0)"⟩ "in" "is_internet in (1,0)" sampleEngine
      sampleStore).node = .ok (Node.Expr "(l3_epc_id  -2)") ∧
    (WhereTag.Trans sampleEnv ⟨"is_internet", "(1,0)"⟩ "in" "is_internet in (1,0)" sampleEngine
      sampleStore).node ≠ .ok (Node.Expr "(1=1)") := by
  have h : (WhereTag.Trans sampleEnv ⟨"is_internet", "(1,0)"⟩ "in" "is_internet in (1,0)"
      sampleEngine sampleStore).node = .ok (Node.Expr "(l3_epc_id  -2)") := rfl
  refine ⟨h, ?_⟩
  rw [h]
  simp

/-- C9: for a tag `is_internet*` with a descriptor of template `T`: when every element of
the value list is `1` or `'1'` the predicate is `T` filled with `=` if the operator is
`=` or, up to case, `in`, and `T` filled with `!=` for every other operator; when no
element is `1` or `'1'` the two are swapped; so a true-only list with `!=` (`not in`)
compiles to the predicate of a false-only list with `=` (`in`). -/
theorem C9_is_internet_single_value (env : Env) (tagItem : Tag) (tag : String) (e : CHEngine)
    (store : Store)
    (htag : tag = "is_internet" ∨ tag = "is_internet_0" ∨ tag = "is_internet_1")
    (hreg : env.GetTag (Trim tag "`") e.DB e.Table "default" = some tagItem)
    (hT : tagItem.WhereTranslator ≠ "") :
    (∀ (op value originFilter : String),
      (∀ x, x ∈ valueSlice (opValue op value).2 → (x = "1" ∨ x = "'1'")) →
      (WhereTag.Trans env ⟨tag, value⟩ op originFilter e store).node =
        .ok (Node.Expr ("(" ++ Sprintf tagItem.WhereTranslator
          [.str (if op = "=" ∨ ToLower op = "in" then "=" else "!=")] ++ ")"))) ∧
    (∀ (op value originFilter : String),
      (∀ x, x ∈ valueSlice (opValue op value).2 → ¬ (x = "1" ∨ x = "'1'")) →
      (WhereTag.Trans env ⟨tag, value⟩ op originFilter e store).node =
        .ok (Node.Expr ("(" ++ Sprintf tagItem.WhereTranslator
          [.str (if op = "=" ∨ ToLower op = "in" then "!=" else "=")] ++ ")"))) ∧
    (∀ (trues falses o₁ o₂ : String),
      (∀ x, x ∈ valueSlice trues → (x = "1" ∨ x = "'1'")) →
      (∀ x, x ∈ valueSlice falses → ¬ (x = "1" ∨ x = "'1'")) →
      (WhereTag.Trans env ⟨tag, trues⟩ "!=" o₁ e store).node =
          (WhereTag.Trans env ⟨tag, falses⟩ "=" o₂ e store).node ∧
        (WhereTag.Trans env ⟨tag, trues⟩ "not in" o₁ e store).node =
          (WhereTag.Trans env ⟨tag, falses⟩ "in" o₂ e store).node) := by
  have key₁ : ∀ (op value originFilter : String),
      (∀ x, x ∈ valueSlice (opValue op value).2 → (x = "1" ∨ x = "'1'")) →
      (WhereTag.Trans env ⟨tag, value⟩ op originFilter e store).node =
        .ok (Node.Expr ("(" ++ Sprintf tagItem.WhereTranslator
          [.str (if op = "=" ∨ ToLower op = "in" then "=" else "!=")] ++ ")")) := by
    intro op value originFilter h
    rw [Trans_is_internet env tagItem ⟨tag, value⟩ op originFilter e store htag hreg hT,
      isInternetFilter_true tagItem _ _ h]
    simp only [opValue_eq_or_in]
  have key₂ : ∀ (op value originFilter : String),
      (∀ x, x ∈ valueSlice (opValue op value).2 → ¬ (x = "1" ∨ x = "'1'")) →
      (WhereTag.Trans env ⟨tag, value⟩ op originFilter e store).node =
        .ok (Node.Expr ("(" ++ Sprintf tagItem.WhereTranslator
          [.str (if op = "=" ∨ ToLower op = "in" then "!=" else "=")] ++ ")")) := by
    intro op value originFilter h
    rw [Trans_is_internet env tagItem ⟨tag, value⟩ op originFilter e store htag hreg hT,
      isInternetFilter_false tagItem _ _ h]
    simp only [opValue_eq_or_in]
  refine ⟨key₁, key₂, ?_⟩
  intro trues falses o₁ o₂ ht hf
  have e₁ := opValue_other "=" falses (by decide) (by decide) (by decide) (by decide)
  have e₂ := opValue_other "!=" trues (by decide) (by decide) (by decide) (by decide)
  have e₃ := opValue_other "in" falses (by decide) (by decide) (by decide) (by decide)
  have e₄ := opValue_other "not in" trues (by decide) (by decide) (by decide) (by decide)
  rw [key₁ "!=" trues o₁ (by rw [e₂]; exact ht), key₂ "=" falses o₂ (by rw [e₁]; exact hf),
    key₁ "not in" trues o₁ (by rw [e₄]; exact ht), key₂ "in" falses o₂ (by rw [e₃]; exact hf)]
  constructor
  · rw [if_neg (by decide), if_pos (by decide)]
  · rw [if_neg (by decide), if_pos (by decide)]

/-- Witness of C9: `is_internet not in (1,'1')` compiles to the template filled with `!=`. -/
theorem C9_is_internet_single_value_witness :
    (WhereTag.Trans sampleEnv ⟨"is_internet", "(1,'1')"⟩ "not in" "" sampleEngine
      sampleStore).node =
      .ok (Node.Expr ("(" ++ Sprintf "l3_epc_id %s -2"
        [.str (if "not in" = "=" ∨ ToLower "not in" = "in" then "=" else "!=")] ++ ")")) :=
  (C9_is_internet_single_value sampleEnv ⟨"l3_epc_id %s -2", ""⟩ "is_internet" sampleEngine
    sampleStore (by decide) (by decide) (by decide)).1 "not in" "(1,'1')" "" (by decide)

/-! ## Enum filters (`WhereFunction.Trans`) -/

/-- Result of `WhereFunction.Trans` on `Enum(<tag>)` with a registered enum descriptor. -/
theorem Trans_enum (env : Env) (f : WhereFunction) (op0 : String) (w : Where)
    (db table : String) (td : TagDescription) (tagItem : Tag) (tagName : String)
    (hop : (env.GetOperator op0).2 ≠ OPERATOER_UNKNOWN)
    (hfun : HasPrefix (Trim f.Function.ToString "`") "Enum(" = true)
    (hname : tagName =
      Trim (TrimSuffix (TrimPrefix (Trim f.Function.ToString "`") "Enum(") ")") "`")
    (hdesc : env.TAG_DESCRIPTIONS db table (TrimSuffix (TrimSuffix tagName "_0") "_1") = some td)
    (hreg : env.GetTag tagName db table "enum" = some tagItem) :
    WhereFunction.Trans env f op0 w db table =
      ⟨.ok (Node.Expr ("(" ++
          enumFilter tagItem (!env.TAG_STRING_ENUMS td.EnumFile) tagName
            (TrimSuffix td.EnumFile ("." ++ env.Language)) op0 (opValue op0 f.Value).1
            (opValue op0 f.Value).2 ++ ")")),
        { f with Value := (opValue op0 f.Value).2 }, w⟩ := by
  subst hname
  unfold WhereFunction.Trans
  simp only [hop, if_false, hfun, if_true, hdesc, hreg]

/-- C10: for `Enum(<tag>) = v` over an integer-keyed enum dictionary with a registered
enum descriptor: when `v`, single quotes trimmed, is the integer `n`, the
predicate is the dictionary predicate (the template filled with `=`, `v` and the
dictionary name) followed by ` OR <tag> = toUInt64(n)` with `n` in decimal, in
parentheses; for the literal `'3'` the fallback is `<tag> = toUInt64(3)`; when `v` is
no integer, the predicate is the dictionary predicate alone, in parentheses. -/
theorem C10_enum_eq_integer_fallback (env : Env) (f : WhereFunction) (w : Where)
    (db table : String) (td : TagDescription) (tagItem : Tag) (tagName D : String)
    (hop : (env.GetOperator "=").2 ≠ OPERATOER_UNKNOWN)
    (hfun : HasPrefix (Trim f.Function.ToString "`") "Enum(" = true)
    (hname : tagName =
      Trim (TrimSuffix (TrimPrefix (Trim f.Function.ToString "`") "Enum(") ")") "`")
    (hdesc : env.TAG_DESCRIPTIONS db table (TrimSuffix (TrimSuffix tagName "_0") "_1") = some td)
    (hint : env.TAG_STRING_ENUMS td.EnumFile = false)
    (hreg : env.GetTag tagName db table "enum" = some tagItem)
    (hD : D = Sprintf tagItem.WhereTranslator
      [.str "=", .str f.Value, .str (TrimSuffix td.EnumFile ("." ++ env.Language))]) :
    (∀ n : Int, strconv.Atoi (Trim f.Value "'") = some n →
      (WhereFunction.Trans env f "=" w db table).node =
        .ok (Node.Expr ("(" ++
          (D ++ " OR " ++ tagName ++ " = " ++ "toUInt64(" ++ strconv.Itoa n ++ ")") ++ ")"))) ∧
    (f.Value = "'3'" →
      (WhereFunction.Trans env f "=" w db table).node =
        .ok (Node.Expr ("(" ++
          (D ++ " OR " ++ tagName ++ " = " ++ "toUInt64(" ++ "3" ++ ")") ++ ")"))) ∧
    (strconv.Atoi (Trim f.Value "'") = none →
      (WhereFunction.Trans env f "=" w db table).node = .ok (Node.Expr ("(" ++ D ++ ")"))) := by
  have hT := Trans_enum env f "=" w db table td tagItem tagName hop hfun hname hdesc hreg
  rw [opValue_other "=" f.Value (by decide) (by decide) (by decide) (by decide)] at hT
  have hlow : ToLower "=" = "=" := by decide
  have key : ∀ n : Int, strconv.Atoi (Trim f.Value "'") = some n →
      (WhereFunction.Trans env f "=" w db table).node =
        .ok (Node.Expr ("(" ++
          (D ++ " OR " ++ tagName ++ " = " ++ "toUInt64(" ++ strconv.Itoa n ++ ")") ++ ")")) := by
    intro n hn
    rw [hT, hD]
    unfold enumFilter
    simp only [hlow, if_true, hint, Bool.not_false, hn]
  refine ⟨key, ?_, ?_⟩
  · intro hv
    have h3 : strconv.Atoi (Trim f.Value "'") = some 3 := by rw [hv]; decide
    have := key 3 h3
    rw [this]
    rfl
  · intro hn
    rw [hT, hD]
    unfold enumFilter
    simp only [hlow, if_true, hint, Bool.not_false, hn]

/-- Witness of C10 on `Enum(protocol) = '3'`. -/
theorem C10_enum_eq_integer_fallback_witness :
    (WhereFunction.Trans sampleEnv ⟨⟨"Enum(protocol)", []⟩, "'3'"⟩ "=" { withs := [] } "flow_log"
      "l4_flow_log").node =
      .ok (Node.Expr ("(" ++
        ("toUInt64(protocol) IN (SELECT value FROM flow_tag.int_enum_map WHERE name = '3' and tag_name='protocol')" ++
          " OR " ++ "protocol" ++ " = " ++ "toUInt64(" ++ "3" ++ ")") ++ ")")) :=
  (C10_enum_eq_integer_fallback sampleEnv ⟨⟨"Enum(protocol)", []⟩, "'3'"⟩ { withs := [] } "flow_log"
    "l4_flow_log" ⟨"protocol.en"⟩
    ⟨"toUInt64(protocol) IN (SELECT value FROM flow_tag.int_enum_map WHERE name %s %s and tag_name='%s')",
      "toUInt64(protocol) IN (SELECT value FROM flow_tag.int_enum_map WHERE %s(name,%s) and tag_name='%s')"⟩
    "protocol"
    "toUInt64(protocol) IN (SELECT value FROM flow_tag.int_enum_map WHERE name = '3' and tag_name='protocol')"
    (by decide) (by decide) (by decide) (by decide) (by decide) (by decide) (by decide)).2.1 rfl


/-! ## Enum filters: `!=` and the other operators -/

/-- C11 as stated fails: over the integer-keyed dictionary of `protocol`, the filter
`Enum(protocol) != 'TCP'` (a literal that is no integer) compiles to the dictionary
predicate alone, without the clause ` AND protocol != 'TCP'`. -/
theorem C11_enum_neq_counterexample :
    (WhereFunction.Trans sampleEnv ⟨⟨"Enum(protocol)", []⟩, "'TCP'"⟩ "!=" { withs := [] }
      "flow_log" "l4_flow_log").node =
      .ok (Node.Expr "(toUInt64(protocol) IN (SELECT value FROM flow_tag.int_enum_map WHERE name != 'TCP' and tag_name='protocol'))") ∧
    (WhereFunction.Trans sampleEnv ⟨⟨"Enum(protocol)", []⟩, "'TCP'"⟩ "!=" { withs := [] }
      "flow_log" "l4_flow_log").node ≠
      .ok (Node.Expr "(toUInt64(protocol) IN (SELECT value FROM flow_tag.int_enum_map WHERE name != 'TCP' and tag_name='protocol') AND protocol != 'TCP')") := by
  have h : (WhereFunction.Trans sampleEnv ⟨⟨"Enum(protocol)", []⟩, "'TCP'"⟩ "!=" { withs := [] }
      "flow_log" "l4_flow_log").node =
      .ok (Node.Expr "(toUInt64(protocol) IN (SELECT value FROM flow_tag.int_enum_map WHERE name != 'TCP' and tag_name='protocol'))") :=
    rfl
  refine ⟨h, ?_⟩
  rw [h]
  simp

/-- C11, amended: for `Enum(<tag>) != v` with a registered enum descriptor, `D` being the
template filled with `!=`, `v` and the dictionary name: over an integer-keyed
dictionary the predicate is `(D AND <tag> != toUInt64(n))` when `v`, single quotes
trimmed, is the integer `n`, and `(D)` alone when `v` is no integer; over a
string-keyed dictionary it is a dictionary predicate (the template filled
with an operator, `v` and the dictionary name) followed by ` AND <tag> != v`, in
parentheses. -/
theorem C11_enum_neq_amended (env : Env) (f : WhereFunction) (w : Where)
    (db table : String) (td : TagDescription) (tagItem : Tag) (tagName D : String)
    (hop : (env.GetOperator "!=").2 ≠ OPERATOER_UNKNOWN)
    (hfun : HasPrefix (Trim f.Function.ToString "`") "Enum(" = true)
    (hname : tagName =
      Trim (TrimSuffix (TrimPrefix (Trim f.Function.ToString "`") "Enum(") ")") "`")
    (hdesc : env.TAG_DESCRIPTIONS db table (TrimSuffix (TrimSuffix tagName "_0") "_1") = some td)
    (hreg : env.GetTag tagName db table "enum" = some tagItem)
    (hD : D = Sprintf tagItem.WhereTranslator
      [.str "!=", .str f.Value, .str (TrimSuffix td.EnumFile ("." ++ env.Language))]) :
    (env.TAG_STRING_ENUMS td.EnumFile = false →
      (∀ n : Int, strconv.Atoi (Trim f.Value "'") = some n →
        (WhereFunction.Trans env f "!=" w db table).node =
          .ok (Node.Expr ("(" ++
            (D ++ " AND " ++ tagName ++ " != " ++ "toUInt64(" ++ strconv.Itoa n ++ ")") ++
            ")"))) ∧
      (strconv.Atoi (Trim f.Value "'") = none →
        (WhereFunction.Trans env f "!=" w db table).node = .ok (Node.Expr ("(" ++ D ++ ")")))) ∧
    (env.TAG_STRING_ENUMS td.EnumFile = true →
      ∃ o : String,
        (WhereFunction.Trans env f "!=" w db table).node =
          .ok (Node.Expr ("(" ++
            (Sprintf tagItem.WhereTranslator
                [.str o, .str f.Value, .str (TrimSuffix td.EnumFile ("." ++ env.Language))] ++
              " AND " ++ tagName ++ " != " ++ f.Value) ++ ")"))) := by
  have hT := Trans_enum env f "!=" w db table td tagItem tagName hop hfun hname hdesc hreg
  rw [opValue_other "!=" f.Value (by decide) (by decide) (by decide) (by decide)] at hT
  have hlow : ToLower "!=" = "!=" := by decide
  have hne : ¬ ("!=" : String) = "=" := by decide
  refine ⟨fun hint => ⟨?_, ?_⟩, ?_⟩
  · intro n hn
    rw [hT, hD]
    unfold enumFilter
    simp only [hlow, hne, if_false, if_true, hint, Bool.not_false, hn]
  · intro hn
    rw [hT, hD]
    unfold enumFilter
    simp only [hlow, hne, if_false, if_true, hint, Bool.not_false, hn]
  · intro hstr
    refine ⟨"=", ?_⟩
    rw [hT]
    unfold enumFilter
    simp only [hlow, hne, if_false, if_true, hstr, Bool.not_true, Bool.false_eq_true]

/-- Witness of C11 (amended) on `Enum(protocol) != '6'`. -/
theorem C11_enum_neq_amended_witness :
    (WhereFunction.Trans sampleEnv ⟨⟨"Enum(protocol)", []⟩, "'6'"⟩ "!=" { withs := [] }
      "flow_log" "l4_flow_log").node =
      .ok (Node.Expr ("(" ++
        ("toUInt64(protocol) IN (SELECT value FROM flow_tag.int_enum_map WHERE name != '6' and tag_name='protocol')" ++
          " AND " ++ "protocol" ++ " != " ++ "toUInt64(" ++ strconv.Itoa 6 ++ ")") ++ ")")) :=
  ((C11_enum_neq_amended sampleEnv ⟨⟨"Enum(protocol)", []⟩, "'6'"⟩ { withs := [] } "flow_log"
    "l4_flow_log" ⟨"protocol.en"⟩
    ⟨"toUInt64(protocol) IN (SELECT value FROM flow_tag.int_enum_map WHERE name %s %s and tag_name='%s')",
      "toUInt64(protocol) IN (SELECT value FROM flow_tag.int_enum_map WHERE %s(name,%s) and tag_name='%s')"⟩
    "protocol"
    "toUInt64(protocol) IN (SELECT value FROM flow_tag.int_enum_map WHERE name != '6' and tag_name='protocol')"
    (by decide) (by decide) (by decide) (by decide) (by decide) (by decide)).1 (by decide)).1 6
    (by decide)

/-- If `match` occurs in a text, it occurs in the lowered text. -/
theorem containsAux_match_map_toLower :
    ∀ l : List Char, containsAux "match".data l = true →
      containsAux "match".data (l.map Char.toLower) = true
  | [], h => by simp [containsAux] at h
  | c :: cs, h => by
    rw [containsAux, Bool.or_eq_true] at h
    rw [List.map_cons, containsAux, Bool.or_eq_true]
    rcases h with h | h
    · left
      have hm : "match".data.map Char.toLower = "match".data := by decide
      rw [List.isPrefixOf_iff_prefix] at h ⊢
      have hp := List.IsPrefix.map Char.toLower h
      rw [hm] at hp
      exact hp
    · right
      exact containsAux_match_map_toLower cs h
/-- Result of the `default:` branch of the enum filter. -/
theorem enumFilter_default (tagItem : Tag) (isIntEnum : Bool) (tagName enum op0 opName
    value : String) (h₁ : ToLower op0 ≠ "=") (h₂ : ToLower op0 ≠ "!=") :
    enumFilter tagItem isIntEnum tagName enum op0 opName value =
      if Contains opName "match" = true then
        Sprintf tagItem.WhereRegexpTranslator [.str opName, .str value, .str enum]
      else Sprintf tagItem.WhereTranslator [.str opName, .str value, .str enum] := by
  unfold enumFilter
  rw [if_neg h₁, if_neg h₂]

/-- C12: for `Enum(<tag>)` with a registered enum descriptor and a supported operator
other than `=` and `!=`, `WhereFunction.Trans` returns the dictionary predicate in
parentheses and nothing else: the regexp template filled with `match` or
`not match` for `regexp` and `not regexp`, the template filled with `ilike` or `not ilike`
and the value with `*` rewritten to `%` for the `like` family, and the template
filled with the operator as written for the ordering comparisons, `in` and
`not in`; the operator, the value and the dictionary name fill it in that
order. -/
theorem C12_enum_other_operators (env : Env) (f : WhereFunction) (op : String) (w : Where)
    (db table : String) (td : TagDescription) (tagItem : Tag) (tagName enum : String)
    (hop : (env.GetOperator op).2 ≠ OPERATOER_UNKNOWN)
    (hfun : HasPrefix (Trim f.Function.ToString "`") "Enum(" = true)
    (hname : tagName =
      Trim (TrimSuffix (TrimPrefix (Trim f.Function.ToString "`") "Enum(") ")") "`")
    (hdesc : env.TAG_DESCRIPTIONS db table (TrimSuffix (TrimSuffix tagName "_0") "_1") = some td)
    (hreg : env.GetTag tagName db table "enum" = some tagItem)
    (henum : enum = TrimSuffix td.EnumFile ("." ++ env.Language)) :
    (ToLower op = "regexp" →
      (WhereFunction.Trans env f op w db table).node =
        .ok (Node.Expr ("(" ++ Sprintf tagItem.WhereRegexpTranslator
          [.str "match", .str f.Value, .str enum] ++ ")"))) ∧
    (ToLower op = "not regexp" →
      (WhereFunction.Trans env f op w db table).node =
        .ok (Node.Expr ("(" ++ Sprintf tagItem.WhereRegexpTranslator
          [.str "not match", .str f.Value, .str enum] ++ ")"))) ∧
    (ToLower op = "like" →
      (WhereFunction.Trans env f op w db table).node =
        .ok (Node.Expr ("(" ++ Sprintf tagItem.WhereTranslator
          [.str "ilike", .str (ReplaceAll f.Value "*" "%"), .str enum] ++ ")"))) ∧
    (ToLower op = "not like" →
      (WhereFunction.Trans env f op w db table).node =
        .ok (Node.Expr ("(" ++ Sprintf tagItem.WhereTranslator
          [.str "not ilike", .str (ReplaceAll f.Value "*" "%"), .str enum] ++ ")"))) ∧
    (ToLower op ∈ ["<", "<=", ">", ">=", "in", "not in"] →
      (WhereFunction.Trans env f op w db table).node =
        .ok (Node.Expr ("(" ++ Sprintf tagItem.WhereTranslator
          [.str op, .str f.Value, .str enum] ++ ")"))) := by
  have hT := Trans_enum env f op w db table td tagItem tagName hop hfun hname hdesc hreg
  subst henum
  refine ⟨?_, ?_, ?_, ?_, ?_⟩
  · intro h
    rw [hT, opValue_regexp op f.Value h,
      enumFilter_default _ _ _ _ _ _ _ (by rw [h]; decide) (by rw [h]; decide),
      if_pos (show Contains "match" "match" = true by decide)]
  · intro h
    rw [hT, opValue_not_regexp op f.Value h,
      enumFilter_default _ _ _ _ _ _ _ (by rw [h]; decide) (by rw [h]; decide),
      if_pos (show Contains "not match" "match" = true by decide)]
  · intro h
    rw [hT, opValue_like op f.Value h,
      enumFilter_default _ _ _ _ _ _ _ (by rw [h]; decide) (by rw [h]; decide),
      if_neg (show ¬ Contains "ilike" "match" = true by decide)]
  · intro h
    rw [hT, opValue_not_like op f.Value h,
      enumFilter_default _ _ _ _ _ _ _ (by rw [h]; decide) (by rw [h]; decide),
      if_neg (show ¬ Contains "not ilike" "match" = true by decide)]
  · intro h
    have key : ToLower op ≠ "like" ∧ ToLower op ≠ "not like" ∧ ToLower op ≠ "regexp" ∧
        ToLower op ≠ "not regexp" ∧ ToLower op ≠ "=" ∧ ToLower op ≠ "!=" ∧
        Contains (ToLower op) "match" = false := by
      simp only [List.mem_cons, List.mem_singleton, List.not_mem_nil, or_false] at h
      rcases h with h | h | h | h | h | h <;> rw [h] <;> decide
    have hc : ¬ Contains op "match" = true := by
      intro hc
      have := containsAux_match_map_toLower op.data hc
      have h' : Contains (ToLower op) "match" = true := this
      rw [key.2.2.2.2.2.2] at h'
      exact Bool.false_ne_true h'
    rw [hT, opValue_other op f.Value key.1 key.2.1 key.2.2.1 key.2.2.2.1,
      enumFilter_default _ _ _ _ _ _ _ key.2.2.2.2.1 key.2.2.2.2.2.1, if_neg hc]

/-- Witness of C12 on `Enum(protocol) not like '*CP'`. -/
theorem C12_enum_other_operators_witness :
    (WhereFunction.Trans sampleEnv ⟨⟨"Enum(protocol)", []⟩, "'*CP'"⟩ "not like" { withs := [] }
      "flow_log" "l4_flow_log").node =
      .ok (Node.Expr ("(" ++
        Sprintf "toUInt64(protocol) IN (SELECT value FROM flow_tag.int_enum_map WHERE name %s %s and tag_name='%s')"
          [.str "not ilike", .str (ReplaceAll "'*CP'" "*" "%"), .str "protocol"] ++ ")")) :=
  (C12_enum_other_operators sampleEnv ⟨⟨"Enum(protocol)", []⟩, "'*CP'"⟩ "not like"
    { withs := [] } "flow_log" "l4_flow_log" ⟨"protocol.en"⟩
    ⟨"toUInt64(protocol) IN (SELECT value FROM flow_tag.int_enum_map WHERE name %s %s and tag_name='%s')",
      "toUInt64(protocol) IN (SELECT value FROM flow_tag.int_enum_map WHERE %s(name,%s) and tag_name='%s')"⟩
    "protocol" "protocol" (by decide) (by decide) (by decide) (by decide) (by decide)
    (by decide)).2.2.2.1 (by decide)

/-! ## Prometheus filters -/

set_option maxRecDepth 100000 in
/-- The app-label predicate for a regexp-style operator, written out. -/
theorem Sprintf_app_match (i l : Int) (op v : String) :
    Sprintf "toUInt64(app_label_value_id_%d) IN (SELECT label_value_id FROM flow_tag.app_label_live_view WHERE label_name_id=%d and %s(label_value,%s))"
        [.int i, .int l, .str op, .str v] =
      "toUInt64(app_label_value_id_" ++ strconv.Itoa i ++
        ") IN (SELECT label_value_id FROM flow_tag.app_label_live_view WHERE label_name_id=" ++
        strconv.Itoa l ++ " and " ++ (op ++ "(label_value," ++ v ++ ")") ++ ")" := by
  apply String.ext
  simp [Sprintf, sprintfAux, verb, extra, Arg.plain]

set_option maxRecDepth 100000 in
/-- The app-label predicate for another operator, written out. -/
theorem Sprintf_app_plain (i l : Int) (op v : String) :
    Sprintf "toUInt64(app_label_value_id_%d) IN (SELECT label_value_id FROM flow_tag.app_label_live_view WHERE label_name_id=%d and label_value %s %s)"
        [.int i, .int l, .str op, .str v] =
      "toUInt64(app_label_value_id_" ++ strconv.Itoa i ++
        ") IN (SELECT label_value_id FROM flow_tag.app_label_live_view WHERE label_name_id=" ++
        strconv.Itoa l ++ " and " ++ ("label_value " ++ op ++ " " ++ v) ++ ")" := by
  apply String.ext
  simp [Sprintf, sprintfAux, verb, extra, Arg.plain]

set_option maxRecDepth 100000 in
/-- The target-label predicate for a regexp-style operator, written out. -/
theorem Sprintf_target_match (m l : Int) (op v : String) :
    Sprintf "toUInt64(target_id) IN (SELECT target_id FROM flow_tag.target_label_live_view WHERE metric_id=%d and label_name_id=%d and %s(label_value,%s))"
        [.int m, .int l, .str op, .str v] =
      "toUInt64(target_id) IN (SELECT target_id FROM flow_tag.target_label_live_view WHERE metric_id=" ++
        strconv.Itoa m ++ " and label_name_id=" ++ strconv.Itoa l ++ " and " ++
        (op ++ "(label_value," ++ v ++ ")") ++ ")" := by
  apply String.ext
  simp [Sprintf, sprintfAux, verb, extra, Arg.plain]

set_option maxRecDepth 100000 in
/-- The target-label predicate for another operator, written out. -/
theorem Sprintf_target_plain (m l : Int) (op v : String) :
    Sprintf "toUInt64(target_id) IN (SELECT target_id FROM flow_tag.target_label_live_view WHERE metric_id=%d and label_name_id=%d and label_value %s %s)"
        [.int m, .int l, .str op, .str v] =
      "toUInt64(target_id) IN (SELECT target_id FROM flow_tag.target_label_live_view WHERE metric_id=" ++
        strconv.Itoa m ++ " and label_name_id=" ++ strconv.Itoa l ++ " and " ++
        ("label_value " ++ op ++ " " ++ v) ++ ")" := by
  apply String.ext
  simp [Sprintf, sprintfAux, verb, extra, Arg.plain]

/-- The first element with a property is the one `find?` returns. -/
theorem find?_first {α : Type} (p : α → Bool) (a : α) (post : List α) (ha : p a = true) :
    ∀ pre : List α, (∀ b, b ∈ pre → p b = false) → (pre ++ a :: post).find? p = some a
  | [], _ => by simp [List.find?, ha]
  | c :: pre, h => by
    have hc := h c (List.mem_cons_self c pre)
    rw [List.cons_append, List.find?, hc]
    exact find?_first p a post ha pre (fun b hb => h b (List.mem_cons_of_mem c hb))

/-- The layout of a table holds no entry for the label. -/
theorem layout_find?_none (env : Env) (table label : String)
    (h : ∀ layout, env.Prometheus.MetricAppLabelLayout table = some layout →
      ∀ b, b ∈ layout → b.AppLabelName ≠ label) :
    ((env.Prometheus.MetricAppLabelLayout table).getD []).find?
      (fun appLabel => appLabel.AppLabelName = label) = none := by
  rw [List.find?_eq_none]
  intro b hb
  cases hl : env.Prometheus.MetricAppLabelLayout table with
  | none => rw [hl] at hb; simp at hb
  | some layout =>
    rw [hl] at hb
    simpa using h layout hl b hb

/-- The layout of a table holds a first entry for the label. -/
theorem layout_find?_some (env : Env) (table label : String) (layout pre post : List AppLabel)
    (a : AppLabel) (hlay : env.Prometheus.MetricAppLabelLayout table = some layout)
    (hsplit : layout = pre ++ a :: post) (hpre : ∀ b, b ∈ pre → b.AppLabelName ≠ label)
    (ha : a.AppLabelName = label) :
    ((env.Prometheus.MetricAppLabelLayout table).getD []).find?
      (fun appLabel => appLabel.AppLabelName = label) = some a := by
  rw [hlay, Option.getD_some, hsplit]
  exact find?_first _ a post (by simpa using ha) pre (fun b hb => by simpa using hpre b hb)

/-- C14: with metric and label registered, `GetPrometheusFilter` returns without error:
when the layout of the table has entries named as the label, the app-label
predicate on the column of the first of them (the metric id does not occur);
when it has none, or the table has no layout, the target-label predicate on
the metric id and the label id; the comparison is `<op>(label_value,<value>)` for an
operator containing `match` and `label_value <op> <value>` otherwise. -/
theorem C14_prometheus_filter (env : Env) (promTag table op value label cmp : String)
    (metricID labelNameID : Int) (hlabel : label = TrimPrefix promTag "tag.")
    (hm : env.Prometheus.MetricNameToID table = some metricID)
    (hl : env.Prometheus.LabelNameToID label = some labelNameID)
    (hcmp : cmp = if Contains op "match" = true then op ++ "(label_value," ++ value ++ ")"
      else "label_value " ++ op ++ " " ++ value) :
    (∀ (layout pre post : List AppLabel) (a : AppLabel),
      env.Prometheus.MetricAppLabelLayout table = some layout → layout = pre ++ a :: post →
      (∀ b, b ∈ pre → b.AppLabelName ≠ label) → a.AppLabelName = label →
      GetPrometheusFilter env promTag table op value =
        ("toUInt64(app_label_value_id_" ++ strconv.Itoa a.appLabelColumnIndex ++
          ") IN (SELECT label_value_id FROM flow_tag.app_label_live_view WHERE label_name_id=" ++
          strconv.Itoa labelNameID ++ " and " ++ cmp ++ ")", none)) ∧
    ((∀ layout, env.Prometheus.MetricAppLabelLayout table = some layout →
        ∀ b, b ∈ layout → b.AppLabelName ≠ label) →
      GetPrometheusFilter env promTag table op value =
        ("toUInt64(target_id) IN (SELECT target_id FROM flow_tag.target_label_live_view WHERE metric_id=" ++
          strconv.Itoa metricID ++ " and label_name_id=" ++ strconv.Itoa labelNameID ++ " and " ++
          cmp ++ ")", none)) := by
  subst hlabel
  constructor
  · intro layout pre post a hlay hsplit hpre ha
    have hf := layout_find?_some env table _ layout pre post a hlay hsplit hpre ha
    unfold GetPrometheusFilter
    simp only [hm, hl, hf]
    by_cases hc : Contains op "match" = true
    · rw [if_pos hc, Sprintf_app_match, hcmp, if_pos hc]
    · rw [if_neg hc, Sprintf_app_plain, hcmp, if_neg hc]
  · intro hnone
    have hf := layout_find?_none env table _ hnone
    unfold GetPrometheusFilter
    simp only [hm, hl, hf]
    by_cases hc : Contains op "match" = true
    · rw [if_pos hc, Sprintf_target_match, hcmp, if_pos hc]
    · rw [if_neg hc, Sprintf_target_plain, hcmp, if_neg hc]

/-- Witness of C14 on the target label `instance` of the metric `up`. -/
theorem C14_prometheus_filter_witness :
    GetPrometheusFilter samplePromEnv "tag.instance" "up" "match" "'a.*'" =
      ("toUInt64(target_id) IN (SELECT target_id FROM flow_tag.target_label_live_view WHERE metric_id=" ++
        strconv.Itoa 7 ++ " and label_name_id=" ++ strconv.Itoa 4 ++ " and " ++
        "match(label_value,'a.*')" ++ ")", none) :=
  (C14_prometheus_filter samplePromEnv "tag.instance" "up" "match" "'a.*'" "instance"
    "match(label_value,'a.*')" 7 4 (by decide) (by decide) (by decide) (by decide)).2
    (by
      intro layout hlay b hb
      have : layout = [⟨"job", 2⟩] := by
        have h : samplePromEnv.Prometheus.MetricAppLabelLayout "up" = some [⟨"job", 2⟩] := by
          decide
        rw [h] at hlay
        exact (Option.some.inj hlay).symm
      subst this
      simp only [List.mem_singleton] at hb
      subst hb
      decide)

/-! ## Remote read: cache, lookup and deferred target labels -/

/-- Result of `GetRemoteReadFilter` for a target label. -/
theorem RemoteRead_target (env : Env) (promTag table op value originFilter : String)
    (e : CHEngine) (store : Store) (metricID labelNameID : Int)
    (hm : env.Prometheus.MetricNameToID table = some metricID)
    (hl : env.Prometheus.LabelNameToID (TrimPrefix promTag "tag.") = some labelNameID)
    (hf : ((env.Prometheus.MetricAppLabelLayout table).getD []).find?
      (fun appLabel => appLabel.AppLabelName = TrimPrefix promTag "tag.") = none) :
    GetRemoteReadFilter env promTag table op value originFilter e store =
      ⟨"", none,
        { e with TargetLabelFilters := e.TargetLabelFilters ++
            [{ OriginFilter := originFilter,
               TransFilter := targetLabelSql metricID labelNameID op value }] },
        store⟩ := by
  unfold GetRemoteReadFilter
  simp only [hm, hl, hf]

/-- Result of `GetRemoteReadFilter` for an app label with a fresh cache entry. -/
theorem RemoteRead_fresh (env : Env) (promTag table op value originFilter : String)
    (e : CHEngine) (store : Store) (metricID labelNameID : Int) (appLabel : AppLabel)
    (c : EntryValue)
    (hm : env.Prometheus.MetricNameToID table = some metricID)
    (hl : env.Prometheus.LabelNameToID (TrimPrefix promTag "tag.") = some labelNameID)
    (hf : ((env.Prometheus.MetricAppLabelLayout table).getD []).find?
      (fun appLabel => appLabel.AppLabelName = TrimPrefix promTag "tag.") = some appLabel)
    (hget : store.Get originFilter = some c)
    (hage : store.now - c.Time < env.PrometheusIdSubqueryLruTimeout) :
    GetRemoteReadFilter env promTag table op value originFilter e store =
      ⟨c.Filter, none, e, store⟩ := by
  unfold GetRemoteReadFilter
  simp only [hm, hl, hf, hget, hage, if_true]

/-- Result of `GetRemoteReadFilter` for an app label without a fresh cache entry. -/
theorem RemoteRead_lookup (env : Env) (promTag table op value originFilter : String)
    (e : CHEngine) (store : Store) (metricID labelNameID : Int) (appLabel : AppLabel)
    (hm : env.Prometheus.MetricNameToID table = some metricID)
    (hl : env.Prometheus.LabelNameToID (TrimPrefix promTag "tag.") = some labelNameID)
    (hf : ((env.Prometheus.MetricAppLabelLayout table).getD []).find?
      (fun appLabel => appLabel.AppLabelName = TrimPrefix promTag "tag.") = some appLabel)
    (hstale : ∀ c, store.Get originFilter = some c →
      ¬ (store.now - c.Time < env.PrometheusIdSubqueryLruTimeout)) :
    GetRemoteReadFilter env promTag table op value originFilter e store =
      match env.DoQuery (appLabelSql labelNameID op value) with
      | .error err =>
        ⟨"", some err, e,
          { store with queries := store.queries ++ [appLabelSql labelNameID op value] }⟩
      | .ok rows =>
        match forEach valueIDString rows with
        | .error err =>
          ⟨"", some err, e,
            { store with queries := store.queries ++ [appLabelSql labelNameID op value] }⟩
        | .ok valueIDs =>
          ⟨appLabelFilter appLabel.appLabelColumnIndex valueIDs, none, e,
            { cache := (originFilter,
                ⟨store.now, appLabelFilter appLabel.appLabelColumnIndex valueIDs⟩) :: store.cache,
              now := store.now,
              queries := store.queries ++ [appLabelSql labelNameID op value] }⟩ := by
  unfold GetRemoteReadFilter
  simp only [hm, hl, hf]
  cases hg : store.Get originFilter with
  | none => rfl
  | some c =>
    have := hstale c hg
    simp only [this, if_false]
    rfl

/-- Result of `GetRemoteReadFilter` when the lookup it issues fails. -/
theorem RemoteRead_lookup_error (env : Env) (promTag table op value originFilter : String)
    (e : CHEngine) (store : Store) (metricID labelNameID : Int) (appLabel : AppLabel)
    (err : Err)
    (hm : env.Prometheus.MetricNameToID table = some metricID)
    (hl : env.Prometheus.LabelNameToID (TrimPrefix promTag "tag.") = some labelNameID)
    (hf : ((env.Prometheus.MetricAppLabelLayout table).getD []).find?
      (fun appLabel => appLabel.AppLabelName = TrimPrefix promTag "tag.") = some appLabel)
    (hstale : ∀ c, store.Get originFilter = some c →
      ¬ (store.now - c.Time < env.PrometheusIdSubqueryLruTimeout))
    (hq : env.DoQuery (appLabelSql labelNameID op value) = .error err) :
    GetRemoteReadFilter env promTag table op value originFilter e store =
      ⟨"", some err, e,
        { store with queries := store.queries ++ [appLabelSql labelNameID op value] }⟩ := by
  rw [RemoteRead_lookup env promTag table op value originFilter e store metricID labelNameID
    appLabel hm hl hf hstale]
  simp only [hq]

/-- Result of `GetRemoteReadFilter` when a row of the lookup has no `int` in front. -/
theorem RemoteRead_lookup_runtime (env : Env) (promTag table op value originFilter : String)
    (e : CHEngine) (store : Store) (metricID labelNameID : Int) (appLabel : AppLabel)
    (rows : List (List Cell)) (err : Err)
    (hm : env.Prometheus.MetricNameToID table = some metricID)
    (hl : env.Prometheus.LabelNameToID (TrimPrefix promTag "tag.") = some labelNameID)
    (hf : ((env.Prometheus.MetricAppLabelLayout table).getD []).find?
      (fun appLabel => appLabel.AppLabelName = TrimPrefix promTag "tag.") = some appLabel)
    (hstale : ∀ c, store.Get originFilter = some c →
      ¬ (store.now - c.Time < env.PrometheusIdSubqueryLruTimeout))
    (hq : env.DoQuery (appLabelSql labelNameID op value) = .ok rows)
    (hrows : forEach valueIDString rows = .error err) :
    GetRemoteReadFilter env promTag table op value originFilter e store =
      ⟨"", some err, e,
        { store with queries := store.queries ++ [appLabelSql labelNameID op value] }⟩ := by
  rw [RemoteRead_lookup env promTag table op value originFilter e store metricID labelNameID
    appLabel hm hl hf hstale]
  simp only [hq, hrows]

/-- Result of `GetRemoteReadFilter` when the lookup it issues succeeds. -/
theorem RemoteRead_lookup_ok (env : Env) (promTag table op value originFilter : String)
    (e : CHEngine) (store : Store) (metricID labelNameID : Int) (appLabel : AppLabel)
    (rows : List (List Cell)) (valueIDs : List String)
    (hm : env.Prometheus.MetricNameToID table = some metricID)
    (hl : env.Prometheus.LabelNameToID (TrimPrefix promTag "tag.") = some labelNameID)
    (hf : ((env.Prometheus.MetricAppLabelLayout table).getD []).find?
      (fun appLabel => appLabel.AppLabelName = TrimPrefix promTag "tag.") = some appLabel)
    (hstale : ∀ c, store.Get originFilter = some c →
      ¬ (store.now - c.Time < env.PrometheusIdSubqueryLruTimeout))
    (hq : env.DoQuery (appLabelSql labelNameID op value) = .ok rows)
    (hrows : forEach valueIDString rows = .ok valueIDs) :
    GetRemoteReadFilter env promTag table op value originFilter e store =
      ⟨appLabelFilter appLabel.appLabelColumnIndex valueIDs, none, e,
        { cache := (originFilter,
            ⟨store.now, appLabelFilter appLabel.appLabelColumnIndex valueIDs⟩) :: store.cache,
          now := store.now,
          queries := store.queries ++ [appLabelSql labelNameID op value] }⟩ := by
  rw [RemoteRead_lookup env promTag table op value originFilter e store metricID labelNameID
    appLabel hm hl hf hstale]
  simp only [hq, hrows]

/-- C13 as stated fails: the metric `up` and the label `job` are registered, and
`GetRemoteReadFilter` still returns an error, the one of the backing store. -/
theorem C13_not_found_counterexample :
    sampleFailEnv.Prometheus.MetricNameToID "up" = some 7 ∧
    sampleFailEnv.Prometheus.LabelNameToID (TrimPrefix "tag.job" "tag.") = some 3 ∧
    (GetRemoteReadFilter sampleFailEnv "tag.job" "up" "=" "'a'" "tag.job = 'a'"
      sampleRemoteEngine sampleStore).err = some (Err.query "connection refused") := by
  decide

/-- C13, amended: `GetPrometheusFilter` returns an error if and only if the table is absent
from the metric registry or the label (the tag name without `tag.`) from the
label registry.  For both functions the error is `<table> not found` when the
metric is missing and `<label> not found` when only the label is; the filter is
then empty, and `GetRemoteReadFilter` issues no query and changes neither the
cache nor the deferred queue.  With both registered the only errors of
`GetRemoteReadFilter` are those of the lookup it has issued. -/
theorem C13_not_found_amended (env : Env) (promTag table op value originFilter label : String)
    (e : CHEngine) (store : Store) (hlabel : label = TrimPrefix promTag "tag.") :
    ((GetPrometheusFilter env promTag table op value).2 ≠ none ↔
      (env.Prometheus.MetricNameToID table = none ∨
        env.Prometheus.LabelNameToID label = none)) ∧
    (env.Prometheus.MetricNameToID table = none →
      GetPrometheusFilter env promTag table op value = ("", some (Err.notFound table)) ∧
      GetRemoteReadFilter env promTag table op value originFilter e store =
        ⟨"", some (Err.notFound table), e, store⟩) ∧
    (env.Prometheus.MetricNameToID table ≠ none →
      env.Prometheus.LabelNameToID label = none →
      GetPrometheusFilter env promTag table op value = ("", some (Err.notFound label)) ∧
      GetRemoteReadFilter env promTag table op value originFilter e store =
        ⟨"", some (Err.notFound label), e, store⟩) ∧
    (∀ (metricID labelNameID : Int) (err : Err),
      env.Prometheus.MetricNameToID table = some metricID →
      env.Prometheus.LabelNameToID label = some labelNameID →
      (GetRemoteReadFilter env promTag table op value originFilter e store).err = some err →
      (GetRemoteReadFilter env promTag table op value originFilter e store).store.queries =
          store.queries ++ [appLabelSql labelNameID op value] ∧
        (env.DoQuery (appLabelSql labelNameID op value) = .error err ∨
          ∃ rows, env.DoQuery (appLabelSql labelNameID op value) = .ok rows ∧
            forEach valueIDString rows = .error err)) := by
  subst hlabel
  refine ⟨?_, ?_, ?_, ?_⟩
  · cases hm : env.Prometheus.MetricNameToID table with
    | none =>
      unfold GetPrometheusFilter
      simp [hm]
    | some metricID =>
      cases hl : env.Prometheus.LabelNameToID (TrimPrefix promTag "tag.") with
      | none =>
        unfold GetPrometheusFilter
        simp [hm, hl]
      | some labelNameID =>
        unfold GetPrometheusFilter
        simp only [hm, hl, reduceCtorEq, or_self, iff_false, not_not]
        split <;> split <;> rfl
  · intro hm
    unfold GetPrometheusFilter GetRemoteReadFilter
    simp only [hm, and_self]
  · intro hm hl
    obtain ⟨metricID, hm'⟩ := Option.ne_none_iff_exists'.mp hm
    unfold GetPrometheusFilter GetRemoteReadFilter
    simp only [hm', hl, and_self]
  · intro metricID labelNameID err hm hl herr
    cases hf : ((env.Prometheus.MetricAppLabelLayout table).getD []).find?
        (fun appLabel => appLabel.AppLabelName = TrimPrefix promTag "tag.") with
    | none =>
      rw [RemoteRead_target env promTag table op value originFilter e store metricID
        labelNameID hm hl hf] at herr
      simp at herr
    | some appLabel =>
      by_cases hfresh : ∃ c, store.Get originFilter = some c ∧
          store.now - c.Time < env.PrometheusIdSubqueryLruTimeout
      · obtain ⟨c, hget, hage⟩ := hfresh
        rw [RemoteRead_fresh env promTag table op value originFilter e store metricID
          labelNameID appLabel c hm hl hf hget hage] at herr
        simp at herr
      · have hstale : ∀ c, store.Get originFilter = some c →
            ¬ (store.now - c.Time < env.PrometheusIdSubqueryLruTimeout) :=
          fun c hc hage => hfresh ⟨c, hc, hage⟩
        cases hq : env.DoQuery (appLabelSql labelNameID op value) with
        | error err' =>
          rw [RemoteRead_lookup_error env promTag table op value originFilter e store metricID
            labelNameID appLabel err' hm hl hf hstale hq] at herr ⊢
          simp only [Option.some.injEq] at herr
          subst herr
          exact ⟨rfl, Or.inl rfl⟩
        | ok rows =>
          cases hrows : forEach valueIDString rows with
          | error err' =>
            rw [RemoteRead_lookup_runtime env promTag table op value originFilter e store
              metricID labelNameID appLabel rows err' hm hl hf hstale hq hrows] at herr ⊢
            simp only [Option.some.injEq] at herr
            subst herr
            exact ⟨rfl, Or.inr ⟨rows, rfl, hrows⟩⟩
          | ok ids =>
            rw [RemoteRead_lookup_ok env promTag table op value originFilter e store metricID
              labelNameID appLabel rows ids hm hl hf hstale hq hrows] at herr
            simp at herr

/-- Witness of C13 (amended): the table `down` is no registered metric. -/
theorem C13_not_found_amended_witness :
    GetRemoteReadFilter samplePromEnv "tag.job" "down" "=" "'a'" "tag.job = 'a'"
        sampleRemoteEngine sampleStore =
      ⟨"", some (Err.notFound "down"), sampleRemoteEngine, sampleStore⟩ :=
  ((C13_not_found_amended samplePromEnv "tag.job" "down" "=" "'a'" "tag.job = 'a'" "job"
    sampleRemoteEngine sampleStore (by decide)).2.1 (by decide)).2

set_option maxRecDepth 100000 in
/-- The deferred statement of a target label for a regexp-style operator. -/
theorem Sprintf_deferred_match (m l : Int) (op v : String) :
    Sprintf "SELECT target_id FROM flow_tag.target_label_live_view WHERE metric_id=%d and label_name_id=%d and %s(label_value,%s) GROUP BY target_id"
        [.int m, .int l, .str op, .str v] =
      "SELECT target_id FROM flow_tag.target_label_live_view WHERE metric_id=" ++
        strconv.Itoa m ++ " and label_name_id=" ++ strconv.Itoa l ++ " and " ++
        (op ++ "(label_value," ++ v ++ ")") ++ " GROUP BY target_id" := by
  apply String.ext
  simp [Sprintf, sprintfAux, verb, extra, Arg.plain]

set_option maxRecDepth 100000 in
/-- The deferred statement of a target label for another operator. -/
theorem Sprintf_deferred_plain (m l : Int) (op v : String) :
    Sprintf "SELECT target_id FROM flow_tag.target_label_live_view WHERE metric_id=%d and label_name_id=%d and label_value %s %s GROUP BY target_id"
        [.int m, .int l, .str op, .str v] =
      "SELECT target_id FROM flow_tag.target_label_live_view WHERE metric_id=" ++
        strconv.Itoa m ++ " and label_name_id=" ++ strconv.Itoa l ++ " and " ++
        ("label_value " ++ op ++ " " ++ v) ++ " GROUP BY target_id" := by
  apply String.ext
  simp [Sprintf, sprintfAux, verb, extra, Arg.plain]

/-- The deferred statement of a target label, written out. -/
theorem targetLabelSql_eq (m l : Int) (op v : String) :
    targetLabelSql m l op v =
      "SELECT target_id FROM flow_tag.target_label_live_view WHERE metric_id=" ++
        strconv.Itoa m ++ " and label_name_id=" ++ strconv.Itoa l ++ " and " ++
        (if Contains op "match" = true then op ++ "(label_value," ++ v ++ ")"
          else "label_value " ++ op ++ " " ++ v) ++ " GROUP BY target_id" := by
  unfold targetLabelSql
  by_cases hc : Contains op "match" = true
  · rw [if_pos hc, if_pos hc, Sprintf_deferred_match]
  · rw [if_neg hc, if_neg hc, Sprintf_deferred_plain]

/-- C17: in `GetRemoteReadFilter`, with metric and label registered and no entry of the
layout of the table named as the label: the filter is empty, there is no
error, the store (cache, clock, statements issued) is as before, and the
deferred queue is the old queue followed by one element, the original filter
text with the `SELECT` of target ids for the metric id, the label id, the
operator and the value; the elements before it are the old ones in their
order, and the rest of the engine is unchanged. -/
theorem C17_target_label_deferred (env : Env) (promTag table op value originFilter label
    cmp : String) (e : CHEngine) (store : Store) (metricID labelNameID : Int)
    (hlabel : label = TrimPrefix promTag "tag.")
    (hm : env.Prometheus.MetricNameToID table = some metricID)
    (hl : env.Prometheus.LabelNameToID label = some labelNameID)
    (hnone : ∀ layout, env.Prometheus.MetricAppLabelLayout table = some layout →
      ∀ b, b ∈ layout → b.AppLabelName ≠ label)
    (hcmp : cmp = if Contains op "match" = true then op ++ "(label_value," ++ value ++ ")"
      else "label_value " ++ op ++ " " ++ value) :
    (GetRemoteReadFilter env promTag table op value originFilter e store).filter = "" ∧
    (GetRemoteReadFilter env promTag table op value originFilter e store).err = none ∧
    (GetRemoteReadFilter env promTag table op value originFilter e store).store = store ∧
    (GetRemoteReadFilter env promTag table op value originFilter e store).e.TargetLabelFilters =
      e.TargetLabelFilters ++
        [⟨originFilter,
          "SELECT target_id FROM flow_tag.target_label_live_view WHERE metric_id=" ++
            strconv.Itoa metricID ++ " and label_name_id=" ++ strconv.Itoa labelNameID ++
            " and " ++ cmp ++ " GROUP BY target_id"⟩] ∧
    (GetRemoteReadFilter env promTag table op value originFilter e
      store).e.TargetLabelFilters.length = e.TargetLabelFilters.length + 1 ∧
    (∀ i, i < e.TargetLabelFilters.length →
      (GetRemoteReadFilter env promTag table op value originFilter e
        store).e.TargetLabelFilters[i]? = e.TargetLabelFilters[i]?) ∧
    (GetRemoteReadFilter env promTag table op value originFilter e store).e.DB = e.DB ∧
    (GetRemoteReadFilter env promTag table op value originFilter e store).e.Table = e.Table ∧
    (GetRemoteReadFilter env promTag table op value originFilter e store).e.AsTagMap =
      e.AsTagMap ∧
    (GetRemoteReadFilter env promTag table op value originFilter e store).e.remote_read =
      e.remote_read := by
  subst hlabel
  have hf := layout_find?_none env table _ hnone
  rw [RemoteRead_target env promTag table op value originFilter e store metricID labelNameID
    hm hl hf, targetLabelSql_eq, ← hcmp]
  refine ⟨rfl, rfl, rfl, rfl, ?_, ?_, rfl, rfl, rfl, rfl⟩
  · simp
  · intro i hi
    exact List.getElem?_append_left hi

/-- Witness of C17 on the target label `instance` of the metric `up`. -/
theorem C17_target_label_deferred_witness :
    (GetRemoteReadFilter samplePromEnv "tag.instance" "up" "=" "'a'" "tag.instance = 'a'"
      sampleRemoteEngine sampleStore).e.TargetLabelFilters =
      sampleRemoteEngine.TargetLabelFilters ++
        [⟨"tag.instance = 'a'",
          "SELECT target_id FROM flow_tag.target_label_live_view WHERE metric_id=" ++
            strconv.Itoa 7 ++ " and label_name_id=" ++ strconv.Itoa 4 ++
            " and " ++ "label_value = 'a'" ++ " GROUP BY target_id"⟩] :=
  (C17_target_label_deferred samplePromEnv "tag.instance" "up" "=" "'a'" "tag.instance = 'a'"
    "instance" "label_value = 'a'" sampleRemoteEngine sampleStore 7 4 (by decide) (by decide)
    (by decide)
    (by
      intro layout hlay b hb
      have h : samplePromEnv.Prometheus.MetricAppLabelLayout "up" = some [⟨"job", 2⟩] := by
        decide
      rw [h] at hlay
      have : layout = [⟨"job", 2⟩] := (Option.some.inj hlay).symm
      subst this
      simp only [List.mem_singleton] at hb
      subst hb
      decide)
    (by decide)).2.2.2.1

/-- Two texts that differ in their first character are not both at the front of
a text. -/
theorem HasPrefix_disjoint (s p q : String) (hp : HasPrefix s p = true)
    (hne : p.data.head? ≠ q.data.head?) (hp0 : p.data ≠ []) (hq0 : q.data ≠ []) :
    HasPrefix s q = false := by
  unfold HasPrefix at *
  revert hp hne hp0 hq0
  generalize s.data = l
  generalize p.data = a
  generalize q.data = b
  intro hp hne hp0 hq0
  cases a with
  | nil => exact absurd rfl hp0
  | cons x a' =>
    cases b with
    | nil => exact absurd rfl hq0
    | cons y b' =>
      cases l with
      | nil => simp [List.isPrefixOf]
      | cons z l' =>
        simp only [List.isPrefixOf, Bool.and_eq_true, beq_iff_eq] at hp
        simp only [List.head?_cons, ne_eq, Option.some.injEq] at hne
        simp only [List.isPrefixOf, Bool.and_eq_false_imp, beq_iff_eq]
        intro hy
        exact absurd (hp.1.trans hy.symm) hne

/-- A name that starts with `tag.` after the back-quotes are trimmed is neither a MAC
tag nor `tap_port`. -/
theorem tag_family_not_mac (tag : String) (hpre : HasPrefix (Trim tag "`") "tag." = true) :
    isMacTag tag = false ∧ tag ≠ "tap_port" := by
  constructor
  · cases hmac : isMacTag tag with
    | false => rfl
    | true =>
      exfalso
      simp only [isMacTag, Bool.or_eq_true, decide_eq_true_eq] at hmac
      rcases hmac with ((((h | h) | h) | h) | h) | h <;> (rw [h] at hpre; revert hpre; decide)
  · intro h
    rw [h] at hpre
    revert hpre
    decide

/-- Result of `WhereTag.Trans` on a tag `tag.<key>` without descriptor in a remote read. -/
theorem Trans_remote_read (env : Env) (t : WhereTag) (op0 originFilter : String)
    (e : CHEngine) (store : Store)
    (hreg : env.GetTag (Trim t.Tag "`") e.DB e.Table "default" = none)
    (halias : e.AsTagMap t.Tag = none)
    (hpre : HasPrefix (Trim t.Tag "`") "tag." = true)
    (hrr : e.remote_read = some true) :
    WhereTag.Trans env t op0 originFilter e store =
      ⟨match (GetRemoteReadFilter env (Trim t.Tag "`") e.Table (opValue op0 t.Value).1
            (opValue op0 t.Value).2 originFilter e store).err with
        | some err => .error err
        | none => .ok (Node.Expr (GetRemoteReadFilter env (Trim t.Tag "`") e.Table
            (opValue op0 t.Value).1 (opValue op0 t.Value).2 originFilter e store).filter),
        ⟨t.Tag, (opValue op0 t.Value).2⟩,
        (GetRemoteReadFilter env (Trim t.Tag "`") e.Table (opValue op0 t.Value).1
          (opValue op0 t.Value).2 originFilter e store).e,
        (GetRemoteReadFilter env (Trim t.Tag "`") e.Table (opValue op0 t.Value).1
          (opValue op0 t.Value).2 originFilter e store).store⟩ := by
  have hmac := tag_family_not_mac t.Tag hpre
  have h1 := HasPrefix_disjoint _ "tag." "k8s.label." hpre (by decide) (by decide) (by decide)
  have h2 := HasPrefix_disjoint _ "tag." "k8s.annotation." hpre (by decide) (by decide)
    (by decide)
  have h3 := HasPrefix_disjoint _ "tag." "k8s.env." hpre (by decide) (by decide) (by decide)
  have h4 := HasPrefix_disjoint _ "tag." "cloud.tag." hpre (by decide) (by decide) (by decide)
  have h5 := HasPrefix_disjoint _ "tag." "os.app." hpre (by decide) (by decide) (by decide)
  unfold WhereTag.Trans
  simp only [hreg, halias]
  unfold unresolved
  simp only [hmac.1, hmac.2, if_false, Bool.false_eq_true]
  unfold familyFilter
  simp only [h1, h2, h3, h4, h5, hpre, hrr, Option.getD_some, if_false, if_true,
    Bool.false_eq_true, true_or]
  cases (GetRemoteReadFilter env (Trim t.Tag "`") e.Table (opValue op0 t.Value).1
      (opValue op0 t.Value).2 originFilter e store).err <;> rfl

/-- A layout with an entry named as the label has a first such entry. -/
theorem layout_find?_exists (env : Env) (table label : String) (layout : List AppLabel)
    (a : AppLabel) (hlay : env.Prometheus.MetricAppLabelLayout table = some layout)
    (ha : a ∈ layout) (hname : a.AppLabelName = label) :
    ∃ appLabel, ((env.Prometheus.MetricAppLabelLayout table).getD []).find?
      (fun appLabel => appLabel.AppLabelName = label) = some appLabel := by
  rw [hlay, Option.getD_some]
  have h : (layout.find? (fun appLabel => decide (appLabel.AppLabelName = label))).isSome =
      true := by
    rw [List.find?_isSome]
    exact ⟨a, ha, by simpa using hname⟩
  exact Option.isSome_iff_exists.mp h

/-- C18: when the label is an app label of the table, the cache holds no fresh
entry for the original filter text and the lookup that `GetRemoteReadFilter`
issues fails, `GetRemoteReadFilter` returns that error with the empty filter (also
when the cache holds a stale entry), the cache and the deferred queue are as
before, and `WhereTag.Trans`, called in a remote read on such a tag `tag.<key>`
without descriptor, returns the error and no node. -/
theorem C18_lookup_failure (env : Env) (promTag table op value originFilter label : String)
    (e : CHEngine) (store : Store) (metricID labelNameID : Int) (layout : List AppLabel)
    (a : AppLabel) (err : Err) (hlabel : label = TrimPrefix promTag "tag.")
    (hm : env.Prometheus.MetricNameToID table = some metricID)
    (hl : env.Prometheus.LabelNameToID label = some labelNameID)
    (hlay : env.Prometheus.MetricAppLabelLayout table = some layout)
    (ha : a ∈ layout) (hname : a.AppLabelName = label)
    (hstale : ∀ c, store.Get originFilter = some c →
      ¬ (store.now - c.Time < env.PrometheusIdSubqueryLruTimeout))
    (hq : env.DoQuery (appLabelSql labelNameID op value) = .error err) :
    (GetRemoteReadFilter env promTag table op value originFilter e store).filter = "" ∧
    (GetRemoteReadFilter env promTag table op value originFilter e store).err = some err ∧
    (GetRemoteReadFilter env promTag table op value originFilter e store).store.cache =
      store.cache ∧
    (GetRemoteReadFilter env promTag table op value originFilter e store).e.TargetLabelFilters =
      e.TargetLabelFilters ∧
    (∀ (t : WhereTag) (op0 : String),
      env.GetTag (Trim t.Tag "`") e.DB e.Table "default" = none → e.AsTagMap t.Tag = none →
      HasPrefix (Trim t.Tag "`") "tag." = true → e.remote_read = some true →
      Trim t.Tag "`" = promTag → e.Table = table → opValue op0 t.Value = (op, value) →
      (WhereTag.Trans env t op0 originFilter e store).node = .error err ∧
      (WhereTag.Trans env t op0 originFilter e store).store.cache = store.cache ∧
      (WhereTag.Trans env t op0 originFilter e store).e.TargetLabelFilters =
        e.TargetLabelFilters) := by
  subst hlabel
  obtain ⟨appLabel, hf⟩ := layout_find?_exists env table _ layout a hlay ha hname
  have hR := RemoteRead_lookup_error env promTag table op value originFilter e store metricID
    labelNameID appLabel err hm hl hf hstale hq
  refine ⟨by rw [hR], by rw [hR], by rw [hR], by rw [hR], ?_⟩
  intro t op0 hreg halias hpre hrr htag htable hov
  rw [Trans_remote_read env t op0 originFilter e store hreg halias hpre hrr, htag, htable, hov,
    hR]
  exact ⟨rfl, rfl, rfl⟩

/-- Witness of C18 on the app label `job` of the metric `up` with a failing store. -/
theorem C18_lookup_failure_witness :
    (WhereTag.Trans sampleFailEnv ⟨"tag.job", "'a'"⟩ "=" "tag.job = 'a'" sampleRemoteEngine
      sampleStore).node = .error (Err.query "connection refused") :=
  ((C18_lookup_failure sampleFailEnv "tag.job" "up" "=" "'a'" "tag.job = 'a'" "job"
    sampleRemoteEngine sampleStore 7 3 [⟨"job", 2⟩] ⟨"job", 2⟩ (Err.query "connection refused")
    (by decide) (by decide) (by decide) (by decide) (by decide) (by decide)
    (by
      intro c hc
      have h : sampleStore.Get "tag.job = 'a'" = none := by decide
      rw [h] at hc
      cases hc)
    rfl).2.2.2.2 ⟨"tag.job", "'a'"⟩ "="
    (by decide) (by decide) (by decide) (by decide) (by decide) (by decide) (by decide)).1

/-- The digits of a number that follow a non-empty list of digits are not empty. -/
theorem toDigitsCore_ne_nil (b : Nat) :
    ∀ (fuel n : Nat) (ds : List Char), ds ≠ [] → Nat.toDigitsCore b fuel n ds ≠ []
  | 0, _, ds, h => by simpa [Nat.toDigitsCore] using h
  | fuel + 1, n, ds, _ => by
    rw [Nat.toDigitsCore]
    split
    · simp
    · exact toDigitsCore_ne_nil b fuel _ _ (by simp)

/-- The decimal text of an integer is not empty. -/
theorem Itoa_ne_empty (n : Int) : (strconv.Itoa n).data ≠ [] := by
  cases n with
  | ofNat m =>
    show (Nat.toDigits 10 m) ≠ []
    rw [Nat.toDigits, Nat.toDigitsCore]
    split
    · simp
    · exact toDigitsCore_ne_nil 10 _ _ _ (by simp)
  | negSucc m =>
    show ("-" ++ Nat.repr (m + 1)).data ≠ []
    simp

/-- Joining a non-empty list of texts whose first is not empty gives a text that
is not empty. -/
theorem Join_ne_empty (a : String) (rest : List String) (sep : String) (ha : a.data ≠ []) :
    Join (a :: rest) sep ≠ "" := by
  intro h
  cases rest with
  | nil =>
    rw [Join] at h
    exact ha (by rw [h])
  | cons b rest' =>
    rw [Join] at h
    have := congrArg String.data h
    simp only [String.data_append, List.append_assoc] at this
    exact ha (List.append_eq_nil.mp this).1

/-- The verb `%d` on an integer prints its decimal text. -/
theorem Sprintf_d (n : Int) : Sprintf "%d" [.int n] = strconv.Itoa n := by
  apply String.ext
  simp [Sprintf, sprintfAux, verb, extra, Arg.plain]

/-- The membership predicate over the ids of an app label, written out. -/
theorem Sprintf_in (i : Int) (ids : String) :
    Sprintf "app_label_value_id_%d IN (%s)" [.int i, .str ids] =
      "app_label_value_id_" ++ strconv.Itoa i ++ " IN (" ++ ids ++ ")" := by
  apply String.ext
  simp [Sprintf, sprintfAux, verb, extra, Arg.plain]

/-- The ids of rows whose first column is an `int`, in the order of the rows. -/
theorem forEach_valueIDString :
    ∀ (rows : List (List Cell)) (ids : List Int),
      rows.map List.head? = ids.map (fun n => some (Cell.int n)) →
      forEach valueIDString rows = .ok (ids.map strconv.Itoa)
  | [], [], _ => rfl
  | [], _ :: _, h => by simp at h
  | _ :: _, [], h => by simp at h
  | row :: rows, n :: ids, h => by
    simp only [List.map_cons, List.cons.injEq] at h
    have hrec := forEach_valueIDString rows ids h.2
    cases row with
    | nil => simp at h
    | cons c rest =>
      have hc : c = Cell.int n := by simpa using h.1
      subst hc
      simp only [forEach, valueIDString, hrec, Sprintf_d, List.map_cons]

/-- The filter over a list of ids. -/
theorem appLabelFilter_ids (i : Int) (ids : List Int) :
    (ids = [] → appLabelFilter i (ids.map strconv.Itoa) = "1!=1") ∧
    (ids ≠ [] → appLabelFilter i (ids.map strconv.Itoa) =
      "app_label_value_id_" ++ strconv.Itoa i ++ " IN (" ++
        Join (ids.map strconv.Itoa) "," ++ ")") := by
  constructor
  · intro h
    subst h
    rfl
  · intro h
    obtain ⟨n, rest, rfl⟩ := List.exists_cons_of_ne_nil h
    unfold appLabelFilter
    simp only [List.map_cons]
    rw [if_neg (Join_ne_empty _ _ _ (Itoa_ne_empty n)), Sprintf_in]

/-- C16: in the app-label path of `GetRemoteReadFilter`, without a fresh cache entry and
with a lookup that returns rows whose first columns are the ids `id1, ..., idn`: there
is no error; without rows the filter is `1!=1`; otherwise it is
`app_label_value_id_<i> IN (id1,...,idn)` with the ids in decimal, in the order of the rows,
and `<i>` the column of the first entry of the layout named as the label; and the
cache then holds, under the original filter text, exactly the returned
filter with the time of the call. -/
theorem C16_app_label_filter (env : Env) (promTag table op value originFilter label : String)
    (e : CHEngine) (store : Store) (metricID labelNameID : Int)
    (layout pre post : List AppLabel) (a : AppLabel) (rows : List (List Cell))
    (ids : List Int) (hlabel : label = TrimPrefix promTag "tag.")
    (hm : env.Prometheus.MetricNameToID table = some metricID)
    (hl : env.Prometheus.LabelNameToID label = some labelNameID)
    (hlay : env.Prometheus.MetricAppLabelLayout table = some layout)
    (hsplit : layout = pre ++ a :: post) (hpre : ∀ b, b ∈ pre → b.AppLabelName ≠ label)
    (ha : a.AppLabelName = label)
    (hstale : ∀ c, store.Get originFilter = some c →
      ¬ (store.now - c.Time < env.PrometheusIdSubqueryLruTimeout))
    (hq : env.DoQuery (appLabelSql labelNameID op value) = .ok rows)
    (hids : rows.map List.head? = ids.map (fun n => some (Cell.int n))) :
    (GetRemoteReadFilter env promTag table op value originFilter e store).err = none ∧
    (rows = [] →
      (GetRemoteReadFilter env promTag table op value originFilter e store).filter = "1!=1") ∧
    (rows ≠ [] →
      (GetRemoteReadFilter env promTag table op value originFilter e store).filter =
        "app_label_value_id_" ++ strconv.Itoa a.appLabelColumnIndex ++ " IN (" ++
          Join (ids.map strconv.Itoa) "," ++ ")") ∧
    ids.length = rows.length ∧
    (GetRemoteReadFilter env promTag table op value originFilter e store).store.Get
        originFilter =
      some ⟨store.now,
        (GetRemoteReadFilter env promTag table op value originFilter e store).filter⟩ := by
  subst hlabel
  have hf := layout_find?_some env table _ layout pre post a hlay hsplit hpre ha
  have hrows := forEach_valueIDString rows ids hids
  have hlen : ids.length = rows.length := by
    have := congrArg List.length hids
    simp only [List.length_map] at this
    exact this.symm
  rw [RemoteRead_lookup_ok env promTag table op value originFilter e store metricID labelNameID
    a rows (ids.map strconv.Itoa) hm hl hf hstale hq hrows]
  refine ⟨rfl, ?_, ?_, hlen, ?_⟩
  · intro h
    have : ids = [] := List.length_eq_zero.mp (by rw [hlen, h]; rfl)
    exact (appLabelFilter_ids _ ids).1 this
  · intro h
    have : ids ≠ [] := by
      intro h0
      rw [h0] at hlen
      exact h (List.length_eq_zero.mp hlen.symm)
    exact (appLabelFilter_ids _ ids).2 this
  · simp [Store.Get]

/-- Witness of C16 on the app label `job` of the metric `up`, the store returning the
ids 11 and 12. -/
theorem C16_app_label_filter_witness :
    (GetRemoteReadFilter samplePromEnv "tag.job" "up" "=" "'a'" "tag.job = 'a'"
      sampleRemoteEngine sampleStore).filter =
      "app_label_value_id_" ++ strconv.Itoa 2 ++ " IN (" ++
        Join ([11, 12].map strconv.Itoa) "," ++ ")" :=
  (C16_app_label_filter samplePromEnv "tag.job" "up" "=" "'a'" "tag.job = 'a'" "job"
    sampleRemoteEngine sampleStore 7 3 [⟨"job", 2⟩] [] [] ⟨"job", 2⟩
    [[Cell.int 11], [Cell.int 12]] [11, 12] (by decide) (by decide) (by decide) (by decide)
    (by decide) (by intro b hb; cases hb) (by decide)
    (by
      intro c hc
      have h : sampleStore.Get "tag.job = 'a'" = none := by decide
      rw [h] at hc
      cases hc)
    rfl (by decide)).2.2.1 (by decide)

/-- Without a fresh cache entry `GetRemoteReadFilter` issues exactly one statement for an
app label, whatever the store answers. -/
theorem RemoteRead_lookup_queries (env : Env) (promTag table op value originFilter : String)
    (e : CHEngine) (store : Store) (metricID labelNameID : Int) (appLabel : AppLabel)
    (hm : env.Prometheus.MetricNameToID table = some metricID)
    (hl : env.Prometheus.LabelNameToID (TrimPrefix promTag "tag.") = some labelNameID)
    (hf : ((env.Prometheus.MetricAppLabelLayout table).getD []).find?
      (fun appLabel => appLabel.AppLabelName = TrimPrefix promTag "tag.") = some appLabel)
    (hstale : ∀ c, store.Get originFilter = some c →
      ¬ (store.now - c.Time < env.PrometheusIdSubqueryLruTimeout)) :
    (GetRemoteReadFilter env promTag table op value originFilter e store).store.queries =
      store.queries ++ [appLabelSql labelNameID op value] := by
  cases hq : env.DoQuery (appLabelSql labelNameID op value) with
  | error err =>
    rw [RemoteRead_lookup_error env promTag table op value originFilter e store metricID
      labelNameID appLabel err hm hl hf hstale hq]
  | ok rows =>
    cases hrows : forEach valueIDString rows with
    | error err =>
      rw [RemoteRead_lookup_runtime env promTag table op value originFilter e store metricID
        labelNameID appLabel rows err hm hl hf hstale hq hrows]
    | ok ids =>
      rw [RemoteRead_lookup_ok env promTag table op value originFilter e store metricID
        labelNameID appLabel rows ids hm hl hf hstale hq hrows]

/-- C15 as stated fails: with a failing store the lookup for `tag.job = 'a'` is issued and
no entry is written, so compiling the same text again at the same time issues
the lookup a second time. -/
theorem C15_cache_counterexample :
    (GetRemoteReadFilter sampleFailEnv "tag.job" "up" "=" "'a'" "tag.job = 'a'"
      sampleRemoteEngine sampleStore).store.queries.length = 1 ∧
    (GetRemoteReadFilter sampleFailEnv "tag.job" "up" "=" "'a'" "tag.job = 'a'"
      sampleRemoteEngine sampleStore).store.cache = [] ∧
    (GetRemoteReadFilter sampleFailEnv "tag.job" "up" "=" "'a'" "tag.job = 'a'"
      sampleRemoteEngine
      (GetRemoteReadFilter sampleFailEnv "tag.job" "up" "=" "'a'" "tag.job = 'a'"
        sampleRemoteEngine sampleStore).store).store.queries.length = 2 := by
  decide

/-- C15, amended: in the app-label path of `GetRemoteReadFilter`: if the cache holds an
entry for the original filter text whose age is below the TTL, its filter is
returned and engine and store (cache, statements issued) are unchanged; if it
holds none or one whose age is at least the TTL, exactly one statement is
issued, and when that lookup succeeds the entry is written with the current
time.  Hence after a successful lookup the same text compiled again within
the TTL returns the same filter with no further statement, and compiled again
once the TTL has elapsed issues the statement again. -/
theorem C15_cache_amended (env : Env) (promTag table op value originFilter label : String)
    (e : CHEngine) (store : Store) (metricID labelNameID : Int) (layout : List AppLabel)
    (a : AppLabel) (hlabel : label = TrimPrefix promTag "tag.")
    (hm : env.Prometheus.MetricNameToID table = some metricID)
    (hl : env.Prometheus.LabelNameToID label = some labelNameID)
    (hlay : env.Prometheus.MetricAppLabelLayout table = some layout)
    (ha : a ∈ layout) (hname : a.AppLabelName = label) :
    (∀ c, store.Get originFilter = some c →
      store.now - c.Time < env.PrometheusIdSubqueryLruTimeout →
      GetRemoteReadFilter env promTag table op value originFilter e store =
        ⟨c.Filter, none, e, store⟩) ∧
    ((∀ c, store.Get originFilter = some c →
        ¬ (store.now - c.Time < env.PrometheusIdSubqueryLruTimeout)) →
      (GetRemoteReadFilter env promTag table op value originFilter e store).store.queries =
        store.queries ++ [appLabelSql labelNameID op value] ∧
      (∀ rows ids, env.DoQuery (appLabelSql labelNameID op value) = .ok rows →
        forEach valueIDString rows = .ok ids →
        (GetRemoteReadFilter env promTag table op value originFilter e store).err = none ∧
        (GetRemoteReadFilter env promTag table op value originFilter e store).store.cache =
          (originFilter, ⟨store.now,
            (GetRemoteReadFilter env promTag table op value originFilter e store).filter⟩) ::
            store.cache ∧
        (∀ now' : Int, now' - store.now < env.PrometheusIdSubqueryLruTimeout →
          GetRemoteReadFilter env promTag table op value originFilter
              (GetRemoteReadFilter env promTag table op value originFilter e store).e
              { (GetRemoteReadFilter env promTag table op value originFilter e store).store
                with now := now' } =
            ⟨(GetRemoteReadFilter env promTag table op value originFilter e store).filter,
              none, (GetRemoteReadFilter env promTag table op value originFilter e store).e,
              { (GetRemoteReadFilter env promTag table op value originFilter e store).store
                with now := now' }⟩) ∧
        (∀ now' : Int, ¬ (now' - store.now < env.PrometheusIdSubqueryLruTimeout) →
          (GetRemoteReadFilter env promTag table op value originFilter
              (GetRemoteReadFilter env promTag table op value originFilter e store).e
              { (GetRemoteReadFilter env promTag table op value originFilter e store).store
                with now := now' }).store.queries =
            store.queries ++ [appLabelSql labelNameID op value] ++
              [appLabelSql labelNameID op value]))) := by
  subst hlabel
  obtain ⟨appLabel, hf⟩ := layout_find?_exists env table _ layout a hlay ha hname
  constructor
  · intro c hget hage
    exact RemoteRead_fresh env promTag table op value originFilter e store metricID
      labelNameID appLabel c hm hl hf hget hage
  · intro hstale
    refine ⟨RemoteRead_lookup_queries env promTag table op value originFilter e store metricID
      labelNameID appLabel hm hl hf hstale, ?_⟩
    intro rows ids hq hrows
    rw [RemoteRead_lookup_ok env promTag table op value originFilter e store metricID
      labelNameID appLabel rows ids hm hl hf hstale hq hrows]
    refine ⟨rfl, rfl, ?_, ?_⟩
    · intro now' hnow
      exact RemoteRead_fresh env promTag table op value originFilter e _ metricID labelNameID
        appLabel ⟨store.now, appLabelFilter appLabel.appLabelColumnIndex ids⟩ hm hl hf
        (by simp [Store.Get]) hnow
    · intro now' hnow
      rw [RemoteRead_lookup_queries env promTag table op value originFilter e _ metricID
        labelNameID appLabel hm hl hf
        (by
          intro c hc
          have : c = ⟨store.now, appLabelFilter appLabel.appLabelColumnIndex ids⟩ := by
            simpa [Store.Get] using hc.symm
          rw [this]
          exact hnow)]

/-- Witness of C15 (amended): the lookup for `tag.job = 'a'` is issued once on an empty cache. -/
theorem C15_cache_amended_witness :
    (GetRemoteReadFilter samplePromEnv "tag.job" "up" "=" "'a'" "tag.job = 'a'"
      sampleRemoteEngine sampleStore).store.queries =
      sampleStore.queries ++ [appLabelSql 3 "=" "'a'"] :=
  ((C15_cache_amended samplePromEnv "tag.job" "up" "=" "'a'" "tag.job = 'a'" "job"
    sampleRemoteEngine sampleStore 7 3 [⟨"job", 2⟩] ⟨"job", 2⟩ (by decide) (by decide)
    (by decide) (by decide) (by decide) (by decide)).2
    (by
      intro c hc
      have h : sampleStore.Get "tag.job = 'a'" = none := by decide
      rw [h] at hc
      cases hc)).1

/-! ## The time window (`TimeTag.Trans`) -/

/-- Result of `TimeTag.Trans` on a value that is the time `time`: an integer literal, or
an expression that evaluates to a `float64` converted to `time`. -/
theorem TimeTag_Trans_time (env : Env) (t : TimeTag) (op text : String) (w : Where)
    (time : Int)
    (hv : strconv.ParseInt t.Value = some time ∨
      (strconv.ParseInt t.Value = none ∧ env.Evaluate t.Value = .ok (.float64 time))) :
    TimeTag.Trans env t op text w =
      if op = ">=" then ⟨.ok (Node.Expr text), { w with time := w.time.AddTimeStart time }⟩
      else if op = "<=" then ⟨.ok (Node.Expr text), { w with time := w.time.AddTimeEnd time }⟩
      else ⟨.ok (Node.Expr text), w⟩ := by
  unfold TimeTag.Trans
  rcases hv with h | ⟨h₁, h₂⟩
  · simp only [h]
  · simp only [h₁, h₂]

/-- C19: for `TimeTag.Trans` with a value that is the time `t` (an integer literal, or an
expression evaluating to a number converted to `t`): the operator `>=` sets the
start of the window to `t` and leaves the end, `<=` sets the end to `t` and leaves
the start, and every other operator, `>`, `<` and `=` among them, leaves the window
as it is; the WITH list is never changed. -/
theorem C19_time_window (env : Env) (t : TimeTag) (op text : String) (w : Where) (time : Int)
    (hv : strconv.ParseInt t.Value = some time ∨
      (strconv.ParseInt t.Value = none ∧ env.Evaluate t.Value = .ok (.float64 time))) :
    (op = ">=" →
      (TimeTag.Trans env t op text w).w.time = w.time.AddTimeStart time ∧
      (TimeTag.Trans env t op text w).w.time.TimeStart = some time ∧
      (TimeTag.Trans env t op text w).w.time.TimeEnd = w.time.TimeEnd) ∧
    (op = "<=" →
      (TimeTag.Trans env t op text w).w.time = w.time.AddTimeEnd time ∧
      (TimeTag.Trans env t op text w).w.time.TimeEnd = some time ∧
      (TimeTag.Trans env t op text w).w.time.TimeStart = w.time.TimeStart) ∧
    (op ≠ ">=" → op ≠ "<=" → (TimeTag.Trans env t op text w).w.time = w.time) ∧
    (op ∈ [">", "<", "=", "!="] → (TimeTag.Trans env t op text w).w.time = w.time) ∧
    (TimeTag.Trans env t op text w).w.withs = w.withs := by
  rw [TimeTag_Trans_time env t op text w time hv]
  refine ⟨?_, ?_, ?_, ?_, ?_⟩
  · intro h
    rw [if_pos h]
    exact ⟨rfl, rfl, rfl⟩
  · intro h
    rw [if_neg (by rw [h]; decide), if_pos h]
    exact ⟨rfl, rfl, rfl⟩
  · intro h₁ h₂
    rw [if_neg h₁, if_neg h₂]
  · intro h
    have h₁ : op ≠ ">=" := by intro h'; rw [h'] at h; revert h; decide
    have h₂ : op ≠ "<=" := by intro h'; rw [h'] at h; revert h; decide
    rw [if_neg h₁, if_neg h₂]
  · split
    · rfl
    · split <;> rfl

/-- Witness of C19 on `time >= 1700000000+60`. -/
theorem C19_time_window_witness :
    (TimeTag.Trans sampleEnv ⟨"1700000000+60"⟩ ">=" "time >= 1700000000+60"
      { withs := [] }).w.time.TimeStart = some 1700000060 :=
  ((C19_time_window sampleEnv ⟨"1700000000+60"⟩ ">=" "time >= 1700000000+60" { withs := [] }
    1700000060 (Or.inr ⟨by decide, rfl⟩)).1 rfl).2.1

/-- C20: whenever `TimeTag.Trans` returns a node, for whatever operator, the node is the
leaf whose text is the text of the comparison as written; and it returns
one for every value that is an integer literal or evaluates to a number. -/
theorem C20_time_predicate_text (env : Env) (t : TimeTag) (op text : String) (w : Where) :
    (∀ node, (TimeTag.Trans env t op text w).node = .ok node → node = Node.Expr text) ∧
    (∀ time : Int,
      (strconv.ParseInt t.Value = some time ∨
        (strconv.ParseInt t.Value = none ∧ env.Evaluate t.Value = .ok (.float64 time))) →
      (TimeTag.Trans env t op text w).node = .ok (Node.Expr text)) := by
  have key : ∀ time : Int,
      (strconv.ParseInt t.Value = some time ∨
        (strconv.ParseInt t.Value = none ∧ env.Evaluate t.Value = .ok (.float64 time))) →
      (TimeTag.Trans env t op text w).node = .ok (Node.Expr text) := by
    intro time hv
    rw [TimeTag_Trans_time env t op text w time hv]
    split
    · rfl
    · split <;> rfl
  refine ⟨?_, key⟩
  intro node hnode
  cases hp : strconv.ParseInt t.Value with
  | some time =>
    rw [key time (Or.inl hp)] at hnode
    exact (Except.ok.inj hnode).symm
  | none =>
    cases hev : env.Evaluate t.Value with
    | error err =>
      unfold TimeTag.Trans at hnode
      simp only [hp, hev] at hnode
      cases hnode
    | ok v =>
      cases v with
      | float64 time =>
        rw [key time (Or.inr ⟨hp, hev⟩)] at hnode
        exact (Except.ok.inj hnode).symm
      | bool b =>
        unfold TimeTag.Trans at hnode
        simp only [hp, hev] at hnode
        cases hnode
      | string s =>
        unfold TimeTag.Trans at hnode
        simp only [hp, hev] at hnode
        cases hnode

/-- Witness of C20 on `time <= 1700000000`. -/
theorem C20_time_predicate_text_witness :
    (TimeTag.Trans sampleEnv ⟨"1700000000"⟩ "<=" "time <= 1700000000" { withs := [] }).node =
      .ok (Node.Expr "time <= 1700000000") :=
  (C20_time_predicate_text sampleEnv ⟨"1700000000"⟩ "<=" "time <= 1700000000"
    { withs := [] }).2 1700000000 (Or.inl (by decide))

/-! ## Time values that are no number -/

/-- C21, the code at the failing input: the time value `1==1` is no integer literal and
evaluates to a boolean; the unchecked conversion `timeValue.(float64)` then fails at run
time, where the claim has an error for a malformed literal returned. -/
theorem C21_time_non_numeric :
    strconv.ParseInt "1==1" = none ∧
    sampleEnv.Evaluate "1==1" = .ok (EvalValue.bool true) ∧
    (TimeTag.Trans sampleEnv ⟨"1==1"⟩ ">=" "time >= 1==1" { withs := [] }).node =
      .error (Err.runtime "interface conversion: interface is not float64") :=
  ⟨by decide, rfl, rfl⟩

/-! ## `Where.Format` and `Having.Format` -/

/-- C22: `Where.Format` attaches the WITH subexpressions of the compiler to the filter
set in every case and adds the set to the model, as WHERE, if and only if
it is not null; a null set leaves the model as it is.  `Having.Format` does the
same with the set added as HAVING, and never changes the WHERE sets. -/
theorem C22_format (w : Where) (h : Having) (m : view.Model) :
    (w.Format m).1.filter.Withs = w.withs ∧
    (w.Format m).1.filter.Expr = w.filter.Expr ∧
    (w.Format m).1.withs = w.withs ∧
    (w.filter.IsNull = false →
      (w.Format m).2 = m.AddFilter { w.filter with Withs := w.withs } ∧
      (w.Format m).2.Filters = m.Filters ++ [{ w.filter with Withs := w.withs }] ∧
      (w.Format m).2.Havings = m.Havings) ∧
    (w.filter.IsNull = true → (w.Format m).2 = m) ∧
    ((w.Format m).2 ≠ m ↔ w.filter.IsNull = false) ∧
    (h.Format m).1.filter.Withs = h.withs ∧
    (h.Format m).1.filter.Expr = h.filter.Expr ∧
    (h.filter.IsNull = false →
      (h.Format m).2 = m.AddHaving { h.filter with Withs := h.withs } ∧
      (h.Format m).2.Havings = m.Havings ++ [{ h.filter with Withs := h.withs }]) ∧
    (h.filter.IsNull = true → (h.Format m).2 = m) ∧
    ((h.Format m).2 ≠ m ↔ h.filter.IsNull = false) ∧
    (h.Format m).2.Filters = m.Filters := by
  have hw : ∀ b, w.filter.IsNull = b →
      ({ w.filter with Withs := w.withs } : view.Filters).IsNull = b := fun b hb => hb
  have hh : ∀ b, h.filter.IsNull = b →
      ({ h.filter with Withs := h.withs } : view.Filters).IsNull = b := fun b hb => hb
  have hneF : ∀ f : view.Filters, m.AddFilter f ≠ m := by
    intro f hf
    have := congrArg (fun x => x.Filters.length) hf
    simp [view.Model.AddFilter] at this
  have hneH : ∀ f : view.Filters, m.AddHaving f ≠ m := by
    intro f hf
    have := congrArg (fun x => x.Havings.length) hf
    simp [view.Model.AddHaving] at this
  have hlF : ∀ f : view.Filters, (m.AddFilter f).Filters = m.Filters ++ [f] := fun _ => rfl
  have hlH : ∀ f : view.Filters, (m.AddFilter f).Havings = m.Havings := fun _ => rfl
  have hhF : ∀ f : view.Filters, (m.AddHaving f).Filters = m.Filters := fun _ => rfl
  have hhH : ∀ f : view.Filters, (m.AddHaving f).Havings = m.Havings ++ [f] := fun _ => rfl
  cases hwn : w.filter.IsNull <;> cases hhn : h.filter.IsNull <;>
    simp [Where.Format, Having.Format, hw _ hwn, hh _ hhn, hneF, hneH, hlF, hlH, hhF, hhH]

/-- Witness of C22: a filter set with one predicate is added as WHERE. -/
theorem C22_format_witness :
    (Where.Format { withs := ["w1"], filter := { Expr := some (Node.Expr "a = 1") } } {}).2 =
      (({} : view.Model).AddFilter
        { Expr := some (Node.Expr "a = 1"), Withs := ["w1"] }) :=
  ((C22_format { withs := ["w1"], filter := { Expr := some (Node.Expr "a = 1") } }
    ⟨{ withs := [] }⟩ {}).2.2.2.1 rfl).1

/-! ## Prefixes and suffixes of joined texts -/

/-- A text starts with what it was joined from on the left. -/
theorem HasPrefix_append (pre x : String) : HasPrefix (pre ++ x) pre = true := by
  unfold HasPrefix
  rw [String.data_append, List.isPrefixOf_iff_prefix]
  exact List.prefix_append _ _

/-- Trimming the prefix a text was joined from gives the rest. -/
theorem TrimPrefix_append (pre x : String) : TrimPrefix (pre ++ x) pre = x := by
  unfold TrimPrefix
  rw [HasPrefix_append, if_pos rfl]
  apply String.ext
  simp

/-- A text ends with what it was joined from on the right. -/
theorem HasSuffix_append (x suf : String) : HasSuffix (x ++ suf) suf = true := by
  unfold HasSuffix
  rw [String.data_append, List.reverse_append, List.isPrefixOf_iff_prefix]
  exact List.prefix_append _ _

/-- Trimming the suffix a text was joined from gives the rest. -/
theorem TrimSuffix_append (x suf : String) : TrimSuffix (x ++ suf) suf = x := by
  unfold TrimSuffix
  rw [HasSuffix_append, if_pos rfl]
  apply String.ext
  simp

/-- Trimming a suffix that a text does not end with leaves the text. -/
theorem TrimSuffix_of_not (s suf : String) (h : HasSuffix s suf = false) :
    TrimSuffix s suf = s := by
  unfold TrimSuffix
  rw [h, if_neg (by decide)]

/-- A text that ends with `_1` does not end with `_0`. -/
theorem HasSuffix_1_not_0 (x : String) : HasSuffix (x ++ "_1") "_0" = false := by
  unfold HasSuffix
  simp [List.isPrefixOf]

/-- Whether a text behind a prefix that ends with a full stop ends with a role
suffix is decided by the text alone. -/
theorem HasSuffix_behind (pre key suf : String) (a b c : Char) (rest : List Char)
    (hsuf : suf.data = [a, b]) (hpre : pre.data.reverse = c :: rest) (ha : c ≠ a)
    (hb : c ≠ b) :
    HasSuffix (pre ++ key) suf = HasSuffix key suf := by
  unfold HasSuffix
  rw [String.data_append, List.reverse_append, hsuf, hpre]
  cases key.data.reverse with
  | nil => simp [List.isPrefixOf, hb.symm]
  | cons x l =>
    cases l with
    | nil => simp [List.isPrefixOf, ha.symm]
    | cons y l' => simp [List.isPrefixOf]

/-- The key of a family tag in the role `_0`, for a key that does not end with `_1`. -/
theorem roleKey_0 (family key : String) (c : Char) (rest : List Char)
    (hfam : family.data.reverse = c :: rest) (h1 : c ≠ '_') (h2 : c ≠ '1')
    (hkey : HasSuffix key "_1" = false) :
    roleKey (family ++ key ++ "_0") family = key := by
  unfold roleKey
  rw [TrimSuffix_append]
  have h : HasSuffix (family ++ key) "_1" = false := by
    rw [HasSuffix_behind family key "_1" '_' '1' c rest rfl hfam h1 h2, hkey]
  rw [TrimSuffix_of_not _ _ h, TrimPrefix_append]

/-- The key of a family tag in the role `_1`. -/
theorem roleKey_1 (family key : String) : roleKey (family ++ key ++ "_1") family = key := by
  unfold roleKey
  rw [TrimSuffix_of_not _ _ (HasSuffix_1_not_0 _), TrimSuffix_append, TrimPrefix_append]

/-- The key of a family tag without role, for a key that ends with no role suffix. -/
theorem roleKey_none (family key : String) (c : Char) (rest : List Char)
    (hfam : family.data.reverse = c :: rest) (h0 : c ≠ '0') (h1 : c ≠ '_') (h2 : c ≠ '1')
    (hkey0 : HasSuffix key "_0" = false) (hkey1 : HasSuffix key "_1" = false) :
    roleKey (family ++ key) family = key := by
  unfold roleKey
  have ha : HasSuffix (family ++ key) "_0" = false := by
    rw [HasSuffix_behind family key "_0" '_' '0' c rest rfl hfam h1 h0, hkey0]
  have hb : HasSuffix (family ++ key) "_1" = false := by
    rw [HasSuffix_behind family key "_1" '_' '1' c rest rfl hfam h1 h2, hkey1]
  rw [TrimSuffix_of_not _ _ ha, TrimSuffix_of_not _ _ hb, TrimPrefix_append]

/-! ## The family `k8s.label.` -/

/-- A name that starts with `k8s.label.` after the back-quotes are trimmed is neither a
MAC tag nor `tap_port`. -/
theorem k8s_label_not_mac (tag : String)
    (hpre : HasPrefix (Trim tag "`") "k8s.label." = true) :
    isMacTag tag = false ∧ tag ≠ "tap_port" := by
  constructor
  · cases hmac : isMacTag tag with
    | false => rfl
    | true =>
      exfalso
      simp only [isMacTag, Bool.or_eq_true, decide_eq_true_eq] at hmac
      rcases hmac with ((((h | h) | h) | h) | h) | h <;> (rw [h] at hpre; revert hpre; decide)
  · intro h
    rw [h] at hpre
    revert hpre
    decide

/-- The descriptor of a family with role variants, by the name of the variant. -/
theorem roleTag_eq (env : Env) (db table name : String) :
    roleTag env db table name "k8s_label" =
      env.GetTag (if HasSuffix name "_0" then "k8s_label_0"
        else if HasSuffix name "_1" then "k8s_label_1" else "k8s_label") db table "default" := by
  unfold roleTag
  have h0 : ("k8s_label" : String) ++ "_0" = "k8s_label_0" := by decide
  have h1 : ("k8s_label" : String) ++ "_1" = "k8s_label_1" := by decide
  rw [h0, h1]
  split
  · rfl
  · split <;> rfl

/-- Result of `WhereTag.Trans` on a tag `k8s.label.<key>` without descriptor of its own. -/
theorem Trans_k8s_label (env : Env) (t : WhereTag) (op0 originFilter : String)
    (e : CHEngine) (store : Store) (tagItem : Tag)
    (hreg : env.GetTag (Trim t.Tag "`") e.DB e.Table "default" = none)
    (halias : e.AsTagMap t.Tag = none)
    (hpre : HasPrefix (Trim t.Tag "`") "k8s.label." = true)
    (hrole : roleTag env e.DB e.Table (Trim t.Tag "`") "k8s_label" = some tagItem) :
    WhereTag.Trans env t op0 originFilter e store =
      ⟨.ok (Node.Expr
          (if Contains (opValue op0 t.Value).1 "match" then
            Sprintf tagItem.WhereRegexpTranslator
              [.str (opValue op0 t.Value).1, .str (opValue op0 t.Value).2,
                .str (roleKey (Trim t.Tag "`") "k8s.label."),
                .str (opValue op0 t.Value).1, .str (opValue op0 t.Value).2,
                .str (roleKey (Trim t.Tag "`") "k8s.label.")]
          else
            Sprintf tagItem.WhereTranslator
              [.str (opValue op0 t.Value).1, .str (opValue op0 t.Value).2,
                .str (roleKey (Trim t.Tag "`") "k8s.label."),
                .str (opValue op0 t.Value).1, .str (opValue op0 t.Value).2,
                .str (roleKey (Trim t.Tag "`") "k8s.label.")])),
        ⟨t.Tag, (opValue op0 t.Value).2⟩, e, store⟩ := by
  have hmac := k8s_label_not_mac t.Tag hpre
  unfold WhereTag.Trans
  simp only [hreg, halias]
  unfold unresolved
  simp only [hmac.1, hmac.2, if_false, Bool.false_eq_true]
  unfold familyFilter
  simp only [hpre, if_true, hrole, Option.map_some']

set_option maxRecDepth 100000 in
/-- C23: for a tag that, back-quotes trimmed, starts with `k8s.label.`, has no descriptor of
its own and is no alias, with the descriptor of its role registered (`k8s_label_0`
for a name that ends with `_0`, else `k8s_label_1` for one that ends with `_1`, else
`k8s_label`), `WhereTag.Trans` returns the template of that descriptor, the
`WhereRegexpTranslator` when the rewritten operator contains `match` and the
`WhereTranslator` otherwise, filled with (operator, value, key) twice; the key is the
name with the role suffixes and `k8s.label.` trimmed, which is `<key>` for
`k8s.label.<key>_1`, for `k8s.label.<key>_0` when `<key>` does not end with `_1`, and for
`k8s.label.<key>` when `<key>` ends with no role suffix. -/
theorem C23_k8s_label_role (env : Env) (t : WhereTag) (op0 originFilter : String)
    (e : CHEngine) (store : Store) (tagItem : Tag) (base : String)
    (hreg : env.GetTag (Trim t.Tag "`") e.DB e.Table "default" = none)
    (halias : e.AsTagMap t.Tag = none)
    (hpre : HasPrefix (Trim t.Tag "`") "k8s.label." = true)
    (hbase : base = if HasSuffix (Trim t.Tag "`") "_0" then "k8s_label_0"
      else if HasSuffix (Trim t.Tag "`") "_1" then "k8s_label_1" else "k8s_label")
    (htag : env.GetTag base e.DB e.Table "default" = some tagItem) :
    (WhereTag.Trans env t op0 originFilter e store).node =
      .ok (Node.Expr
        (if Contains (opValue op0 t.Value).1 "match" then
          Sprintf tagItem.WhereRegexpTranslator
            [.str (opValue op0 t.Value).1, .str (opValue op0 t.Value).2,
              .str (roleKey (Trim t.Tag "`") "k8s.label."),
              .str (opValue op0 t.Value).1, .str (opValue op0 t.Value).2,
              .str (roleKey (Trim t.Tag "`") "k8s.label.")]
        else
          Sprintf tagItem.WhereTranslator
            [.str (opValue op0 t.Value).1, .str (opValue op0 t.Value).2,
              .str (roleKey (Trim t.Tag "`") "k8s.label."),
              .str (opValue op0 t.Value).1, .str (opValue op0 t.Value).2,
              .str (roleKey (Trim t.Tag "`") "k8s.label.")])) ∧
    (∀ key, Trim t.Tag "`" = "k8s.label." ++ key ++ "_0" → HasSuffix key "_1" = false →
      base = "k8s_label_0" ∧ roleKey (Trim t.Tag "`") "k8s.label." = key) ∧
    (∀ key, Trim t.Tag "`" = "k8s.label." ++ key ++ "_1" →
      base = "k8s_label_1" ∧ roleKey (Trim t.Tag "`") "k8s.label." = key) ∧
    (∀ key, Trim t.Tag "`" = "k8s.label." ++ key → HasSuffix key "_0" = false →
      HasSuffix key "_1" = false →
      base = "k8s_label" ∧ roleKey (Trim t.Tag "`") "k8s.label." = key) := by
  have hrole : roleTag env e.DB e.Table (Trim t.Tag "`") "k8s_label" = some tagItem := by
    rw [roleTag_eq, ← hbase, htag]
  refine ⟨by rw [Trans_k8s_label env t op0 originFilter e store tagItem hreg halias hpre hrole],
    fun key hname hkey => ?_, fun key hname => ?_, fun key hname hkey0 hkey1 => ?_⟩
  · rw [hbase, hname, HasSuffix_append, if_pos rfl]
    exact ⟨rfl, roleKey_0 "k8s.label." key '.' _ rfl (by decide) (by decide) hkey⟩
  · rw [hbase, hname, HasSuffix_1_not_0, if_neg (by decide), HasSuffix_append, if_pos rfl]
    exact ⟨rfl, roleKey_1 "k8s.label." key⟩
  · have ha : HasSuffix ("k8s.label." ++ key) "_0" = false := by
      rw [HasSuffix_behind "k8s.label." key "_0" '_' '0' '.' _ rfl rfl (by decide) (by decide),
        hkey0]
    have hb : HasSuffix ("k8s.label." ++ key) "_1" = false := by
      rw [HasSuffix_behind "k8s.label." key "_1" '_' '1' '.' _ rfl rfl (by decide) (by decide),
        hkey1]
    rw [hbase, hname, ha, hb, if_neg (by decide), if_neg (by decide)]
    exact ⟨rfl, roleKey_none "k8s.label." key '.' _ rfl (by decide) (by decide) (by decide)
      hkey0 hkey1⟩

set_option maxRecDepth 100000 in
/-- Witness of C23: the label `app` in the role `_0` with a regular expression. -/
theorem C23_k8s_label_role_witness :
    (WhereTag.Trans sampleEnv ⟨"k8s.label.app_0", "'x'"⟩ "regexp" "k8s.label.app_0 regexp 'x'"
      sampleEngine sampleStore).node =
      .ok (Node.Expr "(toUInt64(service_id_0) IN (SELECT id FROM flow_tag.pod_service_k8s_label_map WHERE match(value,'x') and key='app')) OR (toUInt64(pod_id_0) IN (SELECT id FROM flow_tag.pod_k8s_label_map WHERE match(value,'x') and key='app'))") :=
  (C23_k8s_label_role sampleEnv ⟨"k8s.label.app_0", "'x'"⟩ "regexp" "k8s.label.app_0 regexp 'x'"
    sampleEngine sampleStore
    ⟨"(toUInt64(service_id_0) IN (SELECT id FROM flow_tag.pod_service_k8s_label_map WHERE value %s %s and key='%s')) OR (toUInt64(pod_id_0) IN (SELECT id FROM flow_tag.pod_k8s_label_map WHERE value %s %s and key='%s'))",
      "(toUInt64(service_id_0) IN (SELECT id FROM flow_tag.pod_service_k8s_label_map WHERE %s(value,%s) and key='%s')) OR (toUInt64(pod_id_0) IN (SELECT id FROM flow_tag.pod_k8s_label_map WHERE %s(value,%s) and key='%s'))"⟩
    "k8s_label_0" (by decide) rfl (by decide) (by decide) rfl).1

/-! ## The tag `tap_port` -/

/-- A loop whose body succeeds on every element returns one result per element, in
the order of the elements. -/
theorem forEach_forall₂ {α β : Type} (f : α → Except Err β) :
    ∀ (l : List α), (∀ a, a ∈ l → ∃ b, f a = .ok b) →
      ∃ bs, forEach f l = .ok bs ∧ List.Forall₂ (fun a b => f a = .ok b) l bs
  | [], _ => ⟨[], rfl, List.Forall₂.nil⟩
  | a :: rest, h => by
    obtain ⟨b, hb⟩ := h a (List.mem_cons_self a rest)
    obtain ⟨bs, hbs, hall⟩ :=
      forEach_forall₂ f rest (fun c hc => h c (List.mem_cons_of_mem a hc))
    exact ⟨b :: bs, by simp only [forEach, hb, hbs], List.Forall₂.cons hb hall⟩

/-- A loop whose body fails on some element returns the error of an element. -/
theorem forEach_fails {α β : Type} (f : α → Except Err β) :
    ∀ (l : List α), (∃ a, a ∈ l ∧ ∃ err, f a = .error err) →
      ∃ a, a ∈ l ∧ ∃ err, f a = .error err ∧ forEach f l = .error err
  | [], h => by
    obtain ⟨a, ha, _⟩ := h
    cases ha
  | a :: rest, h => by
    cases hfa : f a with
    | error err =>
      exact ⟨a, List.mem_cons_self a rest, err, hfa, by simp only [forEach, hfa]⟩
    | ok b =>
      have hrest : ∃ c, c ∈ rest ∧ ∃ err, f c = .error err := by
        obtain ⟨c, hc, err, herr⟩ := h
        rcases List.mem_cons.mp hc with rfl | hc'
        · rw [hfa] at herr
          cases herr
        · exact ⟨c, hc', err, herr⟩
      obtain ⟨c, hc, err, herr, hall⟩ := forEach_fails f rest hrest
      exact ⟨c, List.mem_cons_of_mem a hc, err, herr, by simp only [forEach, hfa, hall]⟩

/-- The filter of a list that is not empty, written out. -/
theorem listFilter_eq (tag op : String) (macs : List String) (h : macs ≠ []) :
    listFilter tag op macs =
      tag ++ " " ++ op ++ " " ++
        (if ToLower op = "in" ∨ ToLower op = "not in" then "(" ++ Join macs "," ++ ")"
         else Join macs ",") := by
  unfold listFilter
  have hl : macs.length ≠ 0 := fun h0 => h (List.length_eq_zero.mp h0)
  simp only [hl, ne_eq, not_false_eq_true, if_true, Sprintf_tag_op_value]

/-- One element of the value list of `tap_port` that is an IP address without four-byte
form is an error. -/
theorem tapPortElement_v6 (x : String)
    (h : (net.ParseIP (Trim (TrimSpace x) "'")).any (fun ip => (net.To4 ip).isNone) = true) :
    tapPortElement x = .error (Err.invalidIpv4Mac (Trim (TrimSpace x) "'")) := by
  cases hip : net.ParseIP (Trim (TrimSpace x) "'") with
  | none => rw [hip] at h; cases h
  | some ip =>
    rw [hip] at h
    cases h4 : net.To4 ip with
    | none =>
      unfold tapPortElement
      simp only [hip, h4]
    | some ip4 =>
      simp only [Option.any, h4, Option.isNone_some] at h
      cases h

/-- Every other element of the value list of `tap_port` gives a literal. -/
theorem tapPortElement_ok (x : String)
    (h : (net.ParseIP (Trim (TrimSpace x) "'")).any (fun ip => (net.To4 ip).isNone) = false) :
    ∃ lit, tapPortElement x = .ok lit := by
  cases hip : net.ParseIP (Trim (TrimSpace x) "'") with
  | none =>
    cases hmac : net.ParseMAC ("00:00:" ++ Trim (TrimSpace x) "'") with
    | none =>
      unfold tapPortElement
      simp only [hip, hmac]
      exact ⟨_, rfl⟩
    | some mac =>
      unfold tapPortElement
      simp only [hip, hmac]
      exact ⟨_, rfl⟩
  | some ip =>
    rw [hip] at h
    cases h4 : net.To4 ip with
    | none =>
      simp only [Option.any, h4, Option.isNone_none] at h
      cases h
    | some ip4 =>
      unfold tapPortElement
      simp only [hip, h4]
      exact ⟨_, rfl⟩

/-- Result of `WhereTag.Trans` on the tag `tap_port` without descriptor. -/
theorem Trans_tap_port (env : Env) (t : WhereTag) (op0 originFilter : String)
    (e : CHEngine) (store : Store) (htag : t.Tag = "tap_port")
    (hreg : env.GetTag (Trim t.Tag "`") e.DB e.Table "default" = none)
    (halias : e.AsTagMap t.Tag = none) :
    (WhereTag.Trans env t op0 originFilter e store).node =
      match forEach tapPortElement (valueSlice (opValue op0 t.Value).2) with
      | .error err => .error err
      | .ok macs => .ok (Node.Expr (listFilter "tap_port" (opValue op0 t.Value).1 macs)) := by
  unfold WhereTag.Trans
  simp only [hreg, halias]
  unfold unresolved
  have hmac : isMacTag t.Tag = false := by rw [htag]; decide
  simp only [hmac, htag, if_true, if_false, Bool.false_eq_true]
  unfold tapPortFilter
  cases forEach tapPortElement (valueSlice (opValue op0 t.Value).2) <;> rfl

/-- C24, the claim as stated fails: the tag `tap_port` has no descriptor in the sample
registry, `::1` is an IP address without four-byte form, and the value list
`('1.2.3.4', '::1')` does not compile: `WhereTag.Trans` returns the error
`invalid ipv4 mac: ::1` and no node. -/
theorem C24_tap_port_ipv6_counterexample :
    sampleEnv.GetTag (Trim "tap_port" "`") sampleEngine.DB sampleEngine.Table "default" = none ∧
    (net.ParseIP "::1").isSome = true ∧
    (net.ParseIP "::1").bind net.To4 = none ∧
    (WhereTag.Trans sampleEnv ⟨"tap_port", "('1.2.3.4', '::1')"⟩ "in"
      "tap_port in ('1.2.3.4', '::1')" sampleEngine sampleStore).node =
      .error (Err.invalidIpv4Mac "::1") :=
  ⟨by decide, by decide, by decide, rfl⟩

/-- C24 amended: for the tag `tap_port` without descriptor and alias, each element of the value
list, spaces and single quotes trimmed, is classified on its own: an IP address
with a four-byte form gives the decimal text of its 32-bit integer in single
quotes; an IP address without four-byte form (an IPv6 literal) gives the error
`invalid ipv4 mac`; a text that is no IP address and, behind `00:00:`, parses as a MAC
gives the decimal text of the 64-bit integer of that MAC in single quotes;
every other text is put in single quotes as it is.  A value list without an
IPv6 literal compiles without error to `tap_port <op> <list>` with one literal per
element in the order of the elements, the list in parentheses for `in` and
`not in`; a value list with an IPv6 literal gives the error of such an element and
no node. -/
theorem C24_tap_port_amended (env : Env) (t : WhereTag) (op0 originFilter : String)
    (e : CHEngine) (store : Store) (htag : t.Tag = "tap_port")
    (hreg : env.GetTag (Trim t.Tag "`") e.DB e.Table "default" = none)
    (halias : e.AsTagMap t.Tag = none) :
    (∀ (x : String) (ip ip4 : List Nat), net.ParseIP (Trim (TrimSpace x) "'") = some ip →
      net.To4 ip = some ip4 →
      tapPortElement x = .ok ("'" ++ strconv.Itoa (utils.IpToUint32 ip4) ++ "'")) ∧
    (∀ (x : String) (ip : List Nat), net.ParseIP (Trim (TrimSpace x) "'") = some ip →
      net.To4 ip = none →
      tapPortElement x = .error (Err.invalidIpv4Mac (Trim (TrimSpace x) "'"))) ∧
    (∀ (x : String) (mac : List Nat), net.ParseIP (Trim (TrimSpace x) "'") = none →
      net.ParseMAC ("00:00:" ++ Trim (TrimSpace x) "'") = some mac →
      tapPortElement x = .ok ("'" ++ strconv.Itoa (utils.Mac2Uint64 mac) ++ "'")) ∧
    (∀ (x : String), net.ParseIP (Trim (TrimSpace x) "'") = none →
      net.ParseMAC ("00:00:" ++ Trim (TrimSpace x) "'") = none →
      tapPortElement x = .ok ("'" ++ Trim (TrimSpace x) "'" ++ "'")) ∧
    ((∀ x, x ∈ valueSlice (opValue op0 t.Value).2 →
        (net.ParseIP (Trim (TrimSpace x) "'")).any (fun ip => (net.To4 ip).isNone) = false) →
      ∃ macs, List.Forall₂ (fun x lit => tapPortElement x = .ok lit)
          (valueSlice (opValue op0 t.Value).2) macs ∧
        (WhereTag.Trans env t op0 originFilter e store).node =
          .ok (Node.Expr ("tap_port" ++ " " ++ (opValue op0 t.Value).1 ++ " " ++
            (if ToLower (opValue op0 t.Value).1 = "in" ∨
                ToLower (opValue op0 t.Value).1 = "not in" then "(" ++ Join macs "," ++ ")"
             else Join macs ",")))) ∧
    ((∃ x, x ∈ valueSlice (opValue op0 t.Value).2 ∧
        (net.ParseIP (Trim (TrimSpace x) "'")).any (fun ip => (net.To4 ip).isNone) = true) →
      ∃ x, x ∈ valueSlice (opValue op0 t.Value).2 ∧
        (net.ParseIP (Trim (TrimSpace x) "'")).any (fun ip => (net.To4 ip).isNone) = true ∧
        (WhereTag.Trans env t op0 originFilter e store).node =
          .error (Err.invalidIpv4Mac (Trim (TrimSpace x) "'"))) := by
  have hT := Trans_tap_port env t op0 originFilter e store htag hreg halias
  refine ⟨fun x ip ip4 hip h4 => ?_, fun x ip hip h4 => ?_, fun x mac hip hmac => ?_,
    fun x hip hmac => ?_, fun hall => ?_, fun hex => ?_⟩
  · unfold tapPortElement
    simp only [hip, h4]
    rfl
  · unfold tapPortElement
    simp only [hip, h4]
  · unfold tapPortElement
    simp only [hip, hmac]
    rfl
  · unfold tapPortElement
    simp only [hip, hmac]
    rfl
  · obtain ⟨macs, hmacs, hforall⟩ := forEach_forall₂ tapPortElement
      (valueSlice (opValue op0 t.Value).2) (fun x hx => tapPortElement_ok x (hall x hx))
    have hne : macs ≠ [] := by
      intro h0
      have hlen := hforall.length_eq
      rw [h0, List.length_nil] at hlen
      exact valueSlice_ne_nil _ (List.length_eq_zero.mp hlen)
    refine ⟨macs, hforall, ?_⟩
    rw [hT, hmacs]
    simp only [listFilter_eq _ _ macs hne]
  · have hfail : ∃ x, x ∈ valueSlice (opValue op0 t.Value).2 ∧
        ∃ err, tapPortElement x = .error err := by
      obtain ⟨x, hx, h6⟩ := hex
      exact ⟨x, hx, _, tapPortElement_v6 x h6⟩
    obtain ⟨x, hx, err, herr, hall⟩ := forEach_fails tapPortElement _ hfail
    have h6 : (net.ParseIP (Trim (TrimSpace x) "'")).any (fun ip => (net.To4 ip).isNone) =
        true := by
      cases hb : (net.ParseIP (Trim (TrimSpace x) "'")).any (fun ip => (net.To4 ip).isNone) with
      | true => rfl
      | false =>
        obtain ⟨lit, hlit⟩ := tapPortElement_ok x hb
        rw [hlit] at herr
        cases herr
    have herr' := tapPortElement_v6 x h6
    rw [herr] at herr'
    cases herr'
    refine ⟨x, hx, h6, ?_⟩
    rw [hT, hall]

/-- Witness of C24 amended: an IPv4 address, the last four bytes of a MAC and an opaque
text. -/
theorem C24_tap_port_amended_witness :
    ∃ macs, List.Forall₂ (fun x lit => tapPortElement x = .ok lit)
        (valueSlice (opValue "in" "('1.2.3.4', '5e:00:53:01', abc)").2) macs ∧
      (WhereTag.Trans sampleEnv ⟨"tap_port", "('1.2.3.4', '5e:00:53:01', abc)"⟩ "in"
        "tap_port in ('1.2.3.4', '5e:00:53:01', abc)" sampleEngine sampleStore).node =
        .ok (Node.Expr ("tap_port" ++ " " ++ "in" ++ " " ++
          (if ToLower "in" = "in" ∨ ToLower "in" = "not in" then "(" ++ Join macs "," ++ ")"
           else Join macs ","))) :=
  (C24_tap_port_amended sampleEnv ⟨"tap_port", "('1.2.3.4', '5e:00:53:01', abc)"⟩ "in"
    "tap_port in ('1.2.3.4', '5e:00:53:01', abc)" sampleEngine sampleStore rfl (by decide)
    rfl).2.2.2.2.1 (by decide)

/-! ## The family `tag.` -/

/-- Result of `WhereTag.Trans` on a tag `tag.<key>` without descriptor outside a remote
read: the branch of the family `tag.`. -/
theorem Trans_tag_family (env : Env) (t : WhereTag) (op0 originFilter : String)
    (e : CHEngine) (store : Store)
    (hreg : env.GetTag (Trim t.Tag "`") e.DB e.Table "default" = none)
    (halias : e.AsTagMap t.Tag = none)
    (hpre : HasPrefix (Trim t.Tag "`") "tag." = true)
    (hrr : e.remote_read.getD false = false) :
    (e.DB = env.DB_NAME_PROMETHEUS →
      (WhereTag.Trans env t op0 originFilter e store).node =
        match GetPrometheusFilter env (Trim t.Tag "`") e.Table (opValue op0 t.Value).1
            (opValue op0 t.Value).2 with
        | (_, some err) => .error err
        | (filter, none) => .ok (Node.Expr filter)) ∧
    (∀ tagItem, e.DB ≠ env.DB_NAME_PROMETHEUS →
      env.GetTag "tag." e.DB e.Table "default" = some tagItem →
      (WhereTag.Trans env t op0 originFilter e store).node =
        .ok (Node.Expr
          (if Contains (opValue op0 t.Value).1 "match" then
            Sprintf tagItem.WhereRegexpTranslator
              [.str (opValue op0 t.Value).1,
                .str (TrimPrefix (TrimPrefix (Trim t.Tag "`") "tag.") "attribute."),
                .str (opValue op0 t.Value).2]
          else
            Sprintf tagItem.WhereTranslator
              [.str (TrimPrefix (TrimPrefix (Trim t.Tag "`") "tag.") "attribute."),
                .str (opValue op0 t.Value).1, .str (opValue op0 t.Value).2]))) := by
  have hmac := tag_family_not_mac t.Tag hpre
  have h1 := HasPrefix_disjoint _ "tag." "k8s.label." hpre (by decide) (by decide) (by decide)
  have h2 := HasPrefix_disjoint _ "tag." "k8s.annotation." hpre (by decide) (by decide)
    (by decide)
  have h3 := HasPrefix_disjoint _ "tag." "k8s.env." hpre (by decide) (by decide) (by decide)
  have h4 := HasPrefix_disjoint _ "tag." "cloud.tag." hpre (by decide) (by decide) (by decide)
  have h5 := HasPrefix_disjoint _ "tag." "os.app." hpre (by decide) (by decide) (by decide)
  constructor
  · intro hdb
    unfold WhereTag.Trans
    simp only [hreg, halias]
    unfold unresolved
    simp only [hmac.1, hmac.2, if_false, Bool.false_eq_true]
    unfold familyFilter
    simp only [h1, h2, h3, h4, h5, hpre, hrr, hdb, if_false, if_true, Bool.false_eq_true,
      true_or]
    rcases GetPrometheusFilter env (Trim t.Tag "`") e.Table (opValue op0 t.Value).1
      (opValue op0 t.Value).2 with ⟨filter, _ | err⟩ <;> rfl
  · intro tagItem hdb htag
    unfold WhereTag.Trans
    simp only [hreg, halias]
    unfold unresolved
    simp only [hmac.1, hmac.2, if_false, Bool.false_eq_true]
    unfold familyFilter
    simp only [h1, h2, h3, h4, h5, hpre, hrr, hdb, htag, if_false, if_true, Bool.false_eq_true,
      true_or, Option.map_some']

/-- C25: for a tag that, back-quotes trimmed, starts with `tag.`, has no descriptor of its
own and is no alias: in a remote read the node, the error, the engine and the
store that `WhereTag.Trans` returns are the ones of `GetRemoteReadFilter`, whatever the
database; outside a remote read the result is the one of `GetPrometheusFilter` when
the database is the Prometheus database, and otherwise, with the descriptor
`tag.` registered, its `WhereTranslator` filled with (key, operator, value), or its
`WhereRegexpTranslator` filled with (operator, key, value) when the rewritten
operator contains `match`; the key is the name with `tag.` and then `attribute.`
trimmed, which is `<key>` for `tag.<key>` when `<key>` does not start with
`attribute.`. -/
theorem C25_tag_family (env : Env) (t : WhereTag) (op0 originFilter : String)
    (e : CHEngine) (store : Store)
    (hreg : env.GetTag (Trim t.Tag "`") e.DB e.Table "default" = none)
    (halias : e.AsTagMap t.Tag = none)
    (hpre : HasPrefix (Trim t.Tag "`") "tag." = true) :
    (e.remote_read = some true →
      (WhereTag.Trans env t op0 originFilter e store).node =
        (match (GetRemoteReadFilter env (Trim t.Tag "`") e.Table (opValue op0 t.Value).1
            (opValue op0 t.Value).2 originFilter e store).err with
          | some err => .error err
          | none => .ok (Node.Expr (GetRemoteReadFilter env (Trim t.Tag "`") e.Table
              (opValue op0 t.Value).1 (opValue op0 t.Value).2 originFilter e store).filter)) ∧
      (WhereTag.Trans env t op0 originFilter e store).e =
        (GetRemoteReadFilter env (Trim t.Tag "`") e.Table (opValue op0 t.Value).1
          (opValue op0 t.Value).2 originFilter e store).e ∧
      (WhereTag.Trans env t op0 originFilter e store).store =
        (GetRemoteReadFilter env (Trim t.Tag "`") e.Table (opValue op0 t.Value).1
          (opValue op0 t.Value).2 originFilter e store).store) ∧
    (e.remote_read.getD false = false → e.DB = env.DB_NAME_PROMETHEUS →
      (WhereTag.Trans env t op0 originFilter e store).node =
        match GetPrometheusFilter env (Trim t.Tag "`") e.Table (opValue op0 t.Value).1
            (opValue op0 t.Value).2 with
        | (_, some err) => .error err
        | (filter, none) => .ok (Node.Expr filter)) ∧
    (∀ tagItem, e.remote_read.getD false = false → e.DB ≠ env.DB_NAME_PROMETHEUS →
      env.GetTag "tag." e.DB e.Table "default" = some tagItem →
      (WhereTag.Trans env t op0 originFilter e store).node =
        .ok (Node.Expr
          (if Contains (opValue op0 t.Value).1 "match" then
            Sprintf tagItem.WhereRegexpTranslator
              [.str (opValue op0 t.Value).1,
                .str (TrimPrefix (TrimPrefix (Trim t.Tag "`") "tag.") "attribute."),
                .str (opValue op0 t.Value).2]
          else
            Sprintf tagItem.WhereTranslator
              [.str (TrimPrefix (TrimPrefix (Trim t.Tag "`") "tag.") "attribute."),
                .str (opValue op0 t.Value).1, .str (opValue op0 t.Value).2]))) ∧
    (∀ key, Trim t.Tag "`" = "tag." ++ key → HasPrefix key "attribute." = false →
      TrimPrefix (TrimPrefix (Trim t.Tag "`") "tag.") "attribute." = key) := by
  refine ⟨fun hrr => ?_, fun hrr hdb => ?_, fun tagItem hrr hdb htag => ?_,
    fun key hname hkey => ?_⟩
  · rw [Trans_remote_read env t op0 originFilter e store hreg halias hpre hrr]
    exact ⟨rfl, rfl, rfl⟩
  · exact (Trans_tag_family env t op0 originFilter e store hreg halias hpre hrr).1 hdb
  · exact (Trans_tag_family env t op0 originFilter e store hreg halias hpre hrr).2 tagItem hdb
      htag
  · rw [hname, TrimPrefix_append]
    unfold TrimPrefix
    rw [hkey, if_neg (by decide)]

/-- Witness of C25: in a remote read on the Prometheus database the tag `tag.job` gets the
filter of `GetRemoteReadFilter`, not the one of `GetPrometheusFilter`. -/
theorem C25_tag_family_witness :
    (WhereTag.Trans samplePromEnv ⟨"tag.job", "'a'"⟩ "=" "tag.job = 'a'" sampleRemoteEngine
      sampleStore).node = .ok (Node.Expr "app_label_value_id_2 IN (11,12)") ∧
    sampleRemoteEngine.DB = samplePromEnv.DB_NAME_PROMETHEUS ∧
    (GetPrometheusFilter samplePromEnv "tag.job" "up" "=" "'a'").1 ≠
      "app_label_value_id_2 IN (11,12)" :=
  ⟨((C25_tag_family samplePromEnv ⟨"tag.job", "'a'"⟩ "=" "tag.job = 'a'" sampleRemoteEngine
      sampleStore (by decide) rfl (by decide)).1 rfl).1,
    by decide, by decide⟩

/-! ## `TransWhereTagFunction`: the device-type shortcut -/

/-- The discriminator equality, written out. -/
theorem Sprintf_device_type (column : String) (d : Int) :
    Sprintf "%s=%d" [.str column, .int d] = column ++ "=" ++ strconv.Itoa d := by
  apply String.ext
  simp [Sprintf, sprintfAux, verb, extra]

/-- Result of `exist` on one argument whose name, the role suffixes and a trailing
`_id` trimmed, is a key of the device-type map. -/
theorem exist_device (env : Env) (name arg : String) (d : Int)
    (hname : ToLower name = "exist")
    (hdev : env.DEVICE_MAP (TrimSuffix (TrimSuffix (TrimSuffix (ToLower (Trim arg "`")) "_0")
      "_1") "_id") = some d) :
    TransWhereTagFunction env name [arg] =
      if TrimSuffix (TrimSuffix (ToLower (Trim arg "`")) "_0") "_1" = "pod_service" then "1=1"
      else "l3_device_type" ++
        (if HasSuffix (ToLower (Trim arg "`")) "_0" then "_0"
         else if HasSuffix (ToLower (Trim arg "`")) "_1" then "_1" else "") ++
        "=" ++ strconv.Itoa d := by
  unfold TransWhereTagFunction
  simp only [hname, if_true, hdev, List.mem_singleton, Sprintf_device_type]

/-- C26, the claim as stated fails: with `pod_service` in the device-type map (value 12), the
id form `pod_service_id_0` of the excluded resource kind is not excluded, `exist`
returns the discriminator equality, where the claim has `1=1`; the name form
`pod_service_0` gives `1=1`. -/
theorem C26_exist_pod_service_id_counterexample :
    sampleEnv.DEVICE_MAP "pod_service" = some 12 ∧
    TransWhereTagFunction sampleEnv "exist" ["pod_service_id_0"] = "l3_device_type_0=12" ∧
    TransWhereTagFunction sampleEnv "exist" ["pod_service_id_0"] ≠ "1=1" ∧
    TransWhereTagFunction sampleEnv "exist" ["pod_service_0"] = "1=1" := by
  decide

/-- C26 amended: for `exist(<resource>)` where the resource (back-quotes trimmed, lower-cased, the
role suffixes and a trailing `_id` trimmed) is a key of the device-type map with
value d, `TransWhereTagFunction` returns `1=1` when the resource without role
suffix is `pod_service`, and the discriminator equality `l3_device_type<s>=<d>`, s
the role suffix of the resource, in every other case; the id form
`pod_service_id<s>` is such a case and gives `l3_device_type<s>=<d>`. -/
theorem C26_exist_device_type_amended (env : Env) (name arg : String) (d : Int)
    (hname : ToLower name = "exist")
    (hdev : env.DEVICE_MAP (TrimSuffix (TrimSuffix (TrimSuffix (ToLower (Trim arg "`")) "_0")
      "_1") "_id") = some d) :
    (TrimSuffix (TrimSuffix (ToLower (Trim arg "`")) "_0") "_1" = "pod_service" →
      TransWhereTagFunction env name [arg] = "1=1") ∧
    (TrimSuffix (TrimSuffix (ToLower (Trim arg "`")) "_0") "_1" ≠ "pod_service" →
      TransWhereTagFunction env name [arg] =
        "l3_device_type" ++
          (if HasSuffix (ToLower (Trim arg "`")) "_0" then "_0"
           else if HasSuffix (ToLower (Trim arg "`")) "_1" then "_1" else "") ++
          "=" ++ strconv.Itoa d) ∧
    (ToLower (Trim arg "`") = "pod_service_id" →
      TransWhereTagFunction env name [arg] = "l3_device_type=" ++ strconv.Itoa d) ∧
    (ToLower (Trim arg "`") = "pod_service_id_0" →
      TransWhereTagFunction env name [arg] = "l3_device_type_0=" ++ strconv.Itoa d) ∧
    (ToLower (Trim arg "`") = "pod_service_id_1" →
      TransWhereTagFunction env name [arg] = "l3_device_type_1=" ++ strconv.Itoa d) := by
  have h := exist_device env name arg d hname hdev
  refine ⟨fun hp => ?_, fun hp => ?_, fun hr => ?_, fun hr => ?_, fun hr => ?_⟩
  · rw [h, if_pos hp]
  · rw [h, if_neg hp]
  · rw [h, hr]
    rw [if_neg (by decide), if_neg (by decide), if_neg (by decide)]
    rfl
  · rw [h, hr]
    rw [if_neg (by decide), if_pos (by decide)]
    rfl
  · rw [h, hr]
    rw [if_neg (by decide), if_neg (by decide), if_pos (by decide)]
    rfl

/-- Witness of C26 amended: `Exist` on the id of a cloud host in the role of the server. -/
theorem C26_exist_device_type_amended_witness :
    TransWhereTagFunction sampleEnv "Exist" ["`chost_id_1`"] =
      "l3_device_type" ++ "_1" ++ "=" ++ strconv.Itoa 1 :=
  (C26_exist_device_type_amended sampleEnv "Exist" "`chost_id_1`" 1 (by decide)
    (by decide)).2.1 (by decide)

/-! ## `TransWhereTagFunction`: the always-true filter -/

/-- C27: for the function `exist`, the name compared without regard to case,
`TransWhereTagFunction` returns `1=1` when the number of arguments is not 1 and when
the one resource is no key of the device-type map, starts with none of
`k8s.label.`, `k8s.annotation.`, `k8s.env.`, `cloud.tag.`, `os.app.` and is no key of the
tap-port device map; for every other function name it returns the empty
text. -/
theorem C27_exist_default (env : Env) (name : String) (args : List String) :
    (ToLower name ≠ "exist" → TransWhereTagFunction env name args = "") ∧
    (ToLower name = "exist" → args.length ≠ 1 → TransWhereTagFunction env name args = "1=1") ∧
    (∀ arg, ToLower name = "exist" → args = [arg] →
      env.DEVICE_MAP (TrimSuffix (TrimSuffix (TrimSuffix (ToLower (Trim arg "`")) "_0") "_1")
        "_id") = none →
      (∀ p, p ∈ ["k8s.label.", "k8s.annotation.", "k8s.env.", "cloud.tag.", "os.app."] →
        HasPrefix (TrimSuffix (TrimSuffix (ToLower (Trim arg "`")) "_0") "_1") p = false) →
      env.TAP_PORT_DEVICE_MAP (TrimSuffix (TrimSuffix (ToLower (Trim arg "`")) "_0") "_1") =
        none →
      TransWhereTagFunction env name args = "1=1") := by
  refine ⟨fun hne => ?_, fun hname hlen => ?_, fun arg hname hargs hdev hpre htap => ?_⟩
  · unfold TransWhereTagFunction
    simp only [hne, if_false]
  · unfold TransWhereTagFunction
    simp only [hname, if_true]
    match args, hlen with
    | [], _ => rfl
    | [_], h => exact absurd rfl h
    | _ :: _ :: _, _ => rfl
  · subst hargs
    have h1 := hpre "k8s.label." (by decide)
    have h2 := hpre "k8s.annotation." (by decide)
    have h3 := hpre "k8s.env." (by decide)
    have h4 := hpre "cloud.tag." (by decide)
    have h5 := hpre "os.app." (by decide)
    unfold TransWhereTagFunction
    simp only [hname, if_true, hdev, h1, h2, h3, h4, h5, htap, if_false, Bool.false_eq_true]

/-- Witness of C27: `EXIST` with two arguments. -/
theorem C27_exist_default_witness :
    TransWhereTagFunction sampleEnv "EXIST" ["chost", "host"] = "1=1" :=
  (C27_exist_default sampleEnv "EXIST" ["chost", "host"]).2.1 (by decide) (by decide)

/-! ## The alias map -/

/-- C28: for a tag whose name, back-quotes trimmed, has a descriptor in the registry,
the node or the error that `WhereTag.Trans` returns is the one of the descriptor
of the tag, the same for any two alias maps, also for maps that have the tag
as a key; the receiver, the engine and the store after the call do not
depend on the alias map either, apart from the map itself. -/
theorem C28_alias_after_direct (env : Env) (t : WhereTag) (op originFilter : String)
    (e : CHEngine) (store : Store) (tagItem : Tag)
    (hreg : env.GetTag (Trim t.Tag "`") e.DB e.Table "default" = some tagItem)
    (m₁ m₂ : String → Option String) :
    (WhereTag.Trans env t op originFilter { e with AsTagMap := m₁ } store).node =
      (WhereTag.Trans env t op originFilter { e with AsTagMap := m₂ } store).node ∧
    (WhereTag.Trans env t op originFilter { e with AsTagMap := m₁ } store).node =
      resolved env tagItem ⟨t.Tag, (opValue op t.Value).2⟩ t.Tag (opValue op t.Value).1 ∧
    (WhereTag.Trans env t op originFilter { e with AsTagMap := m₁ } store).t =
      (WhereTag.Trans env t op originFilter { e with AsTagMap := m₂ } store).t ∧
    (WhereTag.Trans env t op originFilter { e with AsTagMap := m₁ } store).store =
      (WhereTag.Trans env t op originFilter { e with AsTagMap := m₂ } store).store := by
  unfold WhereTag.Trans
  simp only [hreg, and_self]

/-- Witness of C28: the tag `_id` with an alias map that sends `_id` to `tap_port`. -/
theorem C28_alias_after_direct_witness :
    (WhereTag.Trans sampleEnv ⟨"_id", "1"⟩ "=" "_id = 1"
      { sampleEngine with AsTagMap := fun _ => none } sampleStore).node =
    (WhereTag.Trans sampleEnv ⟨"_id", "1"⟩ "=" "_id = 1"
      { sampleEngine with AsTagMap := fun name => if name = "_id" then some "tap_port" else none }
      sampleStore).node :=
  (C28_alias_after_direct sampleEnv ⟨"_id", "1"⟩ "=" "_id = 1" sampleEngine sampleStore
    ⟨"_id %s %s AND time=toDateTime(bitShiftRight(%v, 32))", ""⟩ rfl _ _).1

/-! ## Lists of ids -/

/-- C29, the code at the failing input: for the tag `_id` with the operator `in` and the
list `(1,2)` `WhereTag.Trans` returns the error of `strconv.Atoi` on the whole
text `(1,2)`, since the loop over the elements converts `t.Value` and not the
element; a single literal compiles to one sub-predicate. -/
theorem C29_id_list :
    (WhereTag.Trans sampleEnv ⟨"_id", "(1,2)"⟩ "in" "_id in (1,2)" sampleEngine sampleStore).node =
      .error (Err.atoi "(1,2)") ∧
    (WhereTag.Trans sampleEnv ⟨"_id", "1"⟩ "in" "_id in 1" sampleEngine sampleStore).node =
      .ok (Node.Expr "(((_id in 1 AND time=toDateTime(bitShiftRight(1, 32)))))") :=
  ⟨rfl, rfl⟩

/-! ## Role suffixes of the family tags -/

set_option maxRecDepth 100000 in
/-- C30, the code at the failing input: for the tag `k8s.label.a_1_0`, the key `a_1` in the role
`_0`, both `_0` and `_1` are trimmed and the key passed to the template is `a`, in
`WhereTag.Trans` and in `TransWhereTagFunction` alike; the descriptor and the
columns are the ones of the role `_0`. -/
theorem C30_role_suffix_twice :
    roleKey "k8s.label.a_1_0" "k8s.label." = "a" ∧
    (WhereTag.Trans sampleEnv ⟨"k8s.label.a_1_0", "'x'"⟩ "=" "k8s.label.a_1_0 = 'x'" sampleEngine
      sampleStore).node =
      .ok (Node.Expr "(toUInt64(service_id_0) IN (SELECT id FROM flow_tag.pod_service_k8s_label_map WHERE value = 'x' and key='a')) OR (toUInt64(pod_id_0) IN (SELECT id FROM flow_tag.pod_k8s_label_map WHERE value = 'x' and key='a'))") ∧
    TransWhereTagFunction sampleEnv "exist" ["k8s.label.a_1_0"] =
      "((toUInt64(service_id_0) IN (SELECT id FROM flow_tag.pod_service_k8s_label_map WHERE key='a')) OR (toUInt64(pod_id_0) IN (SELECT id FROM flow_tag.pod_k8s_label_map WHERE key='a')))" :=
  ⟨by decide, rfl, rfl⟩

/-! ## The key of the free-form tags -/

set_option maxRecDepth 100000 in
/-- C31, the code at the failing input: on the generic path the tag `tag.attribute.x` passes the
key `x`, not `attribute.x`, to the template of `tag.`, since `attribute.` is trimmed after
`tag.` for both families; `GetPrometheusFilter` trims `tag.` only and looks up the label
`attribute.x`.  The keys `tag.x` under `tag.`, and `attribute.x` and `tag.x` under `attribute.`, are
passed as they are. -/
theorem C31_tag_attribute_key :
    (WhereTag.Trans sampleEnv ⟨"tag.attribute.x", "'v'"⟩ "=" "tag.attribute.x = 'v'" sampleEngine
      sampleStore).node = .ok (Node.Expr "tag_values[indexOf(tag_names,'x')] = 'v'") ∧
    GetPrometheusFilter samplePromEnv "tag.attribute.x" "up" "=" "'v'" =
      ("", some (Err.notFound "attribute.x")) ∧
    (WhereTag.Trans sampleEnv ⟨"tag.tag.x", "'v'"⟩ "=" "tag.tag.x = 'v'" sampleEngine
      sampleStore).node = .ok (Node.Expr "tag_values[indexOf(tag_names,'tag.x')] = 'v'") ∧
    (WhereTag.Trans sampleEnv ⟨"attribute.attribute.x", "'v'"⟩ "=" "attribute.attribute.x = 'v'"
      sampleEngine sampleStore).node =
      .ok (Node.Expr "attribute_values[indexOf(attribute_names,'attribute.x')] = 'v'") ∧
    (WhereTag.Trans sampleEnv ⟨"attribute.tag.x", "'v'"⟩ "=" "attribute.tag.x = 'v'"
      sampleEngine sampleStore).node =
      .ok (Node.Expr "attribute_values[indexOf(attribute_names,'tag.x')] = 'v'") :=
  ⟨rfl, rfl, rfl, rfl, rfl⟩

/-! ## Negation on `_id` -/

set_option maxRecDepth 100000 in
/-- C32, the code at the failing input: for the tag `_id` and the literal `1` the predicate of `!=`
is `not(...)` around the template filled with `!=` itself, not around the predicate
of `=`; likewise `not in` wraps the template filled with `not in`. -/
theorem C32_id_negation :
    (WhereTag.Trans sampleEnv ⟨"_id", "1"⟩ "=" "_id = 1" sampleEngine sampleStore).node =
      .ok (Node.Expr "(((_id = 1 AND time=toDateTime(bitShiftRight(1, 32)))))") ∧
    (WhereTag.Trans sampleEnv ⟨"_id", "1"⟩ "!=" "_id != 1" sampleEngine sampleStore).node =
      .ok (Node.Expr "(not(((_id != 1 AND time=toDateTime(bitShiftRight(1, 32))))))") ∧
    (WhereTag.Trans sampleEnv ⟨"_id", "1"⟩ "in" "_id in 1" sampleEngine sampleStore).node =
      .ok (Node.Expr "(((_id in 1 AND time=toDateTime(bitShiftRight(1, 32)))))") ∧
    (WhereTag.Trans sampleEnv ⟨"_id", "1"⟩ "not in" "_id not in 1" sampleEngine sampleStore).node =
      .ok (Node.Expr "(not(((_id not in 1 AND time=toDateTime(bitShiftRight(1, 32))))))") :=
  ⟨rfl, rfl, rfl, rfl⟩

/-! ## Aliases of family names -/

/-- Outside the form `Enum(...)` the family dispatch on the target of an alias is the one
on the tag itself. -/
theorem familyFilter_alias (env : Env) (t : WhereTag) (op originFilter : String) (e : CHEngine)
    (store : Store) (isRemoteRead : Bool) (name0 : String)
    (h : HasPrefix (Trim name0 "`") "Enum(" = false) :
    familyFilter env t op originFilter e store isRemoteRead name0 false =
      familyFilter env t op originFilter e store isRemoteRead name0 true := by
  unfold familyFilter
  simp only [h, Bool.false_eq_true, and_false, false_and, and_self, if_false]

set_option maxRecDepth 100000 in
/-- C33, the code at the failing input: with the enum descriptor of `protocol` registered, the tag
`Enum(protocol)` compiles to the template of that descriptor, and the alias `p` that
the alias map sends to `Enum(protocol)` compiles to the pass-through `p = 'TCP'`: the
`switch` on the target of an alias has no branch for `Enum(`.  An alias of
`k8s.label.app_0` compiles as the tag itself. -/
theorem C33_alias_enum :
    (sampleEnv.GetTag "protocol" "flow_log" "l4_flow_log" "enum").isSome = true ∧
    (WhereTag.Trans sampleEnv ⟨"Enum(protocol)", "'TCP'"⟩ "=" "Enum(protocol) = 'TCP'"
      sampleEngine sampleStore).node =
      .ok (Node.Expr "toUInt64(protocol) IN (SELECT value FROM flow_tag.int_enum_map WHERE name = 'TCP' and tag_name='%!s(MISSING)')") ∧
    (WhereTag.Trans sampleEnv ⟨"p", "'TCP'"⟩ "=" "p = 'TCP'"
      { sampleEngine with
        AsTagMap := fun name => if name = "p" then some "Enum(protocol)" else none }
      sampleStore).node = .ok (Node.Expr "p = 'TCP'") ∧
    (WhereTag.Trans sampleEnv ⟨"l", "'x'"⟩ "=" "l = 'x'"
      { sampleEngine with
        AsTagMap := fun name => if name = "l" then some "k8s.label.app_0" else none }
      sampleStore).node =
    (WhereTag.Trans sampleEnv ⟨"k8s.label.app_0", "'x'"⟩ "=" "l = 'x'" sampleEngine
      sampleStore).node :=
  ⟨by decide, rfl, rfl, rfl⟩

/-! ## Back-quoted names -/

set_option maxRecDepth 100000 in
/-- C34, the code at the failing input: the back-quoted spelling of `is_internet` finds the
descriptor of `is_internet` but not its case of the `switch`, which compares the name as
written: the template is filled by the `default:` case with the operator and the
value, where the bare name gives the predicate of the boolean encoder; the same
for `_id` and `ip_version`. -/
theorem C34_back_quoted :
    (WhereTag.Trans sampleEnv ⟨"is_internet", "1"⟩ "=" "is_internet = 1" sampleEngine
      sampleStore).node = .ok (Node.Expr "(l3_epc_id = -2)") ∧
    (WhereTag.Trans sampleEnv ⟨"`is_internet`", "1"⟩ "=" "is_internet = 1" sampleEngine
      sampleStore).node = .ok (Node.Expr "(l3_epc_id = -2%!(EXTRA string=1))") ∧
    (WhereTag.Trans sampleEnv ⟨"_id", "1"⟩ "=" "_id = 1" sampleEngine sampleStore).node =
      .ok (Node.Expr "(((_id = 1 AND time=toDateTime(bitShiftRight(1, 32)))))") ∧
    (WhereTag.Trans sampleEnv ⟨"`_id`", "1"⟩ "=" "_id = 1" sampleEngine sampleStore).node =
      .ok (Node.Expr "(_id = 1 AND time=toDateTime(bitShiftRight(%!v(MISSING), 32)))") ∧
    (WhereTag.Trans sampleEnv ⟨"ip_version", "4"⟩ "=" "ip_version = 4" sampleEngine
      sampleStore).node = .ok (Node.Expr "(is_ipv4 = 1)") ∧
    (WhereTag.Trans sampleEnv ⟨"`ip_version`", "4"⟩ "=" "ip_version = 4" sampleEngine
      sampleStore).node = .ok (Node.Expr "(is_ipv4 = 4)") :=
  ⟨rfl, rfl, rfl, rfl, rfl, rfl⟩

/-! ## The MAC tags -/

/-- The test `ToLower(op) == "in" || ToLower(op) == "not in"` gives the same on the operator as
written and on the rewritten operator. -/
theorem opValue_in_or_not_in (op v : String) :
    (ToLower (opValue op v).1 = "in" ∨ ToLower (opValue op v).1 = "not in") ↔
      (ToLower op = "in" ∨ ToLower op = "not in") := by
  have aux : ∀ (tok fam w : String), opValue op v = (tok, w) → ToLower op = fam →
      ¬ (ToLower tok = "in" ∨ ToLower tok = "not in") → "in" ≠ fam → "not in" ≠ fam →
      ((ToLower (opValue op v).1 = "in" ∨ ToLower (opValue op v).1 = "not in") ↔
        (ToLower op = "in" ∨ ToLower op = "not in")) := by
    intro tok fam w h hfam hl h1 h2
    rw [h, hfam]
    constructor
    · intro h'
      exact absurd h' hl
    · rintro (h' | h')
      · exact absurd h'.symm h1
      · exact absurd h'.symm h2
  by_cases h1 : ToLower op = "like"
  · exact aux _ _ _ (opValue_like op v h1) h1 (by decide) (by decide) (by decide)
  by_cases h2 : ToLower op = "not like"
  · exact aux _ _ _ (opValue_not_like op v h2) h2 (by decide) (by decide) (by decide)
  by_cases h3 : ToLower op = "regexp"
  · exact aux _ _ _ (opValue_regexp op v h3) h3 (by decide) (by decide) (by decide)
  by_cases h4 : ToLower op = "not regexp"
  · exact aux _ _ _ (opValue_not_regexp op v h4) h4 (by decide) (by decide) (by decide)
  rw [opValue_other op v h1 h2 h3 h4]

/-- One element of the value list of a MAC tag that parses as a MAC. -/
theorem macElement_some (x : String)
    (h : (net.ParseMAC (Trim (TrimSpace x) "'")).isSome = true) :
    macElement x = .ok ("'" ++
      strconv.Itoa (utils.Mac2Uint64 ((net.ParseMAC (Trim (TrimSpace x) "'")).getD [])) ++
      "'") := by
  cases hm : net.ParseMAC (Trim (TrimSpace x) "'") with
  | none => rw [hm] at h; cases h
  | some mac =>
    unfold macElement
    simp only [hm, Option.getD_some]
    rfl

/-- One element of the value list of a MAC tag that does not parse as a MAC. -/
theorem macElement_none (x : String) (h : net.ParseMAC (Trim (TrimSpace x) "'") = none) :
    macElement x = .error (Err.invalidMAC (Trim (TrimSpace x) "'")) := by
  unfold macElement
  simp only [h]

/-- Result of `WhereTag.Trans` on a MAC tag without descriptor, written as such or
reached through an alias. -/
theorem Trans_mac (env : Env) (t : WhereTag) (op0 originFilter : String)
    (e : CHEngine) (store : Store)
    (hreg : env.GetTag (Trim t.Tag "`") e.DB e.Table "default" = none)
    (hpath : (e.AsTagMap t.Tag = none ∧ isMacTag t.Tag = true) ∨
      ∃ preAsTag, e.AsTagMap t.Tag = some preAsTag ∧
        env.GetTag (Trim preAsTag "`") e.DB e.Table "default" = none ∧
        isMacTag preAsTag = true) :
    (WhereTag.Trans env t op0 originFilter e store).node =
      match forEach macElement (valueSlice (opValue op0 t.Value).2) with
      | .error err => .error err
      | .ok macs => .ok (Node.Expr (listFilter t.Tag (opValue op0 t.Value).1 macs)) := by
  rcases hpath with ⟨halias, hmac⟩ | ⟨preAsTag, halias, hpre, hmac⟩
  · unfold WhereTag.Trans
    simp only [hreg, halias]
    unfold unresolved
    simp only [hmac, if_true]
    unfold macFilter
    cases forEach macElement (valueSlice (opValue op0 t.Value).2) <;> rfl
  · unfold WhereTag.Trans
    simp only [hreg, halias, hpre]
    unfold unresolved
    simp only [hmac, if_true]
    unfold macFilter
    cases forEach macElement (valueSlice (opValue op0 t.Value).2) <;> rfl

/-- C35: for a tag without descriptor that is one of the six MAC tags, or an alias of
one without descriptor, `WhereTag.Trans` returns an error and no node if and only
if some element of the value list, spaces and single quotes trimmed, does not
parse as a MAC; when every element parses, the predicate is `<tag> <op> <list>`, the
tag as written and the operator as rewritten, where the list has for every
element, in the order of the elements, the decimal text of the integer of its
MAC in single quotes, separated by commas, in parentheses exactly when the
operator is `in` or `not in` without regard to case. -/
theorem C35_mac_list (env : Env) (t : WhereTag) (op0 originFilter : String)
    (e : CHEngine) (store : Store)
    (hreg : env.GetTag (Trim t.Tag "`") e.DB e.Table "default" = none)
    (hpath : (e.AsTagMap t.Tag = none ∧ isMacTag t.Tag = true) ∨
      ∃ preAsTag, e.AsTagMap t.Tag = some preAsTag ∧
        env.GetTag (Trim preAsTag "`") e.DB e.Table "default" = none ∧
        isMacTag preAsTag = true) :
    ((∃ err, (WhereTag.Trans env t op0 originFilter e store).node = .error err) ↔
      ∃ x, x ∈ valueSlice (opValue op0 t.Value).2 ∧
        net.ParseMAC (Trim (TrimSpace x) "'") = none) ∧
    ((∀ x, x ∈ valueSlice (opValue op0 t.Value).2 →
        (net.ParseMAC (Trim (TrimSpace x) "'")).isSome = true) →
      (WhereTag.Trans env t op0 originFilter e store).node =
        .ok (Node.Expr (t.Tag ++ " " ++ (opValue op0 t.Value).1 ++ " " ++
          (if ToLower (opValue op0 t.Value).1 = "in" ∨
              ToLower (opValue op0 t.Value).1 = "not in" then
            "(" ++ Join ((valueSlice (opValue op0 t.Value).2).map (fun x => "'" ++
              strconv.Itoa (utils.Mac2Uint64
                ((net.ParseMAC (Trim (TrimSpace x) "'")).getD [])) ++ "'")) "," ++ ")"
           else Join ((valueSlice (opValue op0 t.Value).2).map (fun x => "'" ++
              strconv.Itoa (utils.Mac2Uint64
                ((net.ParseMAC (Trim (TrimSpace x) "'")).getD [])) ++ "'")) ",")))) ∧
    ((valueSlice (opValue op0 t.Value).2).map (fun x => "'" ++
        strconv.Itoa (utils.Mac2Uint64
          ((net.ParseMAC (Trim (TrimSpace x) "'")).getD [])) ++ "'")).length =
      (valueSlice (opValue op0 t.Value).2).length ∧
    ((ToLower (opValue op0 t.Value).1 = "in" ∨ ToLower (opValue op0 t.Value).1 = "not in") ↔
      (ToLower op0 = "in" ∨ ToLower op0 = "not in")) := by
  have hT := Trans_mac env t op0 originFilter e store hreg hpath
  have hok : (∀ x, x ∈ valueSlice (opValue op0 t.Value).2 →
        (net.ParseMAC (Trim (TrimSpace x) "'")).isSome = true) →
      (WhereTag.Trans env t op0 originFilter e store).node =
        .ok (Node.Expr (listFilter t.Tag (opValue op0 t.Value).1
          ((valueSlice (opValue op0 t.Value).2).map (fun x => "'" ++
            strconv.Itoa (utils.Mac2Uint64
              ((net.ParseMAC (Trim (TrimSpace x) "'")).getD [])) ++ "'")))) := by
    intro hall
    rw [hT, forEach_ok macElement _ _ (fun x hx => macElement_some x (hall x hx))]
  refine ⟨⟨fun herr => ?_, fun hex => ?_⟩, fun hall => ?_, List.length_map _ _,
    opValue_in_or_not_in op0 t.Value⟩
  · by_contra hno
    have hall : ∀ x, x ∈ valueSlice (opValue op0 t.Value).2 →
        (net.ParseMAC (Trim (TrimSpace x) "'")).isSome = true := by
      intro x hx
      cases hm : net.ParseMAC (Trim (TrimSpace x) "'") with
      | none => exact absurd ⟨x, hx, hm⟩ hno
      | some mac => rfl
    obtain ⟨err, herr⟩ := herr
    rw [hok hall] at herr
    cases herr
  · obtain ⟨x, hx, hm⟩ := hex
    obtain ⟨y, _, err, _, hall⟩ := forEach_fails macElement _ ⟨x, hx, _, macElement_none x hm⟩
    exact ⟨err, by rw [hT, hall]⟩
  · rw [hok hall, listFilter_eq]
    intro h0
    exact valueSlice_ne_nil _ (List.map_eq_nil_iff.mp h0)

/-- Witness of C35: a list of two MAC literals under `in`. -/
theorem C35_mac_list_witness :
    (WhereTag.Trans sampleEnv ⟨"mac_0", "('00:00:5e:00:53:01', 00:00:5e:00:53:02)"⟩ "in"
      "mac_0 in ('00:00:5e:00:53:01', 00:00:5e:00:53:02)" sampleEngine sampleStore).node =
      .ok (Node.Expr "mac_0 in ('1577079553','1577079554')") :=
  (C35_mac_list sampleEnv ⟨"mac_0", "('00:00:5e:00:53:01', 00:00:5e:00:53:02)"⟩ "in"
    "mac_0 in ('00:00:5e:00:53:01', 00:00:5e:00:53:02)" sampleEngine sampleStore (by decide)
    (Or.inl ⟨rfl, by decide⟩)).2.1 (by decide)

/-! ## Family names without descriptor -/

/-- Of two texts none of which starts with the other, at most one is at the front of
a text. -/
theorem HasPrefix_exclusive (s p q : String) (hp : HasPrefix s p = true)
    (hqp : HasPrefix q p = false) (hpq : HasPrefix p q = false) : HasPrefix s q = false := by
  cases hq : HasPrefix s q with
  | false => rfl
  | true =>
    exfalso
    unfold HasPrefix at *
    rw [List.isPrefixOf_iff_prefix] at hp hq
    rcases List.prefix_or_prefix_of_prefix hp hq with h | h
    · rw [← List.isPrefixOf_iff_prefix, hqp] at h
      cases h
    · rw [← List.isPrefixOf_iff_prefix, hpq] at h
      cases h

set_option maxRecDepth 100000 in
/-- No family prefix starts with another one. -/
theorem familyPrefixes_exclusive :
    ∀ p, p ∈ familyPrefixes → ∀ q, q ∈ familyPrefixes → p ≠ q →
      HasPrefix q p = false ∧ HasPrefix p q = false := by
  decide

/-- A name that starts with a family prefix starts with no other one. -/
theorem family_prefix_unique (s p q : String) (hp : p ∈ familyPrefixes)
    (hq : q ∈ familyPrefixes) (hne : p ≠ q) (h : HasPrefix s p = true) :
    HasPrefix s q = false :=
  HasPrefix_exclusive s p q h (familyPrefixes_exclusive p hp q hq hne).1
    (familyPrefixes_exclusive p hp q hq hne).2

set_option maxRecDepth 100000 in
/-- None of the MAC tags nor `tap_port` starts with a family prefix. -/
theorem mac_names_no_family :
    ∀ m, m ∈ ["mac_0", "mac_1", "tunnel_tx_mac_0", "tunnel_tx_mac_1", "tunnel_rx_mac_0",
        "tunnel_rx_mac_1", "tap_port"] →
      ∀ p, p ∈ familyPrefixes → HasPrefix (Trim m "`") p = false := by
  decide

/-- A name that starts with a family prefix after the back-quotes are trimmed is neither
a MAC tag nor `tap_port`. -/
theorem family_not_mac (tag p : String) (hp : p ∈ familyPrefixes)
    (hpre : HasPrefix (Trim tag "`") p = true) :
    isMacTag tag = false ∧ tag ≠ "tap_port" := by
  constructor
  · cases hmac : isMacTag tag with
    | false => rfl
    | true =>
      exfalso
      simp only [isMacTag, Bool.or_eq_true, decide_eq_true_eq] at hmac
      have hm : tag ∈ ["mac_0", "mac_1", "tunnel_tx_mac_0", "tunnel_tx_mac_1",
          "tunnel_rx_mac_0", "tunnel_rx_mac_1", "tap_port"] := by
        simp only [List.mem_cons, List.mem_singleton, List.not_mem_nil, or_false]
        tauto
      rw [mac_names_no_family tag hm p hp] at hpre
      cases hpre
  · intro h
    rw [mac_names_no_family tag (by rw [h]; decide) p hp] at hpre
    cases hpre

/-- The family dispatch falls through when the descriptor of the family of the name is
not registered; for `tag.` this is outside a remote read and the Prometheus
database. -/
theorem familyFilter_unregistered (env : Env) (t : WhereTag) (op originFilter : String)
    (e : CHEngine) (store : Store) (isRemoteRead : Bool) (name0 : String)
    (h : (HasPrefix (Trim name0 "`") "k8s.label." = true ∧
          roleTag env e.DB e.Table (Trim name0 "`") "k8s_label" = none) ∨
        (HasPrefix (Trim name0 "`") "k8s.annotation." = true ∧
          roleTag env e.DB e.Table (Trim name0 "`") "k8s_annotation" = none) ∨
        (HasPrefix (Trim name0 "`") "k8s.env." = true ∧
          roleTag env e.DB e.Table (Trim name0 "`") "k8s_env" = none) ∨
        (HasPrefix (Trim name0 "`") "cloud.tag." = true ∧
          roleTag env e.DB e.Table (Trim name0 "`") "cloud_tag" = none) ∨
        (HasPrefix (Trim name0 "`") "os.app." = true ∧
          roleTag env e.DB e.Table (Trim name0 "`") "os_app" = none) ∨
        (HasPrefix (Trim name0 "`") "tag." = true ∧ isRemoteRead = false ∧
          e.DB ≠ env.DB_NAME_PROMETHEUS ∧ env.GetTag "tag." e.DB e.Table "default" = none) ∨
        (HasPrefix (Trim name0 "`") "attribute." = true ∧
          env.GetTag "attribute." e.DB e.Table "default" = none) ∨
        (HasPrefix (Trim name0 "`") "Enum(" = true ∧
          env.GetTag (TrimSuffix (TrimPrefix (Trim name0 "`") "Enum(") ")") e.DB e.Table
            "enum" = none)) :
    familyFilter env t op originFilter e store isRemoteRead name0 true = none := by
  have hu := fun (p q : String) (hp : p ∈ familyPrefixes) (hq : q ∈ familyPrefixes)
    (hne : p ≠ q) (hpre : HasPrefix (Trim name0 "`") p = true) =>
    family_prefix_unique (Trim name0 "`") p q hp hq hne hpre
  rcases h with ⟨hp, hd⟩ | ⟨hp, hd⟩ | ⟨hp, hd⟩ | ⟨hp, hd⟩ | ⟨hp, hd⟩ | ⟨hp, hrr, hdb, hd⟩ |
    ⟨hp, hd⟩ | ⟨hp, hd⟩
  · unfold familyFilter
    simp only [hp, hd, if_true, Option.map_none']
  · have h1 := hu _ "k8s.label." (by decide) (by decide) (by decide) hp
    unfold familyFilter
    simp only [h1, hp, hd, if_true, if_false, Bool.false_eq_true, Option.map_none']
  · have h1 := hu _ "k8s.label." (by decide) (by decide) (by decide) hp
    have h2 := hu _ "k8s.annotation." (by decide) (by decide) (by decide) hp
    unfold familyFilter
    simp only [h1, h2, hp, hd, if_true, if_false, Bool.false_eq_true, Option.map_none']
  · have h1 := hu _ "k8s.label." (by decide) (by decide) (by decide) hp
    have h2 := hu _ "k8s.annotation." (by decide) (by decide) (by decide) hp
    have h3 := hu _ "k8s.env." (by decide) (by decide) (by decide) hp
    unfold familyFilter
    simp only [h1, h2, h3, hp, hd, if_true, if_false, Bool.false_eq_true, Option.map_none']
  · have h1 := hu _ "k8s.label." (by decide) (by decide) (by decide) hp
    have h2 := hu _ "k8s.annotation." (by decide) (by decide) (by decide) hp
    have h3 := hu _ "k8s.env." (by decide) (by decide) (by decide) hp
    have h4 := hu _ "cloud.tag." (by decide) (by decide) (by decide) hp
    unfold familyFilter
    simp only [h1, h2, h3, h4, hp, hd, if_true, if_false, Bool.false_eq_true,
      Option.map_none']
  · have h1 := hu _ "k8s.label." (by decide) (by decide) (by decide) hp
    have h2 := hu _ "k8s.annotation." (by decide) (by decide) (by decide) hp
    have h3 := hu _ "k8s.env." (by decide) (by decide) (by decide) hp
    have h4 := hu _ "cloud.tag." (by decide) (by decide) (by decide) hp
    have h5 := hu _ "os.app." (by decide) (by decide) (by decide) hp
    unfold familyFilter
    simp only [h1, h2, h3, h4, h5, hp, hrr, hdb, hd, if_true, if_false, Bool.false_eq_true,
      true_or, Option.map_none']
  · have h1 := hu _ "k8s.label." (by decide) (by decide) (by decide) hp
    have h2 := hu _ "k8s.annotation." (by decide) (by decide) (by decide) hp
    have h3 := hu _ "k8s.env." (by decide) (by decide) (by decide) hp
    have h4 := hu _ "cloud.tag." (by decide) (by decide) (by decide) hp
    have h5 := hu _ "os.app." (by decide) (by decide) (by decide) hp
    have h6 := hu _ "tag." (by decide) (by decide) (by decide) hp
    unfold familyFilter
    simp only [h1, h2, h3, h4, h5, h6, hp, hd, if_true, if_false, Bool.false_eq_true,
      or_true, Option.map_none']
  · have h1 := hu _ "k8s.label." (by decide) (by decide) (by decide) hp
    have h2 := hu _ "k8s.annotation." (by decide) (by decide) (by decide) hp
    have h3 := hu _ "k8s.env." (by decide) (by decide) (by decide) hp
    have h4 := hu _ "cloud.tag." (by decide) (by decide) (by decide) hp
    have h5 := hu _ "os.app." (by decide) (by decide) (by decide) hp
    have h6 := hu _ "tag." (by decide) (by decide) (by decide) hp
    have h7 := hu _ "attribute." (by decide) (by decide) (by decide) hp
    unfold familyFilter
    simp only [h1, h2, h3, h4, h5, h6, h7, hp, hd, if_true, if_false, Bool.false_eq_true,
      or_self, true_and, Option.map_none']

/-! ## `TransWhereTagFunction`: the families -/

set_option maxRecDepth 100000 in
/-- The filter of `exist` on a label, written out. -/
theorem Sprintf_exist_label (a k b : String) :
    Sprintf "((toUInt64(%s) IN (SELECT id FROM flow_tag.pod_service_k8s_label_map WHERE key='%s')) OR (toUInt64(%s) IN (SELECT id FROM flow_tag.pod_k8s_label_map WHERE key='%s')))"
        [.str a, .str k, .str b, .str k] =
      "((toUInt64(" ++ a ++
        ") IN (SELECT id FROM flow_tag.pod_service_k8s_label_map WHERE key='" ++ k ++
        "')) OR (toUInt64(" ++ b ++
        ") IN (SELECT id FROM flow_tag.pod_k8s_label_map WHERE key='" ++ k ++ "')))" := by
  apply String.ext
  simp [Sprintf, sprintfAux, verb, extra]

set_option maxRecDepth 100000 in
/-- The filter of `exist` on an annotation, written out. -/
theorem Sprintf_exist_annotation (a k b : String) :
    Sprintf "((toUInt64(%s) IN (SELECT id FROM flow_tag.pod_service_k8s_annotation_map WHERE key='%s')) OR (toUInt64(%s) IN (SELECT id FROM flow_tag.pod_k8s_annotation_map WHERE key='%s')))"
        [.str a, .str k, .str b, .str k] =
      "((toUInt64(" ++ a ++
        ") IN (SELECT id FROM flow_tag.pod_service_k8s_annotation_map WHERE key='" ++ k ++
        "')) OR (toUInt64(" ++ b ++
        ") IN (SELECT id FROM flow_tag.pod_k8s_annotation_map WHERE key='" ++ k ++ "')))" := by
  apply String.ext
  simp [Sprintf, sprintfAux, verb, extra]

set_option maxRecDepth 100000 in
/-- The filter of `exist` on an environment variable, written out. -/
theorem Sprintf_exist_env (a k : String) :
    Sprintf "toUInt64(%s) IN (SELECT id FROM flow_tag.pod_k8s_env_map WHERE key='%s')"
        [.str a, .str k] =
      "toUInt64(" ++ a ++ ") IN (SELECT id FROM flow_tag.pod_k8s_env_map WHERE key='" ++ k ++
        "')" := by
  apply String.ext
  simp [Sprintf, sprintfAux, verb, extra]

set_option maxRecDepth 100000 in
/-- The filter of `exist` on a cloud tag, written out. -/
theorem Sprintf_exist_cloud (a k b c : String) :
    Sprintf "((toUInt64(%s) IN (SELECT id FROM flow_tag.chost_cloud_tag_map WHERE key='%s') AND %s=1) OR (toUInt64(%s) IN (SELECT id FROM flow_tag.pod_ns_cloud_tag_map WHERE key='%s')))"
        [.str a, .str k, .str b, .str c, .str k] =
      "((toUInt64(" ++ a ++
        ") IN (SELECT id FROM flow_tag.chost_cloud_tag_map WHERE key='" ++ k ++ "') AND " ++
        b ++ "=1) OR (toUInt64(" ++ c ++
        ") IN (SELECT id FROM flow_tag.pod_ns_cloud_tag_map WHERE key='" ++ k ++ "')))" := by
  apply String.ext
  simp [Sprintf, sprintfAux, verb, extra]

set_option maxRecDepth 100000 in
/-- The filter of `exist` on a tag of a process, written out. -/
theorem Sprintf_exist_os_app (a k : String) :
    Sprintf "toUInt64(%s) IN (SELECT pid FROM flow_tag.os_app_tag_map WHERE key='%s')"
        [.str a, .str k] =
      "toUInt64(" ++ a ++ ") IN (SELECT pid FROM flow_tag.os_app_tag_map WHERE key='" ++ k ++
        "')" := by
  apply String.ext
  simp [Sprintf, sprintfAux, verb, extra]

set_option maxRecDepth 100000 in
/-- C36, the code at the failing input: `exist(k8s.label.App_0)` asks for the key `app`, since the
argument is lower-cased as a whole before the key is cut out, where the filter
`k8s.label.App_0 = 'x'` that `WhereTag.Trans` compiles for the same tag asks for the key
`App`; the columns carry the role suffix `_0` in both.  The same holds without role
suffix. -/
theorem C36_exist_key_case :
    sampleEnv.DEVICE_MAP "k8s.label.app" = none ∧
    TransWhereTagFunction sampleEnv "exist" ["k8s.label.App_0"] =
      "((toUInt64(service_id_0) IN (SELECT id FROM flow_tag.pod_service_k8s_label_map WHERE key='app')) OR (toUInt64(pod_id_0) IN (SELECT id FROM flow_tag.pod_k8s_label_map WHERE key='app')))" ∧
    TransWhereTagFunction sampleEnv "exist" ["k8s.label.App"] =
      "((toUInt64(service_id) IN (SELECT id FROM flow_tag.pod_service_k8s_label_map WHERE key='app')) OR (toUInt64(pod_id) IN (SELECT id FROM flow_tag.pod_k8s_label_map WHERE key='app')))" ∧
    (WhereTag.Trans sampleEnv ⟨"k8s.label.App_0", "'x'"⟩ "=" "k8s.label.App_0 = 'x'" sampleEngine
      sampleStore).node =
      .ok (Node.Expr "(toUInt64(service_id_0) IN (SELECT id FROM flow_tag.pod_service_k8s_label_map WHERE value = 'x' and key='App')) OR (toUInt64(pod_id_0) IN (SELECT id FROM flow_tag.pod_k8s_label_map WHERE value = 'x' and key='App'))") :=
  ⟨by decide, by decide, by decide, rfl⟩

/-- The name of a family tag in the role `_0` without its role suffix, for a key that does
not end with `_1`. -/
theorem roleName_0 (family key : String) (c : Char) (rest : List Char)
    (hfam : family.data.reverse = c :: rest) (h1 : c ≠ '_') (h2 : c ≠ '1')
    (hkey : HasSuffix key "_1" = false) :
    TrimSuffix (TrimSuffix (family ++ key ++ "_0") "_0") "_1" = family ++ key := by
  rw [TrimSuffix_append]
  have h : HasSuffix (family ++ key) "_1" = false := by
    rw [HasSuffix_behind family key "_1" '_' '1' c rest rfl hfam h1 h2, hkey]
  rw [TrimSuffix_of_not _ _ h]

/-- The name of a family tag in the role `_1` without its role suffix. -/
theorem roleName_1 (family key : String) :
    TrimSuffix (TrimSuffix (family ++ key ++ "_1") "_0") "_1" = family ++ key := by
  rw [TrimSuffix_of_not _ _ (HasSuffix_1_not_0 _), TrimSuffix_append]

/-- A family name that ends with no role suffix, for a key that ends with none. -/
theorem roleName_none (family key : String) (c : Char) (rest : List Char)
    (hfam : family.data.reverse = c :: rest) (h0 : c ≠ '0') (h1 : c ≠ '_') (h2 : c ≠ '1')
    (hkey0 : HasSuffix key "_0" = false) (hkey1 : HasSuffix key "_1" = false) :
    HasSuffix (family ++ key) "_0" = false ∧ HasSuffix (family ++ key) "_1" = false ∧
      TrimSuffix (TrimSuffix (family ++ key) "_0") "_1" = family ++ key := by
  have ha : HasSuffix (family ++ key) "_0" = false := by
    rw [HasSuffix_behind family key "_0" '_' '0' c rest rfl hfam h1 h0, hkey0]
  have hb : HasSuffix (family ++ key) "_1" = false := by
    rw [HasSuffix_behind family key "_1" '_' '1' c rest rfl hfam h1 h2, hkey1]
  exact ⟨ha, hb, by rw [TrimSuffix_of_not _ _ ha, TrimSuffix_of_not _ _ hb]⟩

/-- The five family prefixes of `exist` end with a full stop. -/
theorem exist_family_dot (family : String)
    (h : family ∈ ["k8s.label.", "k8s.annotation.", "k8s.env.", "cloud.tag.", "os.app."]) :
    ∃ rest, family.data.reverse = '.' :: rest := by
  simp only [List.mem_cons, List.mem_singleton, List.not_mem_nil, or_false] at h
  rcases h with rfl | rfl | rfl | rfl | rfl <;> exact ⟨_, rfl⟩

/-- Result of `exist` on one argument whose name r (back-quotes trimmed, lower-cased), the role
suffixes and a trailing `_id` trimmed, is no key of the device-type map, with s the
role suffix of r and n the name r without role suffixes: a name n that starts
with `k8s.label.` or `k8s.annotation.` gives the OR of a membership subquery on
`service_id<s>` and one on `pod_id<s>`, `k8s.env.` a single subquery on `pod_id<s>`, `cloud.tag.`
the subquery on `l3_device_id<s>` AND `l3_device_type<s>=1`, OR the subquery on
`pod_ns_id<s>`, and `os.app.` a single subquery on `gprocess_id<s>`, each with the key that
follows the family prefix in n.  For r of the form `<family><key><s>` that key is
`<key>` and the suffix of the columns is s, when `<key>` does not end with `_1` under
the role `_0` and ends with no role suffix under the empty role. -/
theorem exist_family (env : Env) (name arg r s n : String)
    (hname : ToLower name = "exist")
    (hr : r = ToLower (Trim arg "`"))
    (hs : s = if HasSuffix r "_0" then "_0" else if HasSuffix r "_1" then "_1" else "")
    (hn : n = TrimSuffix (TrimSuffix r "_0") "_1")
    (hdev : env.DEVICE_MAP (TrimSuffix n "_id") = none) :
    (HasPrefix n "k8s.label." = true →
      TransWhereTagFunction env name [arg] =
        "((toUInt64(" ++ ("service_id" ++ s) ++
          ") IN (SELECT id FROM flow_tag.pod_service_k8s_label_map WHERE key='" ++
          TrimPrefix n "k8s.label." ++ "')) OR (toUInt64(" ++ ("pod_id" ++ s) ++
          ") IN (SELECT id FROM flow_tag.pod_k8s_label_map WHERE key='" ++
          TrimPrefix n "k8s.label." ++ "')))") ∧
    (HasPrefix n "k8s.annotation." = true →
      TransWhereTagFunction env name [arg] =
        "((toUInt64(" ++ ("service_id" ++ s) ++
          ") IN (SELECT id FROM flow_tag.pod_service_k8s_annotation_map WHERE key='" ++
          TrimPrefix n "k8s.annotation." ++ "')) OR (toUInt64(" ++ ("pod_id" ++ s) ++
          ") IN (SELECT id FROM flow_tag.pod_k8s_annotation_map WHERE key='" ++
          TrimPrefix n "k8s.annotation." ++ "')))") ∧
    (HasPrefix n "k8s.env." = true →
      TransWhereTagFunction env name [arg] =
        "toUInt64(" ++ ("pod_id" ++ s) ++
          ") IN (SELECT id FROM flow_tag.pod_k8s_env_map WHERE key='" ++
          TrimPrefix n "k8s.env." ++ "')") ∧
    (HasPrefix n "cloud.tag." = true →
      TransWhereTagFunction env name [arg] =
        "((toUInt64(" ++ ("l3_device_id" ++ s) ++
          ") IN (SELECT id FROM flow_tag.chost_cloud_tag_map WHERE key='" ++
          TrimPrefix n "cloud.tag." ++ "') AND " ++ ("l3_device_type" ++ s) ++
          "=1) OR (toUInt64(" ++ ("pod_ns_id" ++ s) ++
          ") IN (SELECT id FROM flow_tag.pod_ns_cloud_tag_map WHERE key='" ++
          TrimPrefix n "cloud.tag." ++ "')))") ∧
    (HasPrefix n "os.app." = true →
      TransWhereTagFunction env name [arg] =
        "toUInt64(" ++ ("gprocess_id" ++ s) ++
          ") IN (SELECT pid FROM flow_tag.os_app_tag_map WHERE key='" ++
          TrimPrefix n "os.app." ++ "')") ∧
    (∀ family, family ∈ ["k8s.label.", "k8s.annotation.", "k8s.env.", "cloud.tag.", "os.app."] →
      ∀ key,
        (r = family ++ key ++ "_0" → HasSuffix key "_1" = false →
          s = "_0" ∧ HasPrefix n family = true ∧ TrimPrefix n family = key) ∧
        (r = family ++ key ++ "_1" →
          s = "_1" ∧ HasPrefix n family = true ∧ TrimPrefix n family = key) ∧
        (r = family ++ key → HasSuffix key "_0" = false → HasSuffix key "_1" = false →
          s = "" ∧ HasPrefix n family = true ∧ TrimPrefix n family = key)) := by
  have hu := fun (p q : String) (hp : p ∈ familyPrefixes) (hq : q ∈ familyPrefixes)
    (hne : p ≠ q) (hpre : HasPrefix n p = true) => family_prefix_unique n p q hp hq hne hpre
  subst hr hs hn
  refine ⟨fun hp => ?_, fun hp => ?_, fun hp => ?_, fun hp => ?_, fun hp => ?_,
    fun family hfam key => ⟨fun hform hkey => ?_, fun hform => ?_, fun hform hkey0 hkey1 => ?_⟩⟩
  · unfold TransWhereTagFunction
    simp only [hname, if_true, hdev, hp, Sprintf_exist_label]
  · have h1 := hu _ "k8s.label." (by decide) (by decide) (by decide) hp
    unfold TransWhereTagFunction
    simp only [hname, if_true, if_false, Bool.false_eq_true, hdev, h1, hp,
      Sprintf_exist_annotation]
  · have h1 := hu _ "k8s.label." (by decide) (by decide) (by decide) hp
    have h2 := hu _ "k8s.annotation." (by decide) (by decide) (by decide) hp
    unfold TransWhereTagFunction
    simp only [hname, if_true, if_false, Bool.false_eq_true, hdev, h1, h2, hp,
      Sprintf_exist_env]
  · have h1 := hu _ "k8s.label." (by decide) (by decide) (by decide) hp
    have h2 := hu _ "k8s.annotation." (by decide) (by decide) (by decide) hp
    have h3 := hu _ "k8s.env." (by decide) (by decide) (by decide) hp
    unfold TransWhereTagFunction
    simp only [hname, if_true, if_false, Bool.false_eq_true, hdev, h1, h2, h3, hp,
      Sprintf_exist_cloud]
  · have h1 := hu _ "k8s.label." (by decide) (by decide) (by decide) hp
    have h2 := hu _ "k8s.annotation." (by decide) (by decide) (by decide) hp
    have h3 := hu _ "k8s.env." (by decide) (by decide) (by decide) hp
    have h4 := hu _ "cloud.tag." (by decide) (by decide) (by decide) hp
    unfold TransWhereTagFunction
    simp only [hname, if_true, if_false, Bool.false_eq_true, hdev, h1, h2, h3, h4, hp,
      Sprintf_exist_os_app]
  · obtain ⟨rest, hdot⟩ := exist_family_dot family hfam
    rw [hform, roleName_0 family key '.' rest hdot (by decide) (by decide) hkey,
      HasSuffix_append, if_pos rfl, HasPrefix_append, TrimPrefix_append]
    exact ⟨rfl, rfl, rfl⟩
  · rw [hform, roleName_1, HasSuffix_1_not_0, if_neg (by decide), HasSuffix_append, if_pos rfl,
      HasPrefix_append, TrimPrefix_append]
    exact ⟨rfl, rfl, rfl⟩
  · obtain ⟨rest, hdot⟩ := exist_family_dot family hfam
    obtain ⟨ha, hb, hc⟩ := roleName_none family key '.' rest hdot (by decide) (by decide)
      (by decide) hkey0 hkey1
    rw [hform, hc, ha, hb, if_neg (by decide), if_neg (by decide), HasPrefix_append,
      TrimPrefix_append]
    exact ⟨rfl, rfl, rfl⟩

/-! ## The pass-through of names without usable descriptor -/

/-- C37, the claim as stated fails: with no descriptor registered at all, the tag `tag.job` on the
Prometheus database is handed to `GetPrometheusFilter` before any descriptor is
looked up, and the error of its registry is returned, not the pass-through
predicate. -/
theorem C37_family_fallback_counterexample :
    ({ sampleEnv with GetTag := fun _ _ _ _ => none } : Env).GetTag "tag." "prometheus" "up"
      "default" = none ∧
    HasPrefix (Trim "tag.job" "`") "tag." = true ∧
    (WhereTag.Trans { sampleEnv with GetTag := fun _ _ _ _ => none } ⟨"tag.job", "'a'"⟩ "="
      "tag.job = 'a'" ⟨fun _ => none, "prometheus", "up", none, []⟩ sampleStore).node =
      .error (Err.notFound "up") :=
  ⟨rfl, by decide, rfl⟩

/-- C37 amended: `WhereTag.Trans` returns without error the pass-through predicate, `<tag> <op> <value>`
or `<op>(<tag>,<value>)` when the rewritten operator contains `match`, with the tag as
written, when the tag, or the target of its alias, has a descriptor whose
`WhereTranslator` is empty, and when the tag has no descriptor and is no alias, its
name starts with a family prefix and the descriptor of the family is not
registered; for the family `tag.` the latter holds outside a remote read and the
Prometheus database, where the tag is handed to `GetRemoteReadFilter` or
`GetPrometheusFilter` without a look at the descriptor. -/
theorem C37_family_fallback_amended (env : Env) (t : WhereTag) (op0 originFilter : String)
    (e : CHEngine) (store : Store) :
    (∀ tagItem, env.GetTag (Trim t.Tag "`") e.DB e.Table "default" = some tagItem →
      tagItem.WhereTranslator = "" →
      (WhereTag.Trans env t op0 originFilter e store).node =
        .ok (Node.Expr (passThrough t.Tag (opValue op0 t.Value).1 (opValue op0 t.Value).2))) ∧
    (∀ preAsTag tagItem, env.GetTag (Trim t.Tag "`") e.DB e.Table "default" = none →
      e.AsTagMap t.Tag = some preAsTag →
      env.GetTag (Trim preAsTag "`") e.DB e.Table "default" = some tagItem →
      tagItem.WhereTranslator = "" →
      (WhereTag.Trans env t op0 originFilter e store).node =
        .ok (Node.Expr (passThrough t.Tag (opValue op0 t.Value).1 (opValue op0 t.Value).2))) ∧
    (env.GetTag (Trim t.Tag "`") e.DB e.Table "default" = none → e.AsTagMap t.Tag = none →
      ((HasPrefix (Trim t.Tag "`") "k8s.label." = true ∧
          roleTag env e.DB e.Table (Trim t.Tag "`") "k8s_label" = none) ∨
        (HasPrefix (Trim t.Tag "`") "k8s.annotation." = true ∧
          roleTag env e.DB e.Table (Trim t.Tag "`") "k8s_annotation" = none) ∨
        (HasPrefix (Trim t.Tag "`") "k8s.env." = true ∧
          roleTag env e.DB e.Table (Trim t.Tag "`") "k8s_env" = none) ∨
        (HasPrefix (Trim t.Tag "`") "cloud.tag." = true ∧
          roleTag env e.DB e.Table (Trim t.Tag "`") "cloud_tag" = none) ∨
        (HasPrefix (Trim t.Tag "`") "os.app." = true ∧
          roleTag env e.DB e.Table (Trim t.Tag "`") "os_app" = none) ∨
        (HasPrefix (Trim t.Tag "`") "tag." = true ∧ e.remote_read.getD false = false ∧
          e.DB ≠ env.DB_NAME_PROMETHEUS ∧ env.GetTag "tag." e.DB e.Table "default" = none) ∨
        (HasPrefix (Trim t.Tag "`") "attribute." = true ∧
          env.GetTag "attribute." e.DB e.Table "default" = none) ∨
        (HasPrefix (Trim t.Tag "`") "Enum(" = true ∧
          env.GetTag (TrimSuffix (TrimPrefix (Trim t.Tag "`") "Enum(") ")") e.DB e.Table
            "enum" = none)) →
      (WhereTag.Trans env t op0 originFilter e store).node =
        .ok (Node.Expr (passThrough t.Tag (opValue op0 t.Value).1 (opValue op0 t.Value).2))) ∧
    passThrough t.Tag (opValue op0 t.Value).1 (opValue op0 t.Value).2 =
      (if Contains (opValue op0 t.Value).1 "match" = true then
        (opValue op0 t.Value).1 ++ "(" ++ t.Tag ++ "," ++ (opValue op0 t.Value).2 ++ ")"
       else t.Tag ++ " " ++ (opValue op0 t.Value).1 ++ " " ++ (opValue op0 t.Value).2) := by
  refine ⟨fun tagItem hreg hT => ?_, fun preAsTag tagItem hreg halias hpre hT => ?_,
    fun hreg halias hfam => ?_, passThrough_eq _ _ _⟩
  · unfold WhereTag.Trans
    simp only [hreg]
    unfold resolved
    simp only [hT, ne_eq, not_true_eq_false, if_false]
  · unfold WhereTag.Trans
    simp only [hreg, halias, hpre]
    unfold resolved
    simp only [hT, ne_eq, not_true_eq_false, if_false]
  · have hpre : ∃ p, p ∈ familyPrefixes ∧ HasPrefix (Trim t.Tag "`") p = true := by
      rcases hfam with h | h | h | h | h | h | h | h
      · exact ⟨_, by decide, h.1⟩
      · exact ⟨_, by decide, h.1⟩
      · exact ⟨_, by decide, h.1⟩
      · exact ⟨_, by decide, h.1⟩
      · exact ⟨_, by decide, h.1⟩
      · exact ⟨_, by decide, h.1⟩
      · exact ⟨_, by decide, h.1⟩
      · exact ⟨_, by decide, h.1⟩
    obtain ⟨p, hp, hpp⟩ := hpre
    have hmac := family_not_mac t.Tag p hp hpp
    unfold WhereTag.Trans
    simp only [hreg, halias]
    unfold unresolved
    simp only [hmac.1, hmac.2, if_false, Bool.false_eq_true]
    rw [familyFilter_unregistered env _ _ originFilter e store _ t.Tag hfam]

/-- Witness of C37 amended: the label `app` in the role `_1`, whose descriptor `k8s_label_1` is not
registered. -/
theorem C37_family_fallback_amended_witness :
    (WhereTag.Trans sampleEnv ⟨"k8s.label.app_1", "'a'"⟩ "=" "k8s.label.app_1 = 'a'"
      sampleEngine sampleStore).node =
      .ok (Node.Expr (passThrough "k8s.label.app_1" "=" "'a'")) :=
  (C37_family_fallback_amended sampleEnv ⟨"k8s.label.app_1", "'a'"⟩ "="
    "k8s.label.app_1 = 'a'" sampleEngine sampleStore).2.2.1 (by decide) rfl
    (Or.inl ⟨by decide, by decide⟩)

/-! ## The tag `ip_version` -/

/-- The filter of `ip_version`, written out. -/
theorem ipVersionFilter_eq (tagItem : Tag) (op value : String) :
    ipVersionFilter tagItem op value =
      Sprintf tagItem.WhereTranslator
        [.str op,
          .str (if ToLower op = "in" ∨ ToLower op = "not in" then
            "(" ++ Join ((valueSlice value).map
              (fun valueStr => if valueStr = "4" then "1" else "0")) "," ++ ")"
           else Join ((valueSlice value).map
              (fun valueStr => if valueStr = "4" then "1" else "0")) ",")] := by
  unfold ipVersionFilter
  have hl : ((valueSlice value).map
      (fun valueStr => if valueStr = "4" then "1" else "0")).length ≠ 0 := by
    rw [List.length_map]
    exact fun h0 => valueSlice_ne_nil value (List.length_eq_zero.mp h0)
  simp only [hl, ne_eq, not_false_eq_true, if_true]

/-- C38: for the tag `ip_version` with a descriptor whose `WhereTranslator` is not empty,
`WhereTag.Trans` returns, in parentheses, that template filled with the rewritten
operator and the list of the versions: the value list, outer parentheses
trimmed and split on commas, mapped element by element to `1` for the element
`4` exactly and to `0` for every other element (so ` 4` and `'4'` give `0`), joined with
commas and put in parentheses exactly when the operator is `in` or `not in` without
regard to case. -/
theorem C38_ip_version (env : Env) (tagItem : Tag) (t : WhereTag) (op0 originFilter : String)
    (e : CHEngine) (store : Store) (htag : t.Tag = "ip_version")
    (hreg : env.GetTag (Trim t.Tag "`") e.DB e.Table "default" = some tagItem)
    (hT : tagItem.WhereTranslator ≠ "") :
    (WhereTag.Trans env t op0 originFilter e store).node =
      .ok (Node.Expr ("(" ++ Sprintf tagItem.WhereTranslator
        [.str (opValue op0 t.Value).1,
          .str (if ToLower (opValue op0 t.Value).1 = "in" ∨
              ToLower (opValue op0 t.Value).1 = "not in" then
            "(" ++ Join ((valueSlice (opValue op0 t.Value).2).map
              (fun valueStr => if valueStr = "4" then "1" else "0")) "," ++ ")"
           else Join ((valueSlice (opValue op0 t.Value).2).map
              (fun valueStr => if valueStr = "4" then "1" else "0")) ",")] ++ ")")) ∧
    valueSlice (opValue op0 t.Value).2 =
      Split (TrimRight (TrimLeft (opValue op0 t.Value).2 "(") ")") "," ∧
    ((valueSlice (opValue op0 t.Value).2).map
      (fun valueStr => if valueStr = "4" then "1" else "0")).length =
      (valueSlice (opValue op0 t.Value).2).length ∧
    (∀ (i : Nat) (h : i < (valueSlice (opValue op0 t.Value).2).length),
      (((valueSlice (opValue op0 t.Value).2).map
        (fun valueStr => if valueStr = "4" then ("1" : String) else "0")).get
          ⟨i, by rw [List.length_map]; exact h⟩ = "1" ↔
        (valueSlice (opValue op0 t.Value).2).get ⟨i, h⟩ = "4")) ∧
    ((ToLower (opValue op0 t.Value).1 = "in" ∨ ToLower (opValue op0 t.Value).1 = "not in") ↔
      (ToLower op0 = "in" ∨ ToLower op0 = "not in")) := by
  refine ⟨?_, rfl, List.length_map _ _, fun i h => ?_, opValue_in_or_not_in op0 t.Value⟩
  · unfold WhereTag.Trans
    simp only [hreg]
    unfold resolved whereFilter
    simp only [hT, ne_eq, not_false_eq_true, if_true, htag, ipVersionFilter_eq]
  · simp only [List.get_eq_getElem, List.getElem_map]
    split
    · simp [*]
    · simp [*]

/-- Witness of C38: a list of three elements under `IN`; the element ` 6` and the element `4`
behind a blank alike give `0`. -/
theorem C38_ip_version_witness :
    (WhereTag.Trans sampleEnv ⟨"ip_version", "(4, 6, 4)"⟩ "IN" "ip_version IN (4, 6, 4)"
      sampleEngine sampleStore).node = .ok (Node.Expr "(is_ipv4 IN (1,0,0))") :=
  (C38_ip_version sampleEnv ⟨"is_ipv4 %s %s", ""⟩ ⟨"ip_version", "(4, 6, 4)"⟩ "IN"
    "ip_version IN (4, 6, 4)" sampleEngine sampleStore rfl rfl (by decide)).1

/-! ## Rows of the app-label lookup -/

/-- C39, the code at the failing input: when the backing store returns the id of a row as an
unsigned integer, the assertion `valueID.(int)` fails at run time and
`GetRemoteReadFilter` returns no filter; the same holds for a row without columns,
on which the index `[0]` is out of range. -/
theorem C39_lookup_rows :
    sampleUnsignedEnv.DoQuery (appLabelSql 3 "=" "'a'") =
      .ok [[Cell.int 11], [Cell.uint64 12]] ∧
    (GetRemoteReadFilter sampleUnsignedEnv "tag.job" "up" "=" "'a'" "tag.job = 'a'"
      sampleRemoteEngine sampleStore).err =
      some (Err.runtime "interface conversion: interface is not int") ∧
    (GetRemoteReadFilter sampleUnsignedEnv "tag.job" "up" "=" "'a'" "tag.job = 'a'"
      sampleRemoteEngine sampleStore).filter = "" ∧
    valueIDString [] = .error (Err.runtime "index out of range [0] with length 0") :=
  ⟨rfl, by decide, by decide, rfl⟩

/-! ## The mutex of the encoder -/

/-- C40, the code at the failing input: `Start` on an encoder that is working returns without
a second refresh loop but with the mutex held (the early `return nil` of line 84
comes before `e.mux.Unlock()`), and neither `Stop` nor `Start` returns after that; on an
encoder that is not working `Start` returns with the mutex free, as `Stop` does. -/
theorem C40_start_keeps_mutex :
    sampleEncoder.Start = some ⟨false, true, true, false, 1, 1⟩ ∧
    Encoder.Start ⟨false, true, true, false, 1, 1⟩ = some ⟨true, true, true, false, 1, 1⟩ ∧
    Encoder.Stop ⟨true, true, true, false, 1, 1⟩ = none ∧
    Encoder.Start ⟨true, true, true, false, 1, 1⟩ = none ∧
    Encoder.Stop ⟨false, true, true, false, 1, 1⟩ = some ⟨false, false, true, true, 1, 1⟩ := by
  decide

end Deepflow
